import Mathlib

/-!
HDF5 block I/O facade, epoch-marker class, cork verification and group names.

A shallow embedding of `src/H5Fio.c`, `src/H5Cepoch.c`, `src/H5Ctest.c` and `src/H5G.c`.

Conventions of the embedding.

* `haddr_t` and `size_t` values are natural numbers below `2^64`; the one sum the
  code forms, `addr + size`, is reduced modulo `2^64` as the C expression is.
* `herr_t` is an integer: `SUCCEED = 0`, `FAIL = -1`, and the code tests
  collaborators with `< 0`.
* The error stack is embedded writer-style: every function returns the list of
  error records it pushed (`HGOTO_ERROR`, `HERROR`).
* The functions the code calls but does not define (identifier registry,
  accumulator, metadata cache, file driver) are fields of an environment record
  `Env`; they act on an abstract world `σ` (device, accumulator and cache
  contents).  Every call the embedded code makes to one of them is appended to a
  trace of `Event`s, so that "is not invoked" and "in this order" are statements
  about that trace.
* `HDassert` lines are preconditions of the C functions and compile to nothing in
  a production build; they are not part of the embedded bodies.  The
  `FUNC_ENTER_*` / `FUNC_LEAVE_*` macros are entry and exit bookkeeping and return
  `ret_value`.
-/

namespace HDF5

/-! ## Basic types -/

abbrev haddr_t := Nat
abbrev hsize_t := Nat
abbrev hid_t := Int
abbrev herr_t := Int
abbrev hbool_t := Bool

def SUCCEED : herr_t := 0
def FAIL : herr_t := -1

/-- The all-ones address, `(haddr_t)(-1)`, used by the library for "no address". -/
def HADDR_UNDEF : haddr_t := 2 ^ 64 - 1

/-- Modelled from the spec: the macro `H5F_addr_defined` (H5Fprivate.h) is not among
the source files; it is the test `(X) != HADDR_UNDEF` that the assertions of
`H5F_block_read` and `H5F_block_write` make on `addr`. -/
def H5F_addr_defined (x : haddr_t) : Bool := x != HADDR_UNDEF

/-- Modelled from the spec: the macro `H5F_addr_le` (H5Fprivate.h) is not among the
source files; the library defines it as
`(X) != HADDR_UNDEF && (Y) != HADDR_UNDEF && (X) <= (Y)`: an undefined temporary
address rejects nothing, and the comparison is an inclusive one. -/
def H5F_addr_le (x y : haddr_t) : Bool :=
  x != HADDR_UNDEF && y != HADDR_UNDEF && decide (x ≤ y)

/-- Memory kinds of `H5FD_mem_t` (H5FDpublic.h), without the two bounds
`H5FD_MEM_NOLIST` and `H5FD_MEM_NTYPES`. -/
inductive H5FD_mem_t
  | H5FD_MEM_DEFAULT
  | H5FD_MEM_SUPER
  | H5FD_MEM_BTREE
  | H5FD_MEM_DRAW
  | H5FD_MEM_GHEAP
  | H5FD_MEM_LHEAP
  | H5FD_MEM_OHDR
  deriving DecidableEq, Repr

open H5FD_mem_t

/-- Major error classes used by the embedded files. -/
inductive H5E_major
  | H5E_ARGS
  | H5E_CACHE
  | H5E_IO
  | H5E_SYM
  | H5E_ATOM
  deriving DecidableEq, Repr

/-- Minor error codes used by the embedded files. -/
inductive H5E_minor
  | H5E_BADRANGE
  | H5E_BADTYPE
  | H5E_READERROR
  | H5E_WRITEERROR
  | H5E_CANTFLUSH
  | H5E_CANTRESET
  | H5E_SYSTEM
  | H5E_BADVALUE
  | H5E_BADITER
  | H5E_NOTFOUND
  | H5E_COMPLEN
  | H5E_EXISTS
  | H5E_CANTINIT
  | H5E_CANTOPENOBJ
  | H5E_CANTREGISTER
  | H5E_CWG
  | H5E_LINK
  deriving DecidableEq, Repr

open H5E_major H5E_minor

/-- One record of the error stack: what `HGOTO_ERROR` / `HERROR` push. -/
structure H5E_error where
  maj : H5E_major
  min : H5E_minor
  msg : String
  deriving DecidableEq, Repr

/-! ## Files -/

/-- A cache entry, with the fields the embedded code reads. -/
structure H5C_cache_entry_t where
  addr : haddr_t
  tag : Option haddr_t
  is_corked : hbool_t
  is_dirty : hbool_t
  deriving DecidableEq, Repr

/-- The metadata cache, as the list of its entries in index order. -/
structure H5C_t where
  entries : List H5C_cache_entry_t
  deriving DecidableEq, Repr

/-- The shared part of a file, `f->shared`. -/
structure H5F_file_t where
  tmp_addr : haddr_t
  lf : Nat
  cache : H5C_t
  deriving DecidableEq, Repr

/-- A file handle, `H5F_t`. -/
structure H5F_t where
  shared : H5F_file_t
  deriving DecidableEq, Repr

/-- The I/O info handed to the accumulator: the file and the resolved property list. -/
structure H5F_io_info_t where
  f : H5F_t
  dxpl : Nat
  deriving DecidableEq, Repr

/-! ## Collaborators and the call trace -/

/-- A call made by the embedded code to a function it does not define. -/
inductive Event
  | H5I_object (id : hid_t)
  | H5F__accum_read (fio : H5F_io_info_t) (type : H5FD_mem_t) (addr : haddr_t) (size : Nat)
      (buf : List Nat)
  | H5F__accum_write (fio : H5F_io_info_t) (type : H5FD_mem_t) (addr : haddr_t) (size : Nat)
      (buf : List Nat)
  | H5AC_flush_tagged_metadata (f : H5F_t) (tag : haddr_t) (dxpl_id : hid_t)
  | H5F__accum_reset (fio : H5F_io_info_t) (flush : hbool_t)
  | H5FD_flush (lf : Nat) (dxpl_id : hid_t) (closing : hbool_t)
  deriving DecidableEq, Repr

/-- The functions `H5Fio.c` and `H5Ctest.c` call and do not define, over a world `σ`. -/
structure Env (σ : Type) where
  /-- The value of the build flag tested by `#ifdef H5_DEBUG_BUILD`. -/
  H5_DEBUG_BUILD : Bool
  /-- The global `H5AC_rawdata_dxpl_id`. -/
  H5AC_rawdata_dxpl_id : hid_t
  /-- Identifier registry lookup: `none` is the C `NULL`. -/
  H5I_object : hid_t → Option Nat
  /-- File-identifier lookup `H5I_object_verify(fid, H5I_FILE)`. -/
  H5I_object_verify_FILE : hid_t → Option H5F_t
  /-- Accumulator read: status, buffer contents afterwards, world afterwards. -/
  H5F__accum_read : H5F_io_info_t → H5FD_mem_t → haddr_t → Nat → List Nat → σ →
    herr_t × List Nat × σ
  /-- Accumulator write: status and world afterwards. -/
  H5F__accum_write : H5F_io_info_t → H5FD_mem_t → haddr_t → Nat → List Nat → σ → herr_t × σ
  /-- Flush of the cache entries with a tag. -/
  H5AC_flush_tagged_metadata : H5F_t → haddr_t → hid_t → σ → herr_t × σ
  /-- Accumulator flush-and-reset. -/
  H5F__accum_reset : H5F_io_info_t → hbool_t → σ → herr_t × σ
  /-- Driver-level flush. -/
  H5FD_flush : Nat → hid_t → hbool_t → σ → herr_t × σ

/-- What a call of the facade leaves behind. -/
structure Outcome (σ : Type) where
  ret_value : herr_t
  errors : List H5E_error
  buf : List Nat
  world : σ
  trace : List Event

/-! ## `H5Fio.c` -/

/-- The local `map_type` of `H5F_block_read` / `H5F_block_write`:
`(type == H5FD_MEM_GHEAP) ? H5FD_MEM_DRAW : type`. -/
def map_type (type : H5FD_mem_t) : H5FD_mem_t :=
  if type = H5FD_MEM_GHEAP then H5FD_MEM_DRAW else type

/-- The local `my_dxpl_id`: `dxpl_id`, replaced under `H5_DEBUG_BUILD` by the raw-data
transfer list when the kind is the global heap. -/
def my_dxpl_id {σ : Type} (env : Env σ) (type : H5FD_mem_t) (dxpl_id : hid_t) : hid_t :=
  if env.H5_DEBUG_BUILD && decide (H5FD_MEM_GHEAP = type) then env.H5AC_rawdata_dxpl_id
  else dxpl_id

/-- `H5F_block_read` (H5Fio.c, lines 95-138). -/
def H5F_block_read {σ : Type} (env : Env σ) (f : H5F_t) (type : H5FD_mem_t) (addr : haddr_t)
    (size : Nat) (dxpl_id : hid_t) (buf : List Nat) (w : σ) : Outcome σ :=
  if H5F_addr_le f.shared.tmp_addr ((addr + size) % 2 ^ 64) then
    { ret_value := FAIL
      errors := [⟨ H5E_IO, H5E_BADRANGE, "attempting I/O in temporary file space"⟩]
      buf := buf, world := w, trace := [] }
  else
    match env.H5I_object (my_dxpl_id env type dxpl_id) with
    | none =>
      { ret_value := FAIL
        errors := [⟨H5E_ARGS, H5E_BADTYPE, "can't get property list"⟩]
        buf := buf, world := w, trace := [Event.H5I_object (my_dxpl_id env type dxpl_id)] }
    | some dxpl =>
      let r := env.H5F__accum_read ⟨f, dxpl⟩ (map_type type) addr size buf w
      if r.1 < 0 then
        { ret_value := FAIL
          errors := [⟨ H5E_IO, H5E_READERROR, "read through metadata accumulator failed"⟩]
          buf := r.2.1, world := r.2.2
          trace := [Event.H5I_object (my_dxpl_id env type dxpl_id),
                    Event.H5F__accum_read ⟨f, dxpl⟩ (map_type type) addr size buf] }
      else
        { ret_value := SUCCEED
          errors := []
          buf := r.2.1, world := r.2.2
          trace := [Event.H5I_object (my_dxpl_id env type dxpl_id),
                    Event.H5F__accum_read ⟨f, dxpl⟩ (map_type type) addr size buf] }

/-- `H5F_block_write` (H5Fio.c, lines 156-200). -/
def H5F_block_write {σ : Type} (env : Env σ) (f : H5F_t) (type : H5FD_mem_t) (addr : haddr_t)
    (size : Nat) (dxpl_id : hid_t) (buf : List Nat) (w : σ) : Outcome σ :=
  if H5F_addr_le f.shared.tmp_addr ((addr + size) % 2 ^ 64) then
    { ret_value := FAIL
      errors := [⟨ H5E_IO, H5E_BADRANGE, "attempting I/O in temporary file space"⟩]
      buf := buf, world := w, trace := [] }
  else
    match env.H5I_object (my_dxpl_id env type dxpl_id) with
    | none =>
      { ret_value := FAIL
        errors := [⟨H5E_ARGS, H5E_BADTYPE, "can't get property list"⟩]
        buf := buf, world := w, trace := [Event.H5I_object (my_dxpl_id env type dxpl_id)] }
    | some dxpl =>
      let r := env.H5F__accum_write ⟨f, dxpl⟩ (map_type type) addr size buf w
      if r.1 < 0 then
        { ret_value := FAIL
          errors := [⟨ H5E_IO, H5E_WRITEERROR, "write through metadata accumulator failed"⟩]
          buf := buf, world := r.2
          trace := [Event.H5I_object (my_dxpl_id env type dxpl_id),
                    Event.H5F__accum_write ⟨f, dxpl⟩ (map_type type) addr size buf] }
      else
        { ret_value := SUCCEED
          errors := []
          buf := buf, world := r.2
          trace := [Event.H5I_object (my_dxpl_id env type dxpl_id),
                    Event.H5F__accum_write ⟨f, dxpl⟩ (map_type type) addr size buf] }

/-- `H5F_flush_tagged_metadata` (H5Fio.c, lines 216-245). -/
def H5F_flush_tagged_metadata {σ : Type} (env : Env σ) (f : H5F_t) (tag : haddr_t)
    (dxpl_id : hid_t) (w : σ) : Outcome σ :=
  let r1 := env.H5AC_flush_tagged_metadata f tag dxpl_id w
  if r1.1 < 0 then
    { ret_value := FAIL
      errors := [⟨H5E_CACHE, H5E_CANTFLUSH, "unable to flush tagged metadata"⟩]
      buf := [], world := r1.2
      trace := [Event.H5AC_flush_tagged_metadata f tag dxpl_id] }
  else
    match env.H5I_object dxpl_id with
    | none =>
      { ret_value := FAIL
        errors := [⟨H5E_ARGS, H5E_BADTYPE, "can't get property list"⟩]
        buf := [], world := r1.2
        trace := [Event.H5AC_flush_tagged_metadata f tag dxpl_id, Event.H5I_object dxpl_id] }
    | some dxpl =>
      let r2 := env.H5F__accum_reset ⟨f, dxpl⟩ true r1.2
      if r2.1 < 0 then
        { ret_value := FAIL
          errors := [⟨ H5E_IO, H5E_CANTRESET, "can't reset accumulator"⟩]
          buf := [], world := r2.2
          trace := [Event.H5AC_flush_tagged_metadata f tag dxpl_id, Event.H5I_object dxpl_id,
                    Event.H5F__accum_reset ⟨f, dxpl⟩ true] }
      else
        let r3 := env.H5FD_flush f.shared.lf dxpl_id false r2.2
        if r3.1 < 0 then
          { ret_value := FAIL
            errors := [⟨ H5E_IO, H5E_WRITEERROR, "low level flush failed"⟩]
            buf := [], world := r3.2
            trace := [Event.H5AC_flush_tagged_metadata f tag dxpl_id, Event.H5I_object dxpl_id,
                      Event.H5F__accum_reset ⟨f, dxpl⟩ true,
                      Event.H5FD_flush f.shared.lf dxpl_id false] }
        else
          { ret_value := SUCCEED
            errors := []
            buf := [], world := r3.2
            trace := [Event.H5AC_flush_tagged_metadata f tag dxpl_id, Event.H5I_object dxpl_id,
                      Event.H5F__accum_reset ⟨f, dxpl⟩ true,
                      Event.H5FD_flush f.shared.lf dxpl_id false] }

/-! ## `H5Cepoch.c` -/

/-- What a class callback leaves behind: its return value, the values of the storage
its output pointers refer to, and the error records it pushed. -/
structure CbRet (ρ : Type) (O : Type) where
  ret_value : ρ
  out : O
  errors : List H5E_error
  deriving DecidableEq, Repr

/-- The record pushed by `HERROR(H5E_CACHE, H5E_SYSTEM, "called unreachable fcn.")`. -/
def unreachable_fcn : H5E_error := ⟨H5E_CACHE, H5E_SYSTEM, "called unreachable fcn."⟩

/-- The class descriptor `H5C_class_t`.  A callback slot is an optional function
(`none` is a `NULL` function pointer).  Pointers to objects (`thing`, `udata`, `f`)
are natural numbers, an image is a list of bytes, and a callback receives the current
value behind each output pointer and returns the value it leaves there. -/
structure H5C_class_t where
  id : Int
  name : String
  mem_type : H5FD_mem_t
  flags : Nat
  get_load_size : Option (Nat → Nat → CbRet herr_t Nat)
  deserialize : Option (List Nat → Nat → Nat → hbool_t → CbRet (Option Nat) hbool_t)
  image_len : Option (Nat → Nat × hbool_t × Nat → CbRet herr_t (Nat × hbool_t × Nat))
  pre_serialize : Option (Nat → hid_t → Nat → haddr_t → Nat → Nat →
    haddr_t × Nat × Nat × Nat → CbRet herr_t (haddr_t × Nat × Nat × Nat))
  serialize : Option (Nat → List Nat → Nat → Nat → CbRet herr_t (List Nat))
  notify : Option (Nat → Nat → CbRet herr_t Unit)
  free_icr : Option (Nat → CbRet herr_t Unit)
  clear : Option (Nat → Nat → hbool_t → CbRet herr_t Unit)
  fsf_size : Option (Nat → Nat → CbRet herr_t Nat)

/-- `H5C__epoch_marker_get_load_size(udata_ptr, image_len_ptr)`. -/
def H5C__epoch_marker_get_load_size (_udata_ptr : Nat) (image_len : Nat) : CbRet herr_t Nat :=
  { ret_value := FAIL, out := image_len, errors := [unreachable_fcn] }

/-- `H5C__epoch_marker_deserialize(image_ptr, len, udata, dirty_ptr)`: returns `NULL`. -/
def H5C__epoch_marker_deserialize (_image : List Nat) (_len : Nat) (_udata : Nat)
    (dirty : hbool_t) : CbRet (Option Nat) hbool_t :=
  { ret_value := none, out := dirty, errors := [unreachable_fcn] }

/-- `H5C__epoch_marker_image_len(thing, image_len_ptr, compressed_ptr, compressed_len_ptr)`. -/
def H5C__epoch_marker_image_len (_thing : Nat) (outs : Nat × hbool_t × Nat) :
    CbRet herr_t (Nat × hbool_t × Nat) :=
  { ret_value := FAIL, out := outs, errors := [unreachable_fcn] }

/-- `H5C__epoch_marker_pre_serialize(f, dxpl_id, thing, addr, len, compressed_len,
new_addr_ptr, new_len_ptr, new_compressed_len_ptr, flags_ptr)`. -/
def H5C__epoch_marker_pre_serialize (_f : Nat) (_dxpl_id : hid_t) (_thing : Nat)
    (_addr : haddr_t) (_len : Nat) (_compressed_len : Nat) (outs : haddr_t × Nat × Nat × Nat) :
    CbRet herr_t (haddr_t × Nat × Nat × Nat) :=
  { ret_value := FAIL, out := outs, errors := [unreachable_fcn] }

/-- `H5C__epoch_marker_serialize(f, image_ptr, len, thing)`. -/
def H5C__epoch_marker_serialize (_f : Nat) (image : List Nat) (_len : Nat) (_thing : Nat) :
    CbRet herr_t (List Nat) :=
  { ret_value := FAIL, out := image, errors := [unreachable_fcn] }

/-- `H5C__epoch_marker_notify(action, thing)`. -/
def H5C__epoch_marker_notify (_action : Nat) (_thing : Nat) : CbRet herr_t Unit :=
  { ret_value := FAIL, out := (), errors := [unreachable_fcn] }

/-- `H5C__epoch_marker_free_icr(thing)`. -/
def H5C__epoch_marker_free_icr (_thing : Nat) : CbRet herr_t Unit :=
  { ret_value := FAIL, out := (), errors := [unreachable_fcn] }

/-- `H5C__epoch_marker_clear(f, thing, about_to_destroy)`. -/
def H5C__epoch_marker_clear (_f : Nat) (_thing : Nat) (_about_to_destroy : hbool_t) :
    CbRet herr_t Unit :=
  { ret_value := FAIL, out := (), errors := [unreachable_fcn] }

/-- `H5C__epoch_marker_fsf_size(thing, fsf_size_ptr)`. -/
def H5C__epoch_marker_fsf_size (_thing : Nat) (fsf_size : Nat) : CbRet herr_t Nat :=
  { ret_value := FAIL, out := fsf_size, errors := [unreachable_fcn] }

/-- The descriptor `H5C__epoch_marker_class` (H5Cepoch.c, lines 101-116).  The two
constants `H5C__EPOCH_MARKER_TYPE` and `H5C__CLASS_NO_FLAGS_SET` are defined in a header
that is not among the source files and are parameters here. -/
def H5C__epoch_marker_class (H5C__EPOCH_MARKER_TYPE : Int) (H5C__CLASS_NO_FLAGS_SET : Nat) :
    H5C_class_t :=
  { id := H5C__EPOCH_MARKER_TYPE
    name := "epoch marker"
    mem_type := H5FD_MEM_DEFAULT
    flags := H5C__CLASS_NO_FLAGS_SET
    get_load_size := some H5C__epoch_marker_get_load_size
    deserialize := some H5C__epoch_marker_deserialize
    image_len := some H5C__epoch_marker_image_len
    pre_serialize := some H5C__epoch_marker_pre_serialize
    serialize := some H5C__epoch_marker_serialize
    notify := some H5C__epoch_marker_notify
    free_icr := some H5C__epoch_marker_free_icr
    clear := some H5C__epoch_marker_clear
    fsf_size := some H5C__epoch_marker_fsf_size }

/-! ## `H5Ctest.c` -/

def H5_ITER_ERROR : Int := -1
def H5_ITER_CONT : Int := 0
def H5_ITER_STOP : Int := 1

/-- Context of the cork verification callback. -/
structure H5C_tag_iter_vct_ctx_t where
  status : hbool_t
  deriving DecidableEq, Repr

/-- What an iteration step or a whole iteration leaves behind: the return value, the
error records pushed, and the entries handed to the callback, in order. -/
structure IterRet where
  ret_value : Int
  errors : List H5E_error
  visited : List H5C_cache_entry_t
  deriving DecidableEq, Repr

/-- `H5C__verify_cork_tag_test_cb` (H5Ctest.c, lines 96-115). -/
def H5C__verify_cork_tag_test_cb (entry : H5C_cache_entry_t) (ctx : H5C_tag_iter_vct_ctx_t) :
    Int × List H5E_error :=
  if entry.is_corked != ctx.status then
    (H5_ITER_ERROR, [⟨H5E_CACHE, H5E_BADVALUE, "bad cork status"⟩])
  else
    (H5_ITER_CONT, [])

/-- Modelled from the spec: the walk inside `H5C__iter_tagged_entries` (H5Ctag.c is not
among the source files).  "`iterate(tag, callback, context)` walks every entry with that
tag, invoking `callback(entry, context) -> {continue, stop, error}`": the entries are
visited in order, and the first return value other than `H5_ITER_CONT` ends the walk and
is the walk's result. -/
def iter_walk {κ : Type} (cb : H5C_cache_entry_t → κ → Int × List H5E_error) (ctx : κ) :
    List H5C_cache_entry_t → IterRet
  | [] => { ret_value := H5_ITER_CONT, errors := [], visited := [] }
  | e :: es =>
    if (cb e ctx).1 ≠ H5_ITER_CONT then
      { ret_value := (cb e ctx).1, errors := (cb e ctx).2, visited := [e] }
    else
      { ret_value := (iter_walk cb ctx es).ret_value
        errors := (cb e ctx).2 ++ (iter_walk cb ctx es).errors
        visited := e :: (iter_walk cb ctx es).visited }

/-- Modelled from the spec: `H5C__iter_tagged_entries` (H5Ctag.c is not among the source
files), for `match_global = FALSE`, the value passed by the one call in the sources.  It
walks the entries of the cache that carry `tag`; a callback error fails the iteration
("iterator-detected invariant violation"), a callback-requested stop does not
("IterationAbort ... not itself an error"). -/
def H5C__iter_tagged_entries {κ : Type} (cache : H5C_t) (tag : haddr_t) (_match_global : hbool_t)
    (cb : H5C_cache_entry_t → κ → Int × List H5E_error) (ctx : κ) : IterRet :=
  let r := iter_walk cb ctx (cache.entries.filter (fun e => e.tag == some tag))
  if r.ret_value < 0 then
    { ret_value := FAIL
      errors := r.errors ++ [⟨H5E_CACHE, H5E_BADITER, "tagged entry iteration callback failed"⟩]
      visited := r.visited }
  else
    { ret_value := SUCCEED, errors := r.errors, visited := r.visited }

/-- `H5C__verify_cork_tag_test` (H5Ctest.c, lines 131-158). -/
def H5C__verify_cork_tag_test {σ : Type} (env : Env σ) (fid : hid_t) (tag : haddr_t)
    (status : hbool_t) : IterRet :=
  match env.H5I_object_verify_FILE fid with
  | none =>
    { ret_value := FAIL, errors := [⟨H5E_ARGS, H5E_BADTYPE, "not a file"⟩], visited := [] }
  | some f =>
    let r := H5C__iter_tagged_entries f.shared.cache tag false H5C__verify_cork_tag_test_cb
      (H5C_tag_iter_vct_ctx_t.mk status)
    if r.ret_value < 0 then
      { ret_value := FAIL
        errors := r.errors ++ [⟨H5E_CACHE, H5E_BADITER, "iteration of tagged entries failed"⟩]
        visited := r.visited }
    else
      { ret_value := SUCCEED, errors := r.errors, visited := r.visited }

/-! ## A concrete world

A small executable instance of the collaborators, used to run the embedded functions on
concrete inputs.  The accumulator stages every write; a read is served from the newest
staged write of the same kind, address and size, then from the device, then as zeroes.
Faults can be injected per collaborator. -/

/-- One block: kind, address, size, bytes. -/
abbrev Block := H5FD_mem_t × haddr_t × Nat × List Nat

/-- State of the concrete world. -/
structure SimWorld where
  staged : List Block
  device : List Block
  cache_flushes : Nat
  device_flushes : Nat
  cache_fault : Bool
  accum_fault : Bool
  device_fault : Bool
  deriving DecidableEq, Repr

/-- The newest block with the given kind, address and size. -/
def lookupBlock (k : H5FD_mem_t) (a : haddr_t) (n : Nat) : List Block → Option (List Nat)
  | [] => none
  | b :: bs => if b.1 = k ∧ b.2.1 = a ∧ b.2.2.1 = n then some b.2.2.2 else lookupBlock k a n bs

/-- A file whose temporary space starts at `tmp_addr`, holding the given cache entries. -/
def simFile (tmp_addr : haddr_t) (entries : List H5C_cache_entry_t) : H5F_t :=
  ⟨⟨tmp_addr, 0, ⟨entries⟩⟩⟩

/-- Two entries tagged 1000, corked, and one entry tagged 2000, not corked. -/
def simEntries : List H5C_cache_entry_t :=
  [⟨100, some 1000, true, false⟩, ⟨200, some 1000, true, true⟩, ⟨300, some 2000, false, false⟩]

/-- The concrete collaborators: positive identifiers resolve, file identifier 1 is the
file of `simEntries`. -/
def simEnv : Env SimWorld :=
  { H5_DEBUG_BUILD := false
    H5AC_rawdata_dxpl_id := 7
    H5I_object := fun id => if 0 < id then some id.toNat else none
    H5I_object_verify_FILE := fun fid => if fid = 1 then some (simFile 4096 simEntries) else none
    H5F__accum_read := fun _ k a n _ w =>
      if w.accum_fault then (FAIL, [], w)
      else match lookupBlock k a n w.staged with
        | some b => (SUCCEED, b, w)
        | none => match lookupBlock k a n w.device with
          | some b => (SUCCEED, b, w)
          | none => (SUCCEED, List.replicate n 0, w)
    H5F__accum_write := fun _ k a n buf w =>
      if w.accum_fault then (FAIL, w) else (SUCCEED, { w with staged := (k, a, n, buf) :: w.staged })
    H5AC_flush_tagged_metadata := fun _ _ _ w =>
      if w.cache_fault then (FAIL, w) else (SUCCEED, { w with cache_flushes := w.cache_flushes + 1 })
    H5F__accum_reset := fun _ flush w =>
      if w.accum_fault then (FAIL, w)
      else (SUCCEED, { w with staged := [], device := if flush then w.staged ++ w.device else w.device })
    H5FD_flush := fun _ _ _ w =>
      if w.device_fault then (FAIL, w) else (SUCCEED, { w with device_flushes := w.device_flushes + 1 }) }

/-- The concrete world with nothing staged and no fault. -/
def simWorld : SimWorld := ⟨[], [], 0, 0, false, false, false⟩

/-- The concrete world in which the cache flush fails. -/
def simWorldCacheFault : SimWorld := { simWorld with cache_fault := true }

/-- The concrete world in which the accumulator fails. -/
def simWorldAccumFault : SimWorld := { simWorld with accum_fault := true }

/-- The concrete world in which the driver flush fails. -/
def simWorldDeviceFault : SimWorld := { simWorld with device_fault := true }

/-! ## Specification-side notions -/

/-- The arguments of an accumulator read or write recorded in the trace. -/
def Event.accum_args : Event → Option (H5F_io_info_t × H5FD_mem_t × haddr_t × Nat × List Nat)
  | Event.H5F__accum_read fio t a n b => some (fio, t, a, n, b)
  | Event.H5F__accum_write fio t a n b => some (fio, t, a, n, b)
  | _ => none

/-- Which collaborator an event calls. -/
def Event.kind : Event → Nat
  | Event.H5I_object _ => 0
  | Event.H5F__accum_read _ _ _ _ _ => 1
  | Event.H5F__accum_write _ _ _ _ _ => 2
  | Event.H5AC_flush_tagged_metadata _ _ _ => 3
  | Event.H5F__accum_reset _ _ => 4
  | Event.H5FD_flush _ _ _ => 5

/-- Read-after-write coherence of the accumulator layer: a successful accumulator write
of `buf` followed at once by an accumulator read of the same kind, address and size on
the same file succeeds and yields `buf`. -/
def AccumCoherent {σ : Type} (env : Env σ) : Prop :=
  ∀ (f : H5F_t) (p q : Nat) (k : H5FD_mem_t) (a : haddr_t) (n : Nat) (buf b0 : List Nat) (w : σ),
    0 ≤ (env.H5F__accum_write ⟨f, p⟩ k a n buf w).1 →
    0 ≤ (env.H5F__accum_read ⟨f, q⟩ k a n b0 (env.H5F__accum_write ⟨f, p⟩ k a n buf w).2).1 ∧
    (env.H5F__accum_read ⟨f, q⟩ k a n b0 (env.H5F__accum_write ⟨f, p⟩ k a n buf w).2).2.1 = buf

/-! ## `H5G.c`: data

`H5G.c` belongs to an older layer of the library than the three files above and has its
own `H5F_t`; its embedding lives in the namespace `H5G`.

* A C pointer to a structure is a natural number, `0` being `NULL`; the structures live
  in heaps that are total functions, so a dereference always yields a value (the
  `assert` lines of the C code exclude the `NULL` cases).
* A name is the list of the characters before its terminator; a `NULL` name is `none`.
* The error stack and the trace of collaborator calls are fields of the world: errors
  are pushed at the end, `H5E_clear` empties the stack.  The trace records the calls
  that search or change symbol tables, object headers, the registry and B-trees; the two
  read-only identifier queries of `H5G_loc` (`H5I_group`, `H5I_object`) are not recorded.
* Collaborators that work on symbol tables, object headers and the identifier registry
  act on the external part `ext` of the world; the two that call back into the library
  (`H5I_dec_ref`, which runs the group's free function, and `H5B_iterate`, which runs
  the application's operator) act on the whole world.
* Reference counts are C `int`s, embedded as unbounded integers.
-/

namespace H5G

abbrev Ptr := Nat

/-- A symbol-table entry, with the fields `H5G.c` reads: the object header address, the
file it lives in, and the cached B-tree address (`cache.stab.btree_addr`). -/
structure H5G_entry_t where
  header : haddr_t
  file : Ptr
  btree_addr : haddr_t
  deriving DecidableEq, Repr

/-- The value `memset(ent, 0, sizeof(H5G_entry_t)); H5F_addr_undef(&(ent->header))`
leaves in an entry. -/
def H5G_entry_undef : H5G_entry_t := ⟨HADDR_UNDEF, 0, 0⟩

/-- An open group, `H5G_t`. -/
structure H5G_t where
  ent : H5G_entry_t
  nref : Int
  deriving DecidableEq, Repr

/-- The shared part of a file: the root group. -/
structure H5F_file_t where
  root_grp : Ptr
  deriving DecidableEq, Repr

/-- A file handle of this layer: the shared part and the stack of current working
groups (`H5G_cwgstk_t`, a linked list, top first; `NULL` is the empty list). -/
structure H5F_t where
  shared : H5F_file_t
  cwg_stack : List Ptr
  deriving DecidableEq, Repr

/-- The identifier groups `H5G_loc` distinguishes. -/
inductive H5I_group_t
  | H5_FILE
  | H5_GROUP
  | H5_OTHER
  deriving DecidableEq, Repr

/-- A call to a function `H5G.c` uses and does not define. -/
inductive Call
  | H5G_stab_find (grp_ent : H5G_entry_t) (name : List Char)
  | H5G_stab_insert (grp_ent : H5G_entry_t) (name : List Char) (obj_ent : H5G_entry_t)
  | H5G_stab_create (file : Ptr) (size_hint : Nat)
  | H5O_link (ent : H5G_entry_t) (adjust : Int)
  | H5O_open (ent : H5G_entry_t)
  | H5O_close (ent : H5G_entry_t)
  | H5O_read (ent : H5G_entry_t)
  | H5I_register (grp : Ptr)
  | H5I_dec_ref (id : hid_t)
  | H5B_iterate (file : Ptr) (addr : haddr_t) (group : Ptr) (group_id : hid_t) (skip : Int)
      (op : Nat) (op_data : Nat)
  deriving DecidableEq, Repr

/-- The world `H5G.c` runs in: the heap of groups, the heap of files, the next address
`H5MM_xcalloc` hands out, the error stack, the trace, and the external state. -/
structure World (ω : Type) where
  grp : Ptr → H5G_t
  file : Ptr → H5F_t
  brk : Ptr
  errs : List H5E_error
  log : List Call
  ext : ω

/-- `HRETURN_ERROR` / `HGOTO_ERROR` / `HERROR`: push a record on the error stack. -/
def World.push {ω : Type} (w : World ω) (e : H5E_error) : World ω :=
  { w with errs := w.errs ++ [e] }

/-- Record a collaborator call. -/
def World.call {ω : Type} (w : World ω) (c : Call) : World ω :=
  { w with log := w.log ++ [c] }

/-- `H5E_clear()`. -/
def World.H5E_clear {ω : Type} (w : World ω) : World ω :=
  { w with errs := [] }

/-- Store into `grp->nref`. -/
def World.set_nref {ω : Type} (w : World ω) (g : Ptr) (n : Int) : World ω :=
  { w with grp := Function.update w.grp g { w.grp g with nref := n } }

/-- Store into `grp->ent`. -/
def World.set_ent {ω : Type} (w : World ω) (g : Ptr) (e : H5G_entry_t) : World ω :=
  { w with grp := Function.update w.grp g { w.grp g with ent := e } }

/-- Store into `f->cwg_stack`. -/
def World.set_stack {ω : Type} (w : World ω) (f : Ptr) (s : List Ptr) : World ω :=
  { w with file := Function.update w.file f { w.file f with cwg_stack := s } }

/-- `H5MM_xcalloc(1, sizeof(H5G_t))`: a zero-filled group at a new address. -/
def World.calloc_group {ω : Type} (w : World ω) : Ptr × World ω :=
  (w.brk, { w with grp := Function.update w.grp w.brk ⟨⟨0, 0, 0⟩, 0⟩, brk := w.brk + 1 })

/-- The functions `H5G.c` calls and does not define. -/
structure GEnv (ω : Type) where
  /-- The identifier group of an id, `H5I_group`. -/
  H5I_group : hid_t → ω → H5I_group_t
  /-- The object behind an id, `H5I_object` (`0` is `NULL`). -/
  H5I_object : hid_t → ω → Ptr
  /-- Registration of a group, `H5I_register(H5_GROUP, grp)`. -/
  H5I_register : Ptr → ω → hid_t × ω
  /-- Release of one reference to an id, which closes the group when it was the last. -/
  H5I_dec_ref : hid_t → World ω → Int × World ω
  /-- Symbol-table search: status and the value left in `obj_ent`. -/
  H5G_stab_find : H5G_entry_t → List Char → H5G_entry_t → ω → herr_t × H5G_entry_t
  /-- Symbol-table insertion. -/
  H5G_stab_insert : H5G_entry_t → List Char → H5G_entry_t → ω → herr_t × ω
  /-- Symbol-table creation: status and the entry of the new group. -/
  H5G_stab_create : Ptr → Nat → ω → herr_t × H5G_entry_t × ω
  /-- Link-count adjustment: the new count, or a negative value. -/
  H5O_link : H5G_entry_t → Int → ω → Int × ω
  /-- Opening of an object header. -/
  H5O_open : H5G_entry_t → ω → herr_t × ω
  /-- Closing of an object header. -/
  H5O_close : H5G_entry_t → ω → herr_t × ω
  /-- Whether `H5O_read(ent, H5O_STAB, 0, &mesg)` returns a message (non-`NULL`). -/
  H5O_read_STAB : H5G_entry_t → ω → Bool
  /-- B-tree iteration over the members of a group. -/
  H5B_iterate : Ptr → haddr_t → Ptr → hid_t → Int → Nat → Nat → World ω → herr_t × World ω

/-! ## `H5G.c`: names -/

/-- `H5G_component` (H5G.c, lines 578-586): the pointer past the leading slashes (never
`NULL`) and, through `size_p`, the length of the component that starts there. -/
def H5G_component (name : List Char) : Option (List Char) × Nat :=
  (some (name.dropWhile (· = '/')), ((name.dropWhile (· = '/')).takeWhile (· ≠ '/')).length)

/-- The out-parameters and return value of `H5G_namei`.  The caller's `NULL` for an
out-parameter only means that the value is not stored. -/
structure NameiRet where
  ret_value : herr_t
  rest : List Char
  grp_ent : H5G_entry_t
  obj_ent : H5G_entry_t
  deriving DecidableEq, Repr

/-- The `while` loop of `H5G_namei` (H5G.c, lines 680-720).  Every iteration that
continues removes at least one character from `name`, so `name.length + 1` rounds are
enough; the first argument counts the rounds left. -/
def H5G_namei_loop {ω : Type} (env : GEnv ω) :
    Nat → List Char → List Char → H5G_entry_t → H5G_entry_t → World ω → NameiRet × World ω
  | 0, _, rest, grp_ent, obj_ent, w => (⟨FAIL, rest, grp_ent, obj_ent⟩, w)
  | fuel + 1, name, _, grp_ent, obj_ent, w =>
    match H5G_component name with
    | (none, _) => (⟨SUCCEED, [], grp_ent, obj_ent⟩, w)
    | (some name, nchars) =>
      if name = [] then (⟨SUCCEED, name, grp_ent, obj_ent⟩, w)
      else if nchars + 1 > 1024 then
        (⟨FAIL, name, grp_ent, obj_ent⟩, w.push ⟨H5E_SYM, H5E_COMPLEN, "component is too long"⟩)
      else if name.take nchars = ['.'] then
        H5G_namei_loop env fuel (name.drop nchars) name grp_ent obj_ent w
      else
        let r := env.H5G_stab_find obj_ent (name.take nchars) H5G_entry_undef w.ext
        if r.1 < 0 then
          (⟨FAIL, name, obj_ent, r.2⟩,
            (w.call (Call.H5G_stab_find obj_ent (name.take nchars))).push
              ⟨H5E_SYM, H5E_NOTFOUND, "component not found"⟩)
        else
          H5G_namei_loop env fuel (name.drop nchars) name obj_ent r.2
            (w.call (Call.H5G_stab_find obj_ent (name.take nchars)))

/-- `H5G_entof` (H5G.c, lines 1314-1318). -/
def H5G_entof {ω : Type} (w : World ω) (grp : Ptr) : Option H5G_entry_t :=
  if grp = 0 then none else some (w.grp grp).ent

/-- `H5G_fileof` (H5G.c, lines 1337-1342). -/
def H5G_fileof {ω : Type} (w : World ω) (grp : Ptr) : Ptr :=
  (w.grp grp).ent.file

/-- `H5G_namei` (H5G.c, lines 645-723). -/
def H5G_namei {ω : Type} (env : GEnv ω) (w : World ω) (loc_ent : Option H5G_entry_t)
    (name : Option (List Char)) : NameiRet × World ω :=
  match name with
  | none =>
    (⟨FAIL, [], H5G_entry_undef, H5G_entry_undef⟩, w.push ⟨H5E_SYM, H5E_NOTFOUND, "no name given"⟩)
  | some n =>
    if n = [] then
      (⟨FAIL, n, H5G_entry_undef, H5G_entry_undef⟩, w.push ⟨H5E_SYM, H5E_NOTFOUND, "no name given"⟩)
    else
      match loc_ent with
      | none =>
        (⟨FAIL, n, H5G_entry_undef, H5G_entry_undef⟩,
          w.push ⟨H5E_SYM, H5E_NOTFOUND, "no current working group"⟩)
      | some loc =>
        if n.head? = some '/' then
          H5G_namei_loop env (n.length + 1) n n H5G_entry_undef
            (w.grp (w.file loc.file).shared.root_grp).ent w
        else
          H5G_namei_loop env (n.length + 1) n n H5G_entry_undef loc w


/-! ## `H5G.c`: groups -/

/-- Run a collaborator that acts on the external state, and record the call. -/
def World.ext_call {ω : Type} {α : Type} (w : World ω) (c : Call) (r : α × ω) : World ω :=
  { w with ext := r.2, log := w.log ++ [c] }

/-- `H5G_find` (H5G.c, lines 1281-1295). -/
def H5G_find {ω : Type} (env : GEnv ω) (w : World ω) (loc : Ptr) (name : List Char) :
    NameiRet × World ω :=
  let r := H5G_namei env w (H5G_entof w loc) (some name)
  if r.1.ret_value < 0 then
    ({ r.1 with ret_value := FAIL }, r.2.push ⟨H5E_SYM, H5E_NOTFOUND, "object not found"⟩)
  else
    ({ r.1 with ret_value := SUCCEED }, r.2)

/-- `H5G_reopen` (H5G.c, lines 951-962): `grp->nref++`, returning `grp`. -/
def H5G_reopen {ω : Type} (w : World ω) (grp : Ptr) : Ptr × World ω :=
  (grp, w.set_nref grp ((w.grp grp).nref + 1))

/-- `H5G_close` (H5G.c, lines 981-999). -/
def H5G_close {ω : Type} (env : GEnv ω) (w : World ω) (grp : Ptr) : herr_t × World ω :=
  if (w.grp grp).nref = 1 then
    let r := env.H5O_close (w.grp grp).ent w.ext
    let w1 := w.ext_call (Call.H5O_close (w.grp grp).ent) r
    if r.1 < 0 then
      (FAIL, w1.push ⟨H5E_SYM, H5E_CANTINIT, "unable to close"⟩)
    else
      (SUCCEED, w1.set_nref grp ((w1.grp grp).nref - 1))
  else
    (SUCCEED, w.set_nref grp ((w.grp grp).nref - 1))

/-- `H5G_create` (H5G.c, lines 827-880); the result is the new group, `0` for `NULL`. -/
def H5G_create {ω : Type} (env : GEnv ω) (w : World ω) (loc : Ptr) (name : List Char)
    (size_hint : Nat) : Ptr × World ω :=
  let r := H5G_namei env w (H5G_entof w loc) (some name)
  if r.1.ret_value = 0 then
    (0, r.2.push ⟨H5E_SYM, H5E_EXISTS, "already exists"⟩)
  else
    let w1 := r.2.H5E_clear
    let rest := (H5G_component r.1.rest).1.getD []
    let nchars := (H5G_component r.1.rest).2
    let create := fun (rest : List Char) =>
      let a := w1.calloc_group
      let c := env.H5G_stab_create r.1.grp_ent.file size_hint a.2.ext
      let w2 := (a.2.ext_call (Call.H5G_stab_create r.1.grp_ent.file size_hint) (c.1, c.2.2)).set_ent
        a.1 c.2.1
      if c.1 < 0 then
        (0, w2.push ⟨H5E_SYM, H5E_CANTINIT, "can't create grp"⟩)
      else
        let i := env.H5G_stab_insert r.1.grp_ent rest c.2.1 w2.ext
        let w3 := w2.ext_call (Call.H5G_stab_insert r.1.grp_ent rest c.2.1) i
        if i.1 < 0 then
          let k := env.H5O_close c.2.1 w3.ext
          (0, (w3.ext_call (Call.H5O_close c.2.1) k).push ⟨H5E_SYM, H5E_CANTINIT, "can't insert"⟩)
        else
          (a.1, w3.set_nref a.1 1)
    if rest.drop nchars ≠ [] then
      if (H5G_component (rest.drop nchars)).1.isSome then
        (0, w1.push ⟨H5E_SYM, H5E_NOTFOUND, "missing component"⟩)
      else if nchars + 1 > 1024 then
        (0, w1.push ⟨H5E_SYM, H5E_COMPLEN, "component is too long"⟩)
      else
        create (rest.take nchars)
    else
      create rest

/-- `H5G_open` (H5G.c, lines 899-932); the result is the group, `0` for `NULL`. -/
def H5G_open {ω : Type} (env : GEnv ω) (w : World ω) (loc : Ptr) (name : List Char) :
    Ptr × World ω :=
  let a := w.calloc_group
  let r := H5G_find env a.2 loc name
  let w1 := r.2.set_ent a.1 r.1.obj_ent
  if r.1.ret_value < 0 then
    (0, w1.push ⟨H5E_SYM, H5E_NOTFOUND, "group not found"⟩)
  else
    let o := env.H5O_open r.1.obj_ent w1.ext
    let w2 := w1.ext_call (Call.H5O_open r.1.obj_ent) o
    if o.1 < 0 then
      (0, w2.push ⟨H5E_SYM, H5E_CANTOPENOBJ, "unable to open group"⟩)
    else if env.H5O_read_STAB r.1.obj_ent w2.ext = false then
      let k := env.H5O_close r.1.obj_ent w2.ext
      (0, ((w2.call (Call.H5O_read r.1.obj_ent)).ext_call (Call.H5O_close r.1.obj_ent) k).push
        ⟨H5E_SYM, H5E_CANTOPENOBJ, "not a group"⟩)
    else
      (a.1, (w2.call (Call.H5O_read r.1.obj_ent)).set_nref a.1 1)

/-- `H5G_set` (H5G.c, lines 1030-1054). -/
def H5G_set {ω : Type} (env : GEnv ω) (w : World ω) (grp : Ptr) : herr_t × World ω :=
  match (w.file (H5G_fileof w grp)).cwg_stack with
  | [] =>
    let o := H5G_reopen w grp
    (SUCCEED, o.2.set_stack (H5G_fileof w grp) [o.1])
  | top :: _ =>
    let c := H5G_close env w top
    if c.1 < 0 then
      (FAIL, c.2.push ⟨H5E_SYM, H5E_CWG, "couldn't close previous current working group"⟩)
    else
      let o := H5G_reopen c.2 grp
      (SUCCEED, o.2.set_stack (H5G_fileof w grp)
        (o.1 :: (o.2.file (H5G_fileof w grp)).cwg_stack.tail))

/-- `H5G_getcwg` (H5G.c, lines 1075-1092). -/
def H5G_getcwg {ω : Type} (w : World ω) (f : Ptr) : Ptr :=
  match (w.file f).cwg_stack with
  | top :: _ => top
  | [] => (w.file f).shared.root_grp

/-- `H5G_push` (H5G.c, lines 1114-1133). -/
def H5G_push {ω : Type} (w : World ω) (grp : Ptr) : herr_t × World ω :=
  let o := H5G_reopen w grp
  (SUCCEED, o.2.set_stack (H5G_fileof o.2 grp) (o.1 :: (o.2.file (H5G_fileof o.2 grp)).cwg_stack))

/-- `H5G_pop` (H5G.c, lines 1156-1179). -/
def H5G_pop {ω : Type} (env : GEnv ω) (w : World ω) (f : Ptr) : herr_t × World ω :=
  match (w.file f).cwg_stack with
  | top :: next =>
    let c := H5G_close env w top
    if c.1 < 0 then
      (FAIL, c.2.push ⟨H5E_SYM, H5E_CWG, "can't close current working group"⟩)
    else
      (SUCCEED, c.2.set_stack f next)
  | [] =>
    (FAIL, w.push ⟨H5E_SYM, H5E_CWG, "stack is empty"⟩)

/-- `H5G_insert` (H5G.c, lines 1200-1251). -/
def H5G_insert {ω : Type} (env : GEnv ω) (w : World ω) (loc : Ptr) (name : List Char)
    (ent : H5G_entry_t) : herr_t × World ω :=
  let r := H5G_namei env w (H5G_entof w loc) (some name)
  if r.1.ret_value ≥ 0 then
    (FAIL, r.2.push ⟨H5E_SYM, H5E_EXISTS, "already exists"⟩)
  else
    let w1 := r.2.H5E_clear
    let rest := (H5G_component r.1.rest).1.getD []
    let nchars := (H5G_component r.1.rest).2
    let insert := fun (rest : List Char) =>
      let l := env.H5O_link ent 1 w1.ext
      let w2 := w1.ext_call (Call.H5O_link ent 1) l
      if l.1 < 0 then
        (FAIL, w2.push ⟨H5E_SYM, H5E_LINK, "link inc failure"⟩)
      else
        let i := env.H5G_stab_insert r.1.grp_ent rest ent w2.ext
        let w3 := w2.ext_call (Call.H5G_stab_insert r.1.grp_ent rest ent) i
        if i.1 < 0 then
          (FAIL, w3.push ⟨H5E_SYM, H5E_CANTINIT, "can't insert"⟩)
        else
          (SUCCEED, w3)
    if rest.drop nchars ≠ [] then
      if (H5G_component (rest.drop nchars)).1.isSome then
        (FAIL, w1.push ⟨H5E_SYM, H5E_NOTFOUND, "component not found"⟩)
      else if nchars + 1 > 1024 then
        (FAIL, w1.push ⟨H5E_SYM, H5E_COMPLEN, "component is too long"⟩)
      else
        insert (rest.take nchars)
    else
      insert rest

/-- `H5G_loc` (H5G.c, lines 1362-1387); the result is the group, `0` for `NULL`. -/
def H5G_loc {ω : Type} (env : GEnv ω) (w : World ω) (loc_id : hid_t) : Ptr × World ω :=
  if env.H5I_group loc_id w.ext = H5I_group_t.H5_FILE then
    if env.H5I_object loc_id w.ext = 0 then
      (0, w.push ⟨H5E_ARGS, H5E_BADVALUE, "invalid file ID"⟩)
    else if H5G_getcwg w (env.H5I_object loc_id w.ext) = 0 then
      (0, w.push ⟨H5E_ARGS, H5E_BADVALUE, "unable to get current working directory"⟩)
    else
      (H5G_getcwg w (env.H5I_object loc_id w.ext), w)
  else if env.H5I_group loc_id w.ext = H5I_group_t.H5_GROUP then
    if env.H5I_object loc_id w.ext = 0 then
      (0, w.push ⟨H5E_ARGS, H5E_BADVALUE, "invalid group ID"⟩)
    else
      (env.H5I_object loc_id w.ext, w)
  else
    (0, w.push ⟨H5E_ARGS, H5E_BADTYPE, "not a location"⟩)

/-- The test `!name || !*name`. -/
def no_name (name : Option (List Char)) : Bool :=
  match name with
  | none => true
  | some n => n.isEmpty


/-! ## `H5G.c`: API functions -/

/-- `H5Gcreate` (H5G.c, lines 126-153). -/
def H5Gcreate {ω : Type} (env : GEnv ω) (w : World ω) (loc_id : hid_t)
    (name : Option (List Char)) (size_hint : Nat) : hid_t × World ω :=
  let l := H5G_loc env w loc_id
  if l.1 = 0 then
    (FAIL, l.2.push ⟨H5E_ARGS, H5E_BADTYPE, "not a location"⟩)
  else if no_name name then
    (FAIL, l.2.push ⟨H5E_ARGS, H5E_BADVALUE, "no name given"⟩)
  else
    let g := H5G_create env l.2 l.1 (name.getD []) size_hint
    if g.1 = 0 then
      (FAIL, g.2.push ⟨H5E_SYM, H5E_CANTINIT, "unable to create group"⟩)
    else
      let r := env.H5I_register g.1 g.2.ext
      let w1 := g.2.ext_call (Call.H5I_register g.1) r
      if r.1 < 0 then
        (FAIL, (H5G_close env w1 g.1).2.push ⟨H5E_ATOM, H5E_CANTREGISTER, "unable to register group"⟩)
      else
        (r.1, w1)

/-- `H5Gopen` (H5G.c, lines 175-203). -/
def H5Gopen {ω : Type} (env : GEnv ω) (w : World ω) (loc_id : hid_t)
    (name : Option (List Char)) : hid_t × World ω :=
  let l := H5G_loc env w loc_id
  if l.1 = 0 then
    (FAIL, l.2.push ⟨H5E_ARGS, H5E_BADTYPE, "not a location"⟩)
  else if no_name name then
    (FAIL, l.2.push ⟨H5E_ARGS, H5E_BADVALUE, "no name"⟩)
  else
    let g := H5G_open env l.2 l.1 (name.getD [])
    if g.1 = 0 then
      (FAIL, g.2.push ⟨H5E_SYM, H5E_CANTOPENOBJ, "unable to open group"⟩)
    else
      let r := env.H5I_register g.1 g.2.ext
      let w1 := g.2.ext_call (Call.H5I_register g.1) r
      if r.1 < 0 then
        (FAIL, (H5G_close env w1 g.1).2.push ⟨H5E_ATOM, H5E_CANTREGISTER, "unable to register group"⟩)
      else
        (r.1, w1)

/-- `H5Gset` (H5G.c, lines 273-303). -/
def H5Gset {ω : Type} (env : GEnv ω) (w : World ω) (loc_id : hid_t)
    (name : Option (List Char)) : herr_t × World ω :=
  let l := H5G_loc env w loc_id
  if l.1 = 0 then
    (FAIL, l.2.push ⟨H5E_ARGS, H5E_BADTYPE, "not a location"⟩)
  else if no_name name then
    (FAIL, l.2.push ⟨H5E_ARGS, H5E_BADVALUE, "no name"⟩)
  else
    let g := H5G_open env l.2 l.1 (name.getD [])
    if g.1 = 0 then
      (FAIL, g.2.push ⟨H5E_ARGS, H5E_NOTFOUND, "no such group"⟩)
    else
      let s := H5G_set env g.2 g.1
      if s.1 < 0 then
        (FAIL, s.2.push ⟨H5E_SYM, H5E_CANTINIT, "unable to change current working group"⟩)
      else
        let c := H5G_close env s.2 g.1
        if c.1 < 0 then
          (FAIL, c.2.push ⟨H5E_SYM, H5E_CANTINIT, "unable to close group"⟩)
        else
          (SUCCEED, c.2)

/-- `H5Gpush` (H5G.c, lines 333-362). -/
def H5Gpush {ω : Type} (env : GEnv ω) (w : World ω) (loc_id : hid_t)
    (name : Option (List Char)) : herr_t × World ω :=
  let l := H5G_loc env w loc_id
  if l.1 = 0 then
    (FAIL, l.2.push ⟨H5E_ARGS, H5E_BADTYPE, "not a location"⟩)
  else if no_name name then
    (FAIL, l.2.push ⟨H5E_ARGS, H5E_BADVALUE, "no name"⟩)
  else
    let g := H5G_open env l.2 l.1 (name.getD [])
    if g.1 = 0 then
      (FAIL, g.2.push ⟨H5E_ARGS, H5E_NOTFOUND, "no such group"⟩)
    else
      let s := H5G_push g.2 g.1
      if s.1 < 0 then
        (FAIL, s.2.push ⟨H5E_SYM, H5E_CANTINIT, "can't change current working group"⟩)
      else
        let c := H5G_close env s.2 g.1
        if c.1 < 0 then
          (FAIL, c.2.push ⟨H5E_SYM, H5E_CANTINIT, "unable to close group"⟩)
        else
          (SUCCEED, c.2)

/-- `H5Gpop` (H5G.c, lines 397-414). -/
def H5Gpop {ω : Type} (env : GEnv ω) (w : World ω) (loc_id : hid_t) : herr_t × World ω :=
  let l := H5G_loc env w loc_id
  if l.1 = 0 then
    (FAIL, l.2.push ⟨H5E_ARGS, H5E_BADTYPE, "not a location"⟩)
  else
    let r := H5G_pop env l.2 (H5G_fileof l.2 l.1)
    if r.1 < 0 then
      (FAIL, r.2.push ⟨H5E_SYM, H5E_CANTINIT, "stack is empty"⟩)
    else
      (SUCCEED, r.2)

/-- `H5Giterate` (H5G.c, lines 444-493).  `idx` is the value behind the pointer (`none`
for `NULL`, read as `0`); `op` is the operator, `0` for `NULL`. -/
def H5Giterate {ω : Type} (env : GEnv ω) (w : World ω) (loc_id : hid_t)
    (name : Option (List Char)) (idx : Option Int) (op : Nat) (op_data : Nat) :
    herr_t × World ω :=
  let l := H5G_loc env w loc_id
  if l.1 = 0 then
    (FAIL, l.2.push ⟨H5E_ARGS, H5E_BADTYPE, "not a location"⟩)
  else if no_name name then
    (FAIL, l.2.push ⟨H5E_ARGS, H5E_BADVALUE, "no name specified"⟩)
  else if op = 0 then
    (FAIL, l.2.push ⟨H5E_ARGS, H5E_BADVALUE, "no operator specified"⟩)
  else
    let g := H5G_open env l.2 l.1 (name.getD [])
    if g.1 = 0 then
      (FAIL, g.2.push ⟨H5E_SYM, H5E_CANTINIT, "unable to open group"⟩)
    else
      let r := env.H5I_register g.1 g.2.ext
      let w1 := g.2.ext_call (Call.H5I_register g.1) r
      if r.1 < 0 then
        (FAIL, (H5G_close env w1 g.1).2.push ⟨H5E_SYM, H5E_CANTINIT, "unable to register group"⟩)
      else
        let it := env.H5B_iterate (H5G_fileof w1 g.1) (w1.grp g.1).ent.btree_addr g.1 r.1
          (idx.getD 0) op op_data
          (w1.call (Call.H5B_iterate (H5G_fileof w1 g.1) (w1.grp g.1).ent.btree_addr g.1 r.1
            (idx.getD 0) op op_data))
        let w2 := if it.1 < 0 then
            it.2.push ⟨H5E_SYM, H5E_CANTINIT, "iteration operator failed"⟩
          else it.2
        (it.1, (env.H5I_dec_ref r.1 (w2.call (Call.H5I_dec_ref r.1))).2)

/-! ## `H5G.c`: a concrete file

A small executable instance of the collaborators of `H5G.c`.  The external state holds
the symbol tables as a list of rows (header of the group, member name, member entry),
the link counts, the identifier registry and a switch that makes `H5O_close` fail. -/

/-- The external state of the concrete file. -/
structure SimExt where
  tables : List (haddr_t × List Char × H5G_entry_t)
  links : List (haddr_t × Int)
  next_header : haddr_t
  ids : List (hid_t × H5I_group_t × Ptr)
  close_fault : Bool
  deriving DecidableEq, Repr

/-- The row of a member in a symbol table. -/
def simFind (g : haddr_t) (n : List Char) :
    List (haddr_t × List Char × H5G_entry_t) → Option H5G_entry_t
  | [] => none
  | r :: rs => if r.1 = g ∧ r.2.1 = n then some r.2.2 else simFind g n rs

/-- The link count of an object. -/
def simLinks (h : haddr_t) : List (haddr_t × Int) → Int
  | [] => 0
  | r :: rs => if r.1 = h then r.2 else simLinks h rs

/-- The registry row of an identifier. -/
def simId (id : hid_t) : List (hid_t × H5I_group_t × Ptr) → Option (H5I_group_t × Ptr)
  | [] => none
  | r :: rs => if r.1 = id then some r.2 else simId id rs

/-- The concrete collaborators of `H5G.c`. -/
def simGEnv : GEnv SimExt :=
  { H5I_group := fun id x => match simId id x.ids with
      | some r => r.1
      | none => H5I_group_t.H5_OTHER
    H5I_object := fun id x => match simId id x.ids with
      | some r => r.2
      | none => 0
    H5I_register := fun p x =>
      (100 + (x.ids.length : Int),
        { x with ids := x.ids ++ [(100 + (x.ids.length : Int), H5I_group_t.H5_GROUP, p)] })
    H5I_dec_ref := fun _ w => (0, w)
    H5G_stab_find := fun g n o x => match simFind g.header n x.tables with
      | some e => (SUCCEED, e)
      | none => (FAIL, o)
    H5G_stab_insert := fun g n e x =>
      if g.header = HADDR_UNDEF ∨ (simFind g.header n x.tables).isSome then (FAIL, x)
      else (SUCCEED, { x with tables := x.tables ++ [(g.header, n, e)] })
    H5G_stab_create := fun f _ x =>
      (SUCCEED, ⟨x.next_header, f, x.next_header + 8⟩, { x with next_header := x.next_header + 64 })
    H5O_link := fun e n x =>
      (simLinks e.header x.links + n, { x with links := (e.header, simLinks e.header x.links + n) :: x.links })
    H5O_open := fun _ x => (SUCCEED, x)
    H5O_close := fun _ x => if x.close_fault then (FAIL, x) else (SUCCEED, x)
    H5O_read_STAB := fun e _ => e.btree_addr != 0
    H5B_iterate := fun _ _ _ _ _ _ _ w => (SUCCEED, w) }

/-- The entry of the root group of the concrete file. -/
def simRootEnt : H5G_entry_t := ⟨96, 1, 104⟩

/-- The entry of the group `/a` of the concrete file. -/
def simAEnt : H5G_entry_t := ⟨200, 1, 208⟩

/-- The entry of the group `/a/b` of the concrete file. -/
def simBEnt : H5G_entry_t := ⟨300, 1, 308⟩

/-- The external state of the concrete file: the root group holds `a`, `a` holds `b`;
identifier 1 is the file, identifier 2 the open group `/a`. -/
def simExt : SimExt :=
  { tables := [(96, ['a'], simAEnt), (200, ['b'], simBEnt)]
    links := [(96, 1), (200, 1), (300, 1)]
    next_header := 1000
    ids := [(1, H5I_group_t.H5_FILE, 1), (2, H5I_group_t.H5_GROUP, 2)]
    close_fault := false }

/-- The concrete world: file 1 with root group at address 1 and an empty working-group
stack; the group `/a` is open at address 2 and `/a/b` at address 3, each held once. -/
def simG : World SimExt :=
  { grp := fun p =>
      if p = 1 then ⟨simRootEnt, 1⟩ else if p = 2 then ⟨simAEnt, 1⟩
      else if p = 3 then ⟨simBEnt, 1⟩ else ⟨⟨0, 0, 0⟩, 0⟩
    file := fun _ => ⟨⟨1⟩, []⟩
    brk := 10
    errs := []
    log := []
    ext := simExt }

/-- The concrete world in which `H5O_close` fails. -/
def simGCloseFault : World SimExt :=
  { simG with ext := { simExt with close_fault := true } }

/-- An entry for a new object, not yet linked anywhere. -/
def simNewEnt : H5G_entry_t := ⟨500, 1, 0⟩

/-! ## `H5G.c`: specification-side notions -/

/-- The components of a name: the maximal slash-free non-empty runs, in order.  The
second argument is the component being read. -/
def name_components_aux : List Char → List Char → List (List Char)
  | [], cur => if cur = [] then [] else [cur]
  | c :: cs, cur =>
    if c = '/' then
      if cur = [] then name_components_aux cs [] else cur :: name_components_aux cs []
    else name_components_aux cs (cur ++ [c])

/-- The components of a name. -/
def name_components (name : List Char) : List (List Char) :=
  name_components_aux name []

/-- Resolution of a list of components from a current group and object: the loop of
`H5G_namei` with the scanning of the name taken out.  The result is the status, the
group entry and the object entry. -/
def resolve_components {ω : Type} (env : GEnv ω) :
    List (List Char) → H5G_entry_t → H5G_entry_t → World ω →
      (herr_t × H5G_entry_t × H5G_entry_t) × World ω
  | [], grp_ent, obj_ent, w => ((SUCCEED, grp_ent, obj_ent), w)
  | comp :: cs, grp_ent, obj_ent, w =>
    if comp.length + 1 > 1024 then
      ((FAIL, grp_ent, obj_ent), w.push ⟨H5E_SYM, H5E_COMPLEN, "component is too long"⟩)
    else if comp = ['.'] then
      resolve_components env cs grp_ent obj_ent w
    else
      if (env.H5G_stab_find obj_ent comp H5G_entry_undef w.ext).1 < 0 then
        ((FAIL, obj_ent, (env.H5G_stab_find obj_ent comp H5G_entry_undef w.ext).2),
          (w.call (Call.H5G_stab_find obj_ent comp)).push
            ⟨H5E_SYM, H5E_NOTFOUND, "component not found"⟩)
      else
        resolve_components env cs obj_ent (env.H5G_stab_find obj_ent comp H5G_entry_undef w.ext).2
          (w.call (Call.H5G_stab_find obj_ent comp))

/-- The status, group entry and object entry of a result of `H5G_namei`, without the
`rest` pointer. -/
def NameiRet.core (r : NameiRet) : herr_t × H5G_entry_t × H5G_entry_t :=
  (r.ret_value, r.grp_ent, r.obj_ent)

end H5G

namespace H5G

/-- The record `H5G_namei` pushes when `H5G_stab_find` fails for a component. -/
def component_not_found : H5E_error := ⟨H5E_SYM, H5E_NOTFOUND, "component not found"⟩

end H5G

/-! ## Shared lemmas -/

lemma H5F_addr_le_eq_true_iff (x y : Nat) :
    H5F_addr_le x y = true ↔ x ≠ HADDR_UNDEF ∧ y ≠ HADDR_UNDEF ∧ x ≤ y := by
  simp [H5F_addr_le, and_assoc]

lemma HADDR_UNDEF_eq : HADDR_UNDEF = 18446744073709551615 := by
  simp [HADDR_UNDEF]

lemma H5F_addr_le_of_lt {x y : Nat} (hx : x ≠ HADDR_UNDEF) (hy : y < 2 ^ 64 - 1)
    (h : x < y) : H5F_addr_le x (y % 2 ^ 64) = true := by
  have hy2 : y % 2 ^ 64 = y := Nat.mod_eq_of_lt (by omega)
  rw [hy2, H5F_addr_le_eq_true_iff]
  refine ⟨hx, ?_, le_of_lt h⟩
  rw [HADDR_UNDEF_eq]
  omega

lemma H5F_addr_le_eq_false_of_lt {x a n : Nat} (hx : x < 2 ^ 64) (h : a + n < x) :
    H5F_addr_le x ((a + n) % 2 ^ 64) = false := by
  have hy2 : (a + n) % 2 ^ 64 = a + n := Nat.mod_eq_of_lt (by omega)
  rw [hy2, Bool.eq_false_iff]
  intro hle
  have := (H5F_addr_le_eq_true_iff _ _).1 hle
  omega

lemma simEnv_coherent : AccumCoherent simEnv := by
  intro f p q k a n buf b0 w hw
  cases hf : w.accum_fault with
  | true =>
    exfalso
    simp [simEnv, hf, FAIL] at hw
  | false =>
    simp [simEnv, hf, lookupBlock, SUCCEED]

lemma map_type_eq_of_same_kind {t t' : H5FD_mem_t}
    (h : t = t' ∨ (t = H5FD_MEM_GHEAP ∧ t' = H5FD_MEM_DRAW) ∨
      (t = H5FD_MEM_DRAW ∧ t' = H5FD_MEM_GHEAP)) : map_type t = map_type t' := by
  rcases h with h | ⟨h1, h2⟩ | ⟨h1, h2⟩
  · rw [h]
  · rw [h1, h2]; rfl
  · rw [h1, h2]; rfl

lemma H5F_block_write_success_iff {σ : Type} (env : Env σ) (f : H5F_t) (type : H5FD_mem_t)
    (addr : haddr_t) (size : Nat) (dxpl_id : hid_t) (buf : List Nat) (w : σ) :
    (H5F_block_write env f type addr size dxpl_id buf w).ret_value = SUCCEED ↔
      H5F_addr_le f.shared.tmp_addr ((addr + size) % 2 ^ 64) = false ∧
      ∃ p, env.H5I_object (my_dxpl_id env type dxpl_id) = some p ∧
        0 ≤ (env.H5F__accum_write ⟨f, p⟩ (map_type type) addr size buf w).1 := by
  have hFS : FAIL ≠ SUCCEED := by decide
  unfold H5F_block_write
  generalize H5F_addr_le f.shared.tmp_addr ((addr + size) % 2 ^ 64) = b
  cases b
  · cases hnone : env.H5I_object (my_dxpl_id env type dxpl_id) with
    | none => simp [hFS]
    | some p =>
      by_cases hr : (env.H5F__accum_write ⟨f, p⟩ (map_type type) addr size buf w).1 < 0
      · simp [hr, hFS]
      · simp [hr, not_lt.mp hr]
  · simp [hFS]

lemma H5C__verify_cork_tag_test_cb_ret (e : H5C_cache_entry_t) (status : hbool_t) :
    (H5C__verify_cork_tag_test_cb e ⟨status⟩).1
      = if e.is_corked = status then H5_ITER_CONT else H5_ITER_ERROR := by
  unfold H5C__verify_cork_tag_test_cb
  by_cases h : e.is_corked = status
  · simp [h]
  · simp [h]

lemma iter_walk_cork_ret (status : hbool_t) (es : List H5C_cache_entry_t) :
    (iter_walk H5C__verify_cork_tag_test_cb ⟨status⟩ es).ret_value
      = if ∀ e ∈ es, e.is_corked = status then H5_ITER_CONT else H5_ITER_ERROR := by
  induction es with
  | nil => simp [iter_walk]
  | cons e es ih =>
    have hne : H5_ITER_ERROR ≠ H5_ITER_CONT := by decide
    by_cases h : e.is_corked = status
    · simp [iter_walk, H5C__verify_cork_tag_test_cb_ret, h, ih]
    · simp [iter_walk, H5C__verify_cork_tag_test_cb_ret, h, hne]

lemma H5C__verify_cork_tag_test_ret {σ : Type} (env : Env σ) (fid : hid_t) (tag : haddr_t)
    (status : hbool_t) (f : H5F_t) (hf : env.H5I_object_verify_FILE fid = some f) :
    (H5C__verify_cork_tag_test env fid tag status).ret_value
      = if ∀ e ∈ f.shared.cache.entries, e.tag = some tag → e.is_corked = status
        then SUCCEED else FAIL := by
  have hwalk := iter_walk_cork_ret status (f.shared.cache.entries.filter (fun e => e.tag == some tag))
  simp only [H5C__verify_cork_tag_test, hf, H5C__iter_tagged_entries]
  by_cases h : ∀ e ∈ f.shared.cache.entries, e.tag = some tag → e.is_corked = status
  · have h2 : ∀ e ∈ f.shared.cache.entries.filter (fun e => e.tag == some tag),
        e.is_corked = status := by
      intro e he
      rw [List.mem_filter] at he
      exact h e he.1 (by simpa using he.2)
    rw [if_pos h2] at hwalk
    rw [if_pos h]
    simp [hwalk, H5_ITER_CONT, SUCCEED]
  · have h2 : ¬ ∀ e ∈ f.shared.cache.entries.filter (fun e => e.tag == some tag),
        e.is_corked = status := by
      intro hall
      apply h
      intro e he ht
      exact hall e (List.mem_filter.2 ⟨he, by simpa using ht⟩)
    rw [if_neg h2] at hwalk
    rw [if_neg h]
    simp [hwalk, H5_ITER_ERROR, FAIL]

/-! ## Shared lemmas about names (`H5G.c`) -/

namespace H5G

lemma take_length_takeWhile (p : Char → Bool) (l : List Char) :
    l.take (l.takeWhile p).length = l.takeWhile p := by
  induction l with
  | nil => simp
  | cons c cs ih =>
    by_cases h : p c
    · simp [List.takeWhile_cons, h, ih]
    · simp [List.takeWhile_cons, h]

lemma drop_length_takeWhile (p : Char → Bool) (l : List Char) :
    l.drop (l.takeWhile p).length = l.dropWhile p := by
  induction l with
  | nil => simp
  | cons c cs ih =>
    by_cases h : p c
    · simp [List.takeWhile_cons, List.dropWhile_cons, h, ih]
    · simp [List.takeWhile_cons, List.dropWhile_cons, h]

lemma length_dropWhile_le (p : Char → Bool) (l : List Char) :
    (l.dropWhile p).length ≤ l.length := by
  induction l with
  | nil => simp
  | cons c cs ih =>
    by_cases h : p c
    · simp only [List.dropWhile_cons, h, if_true, List.length_cons]
      omega
    · simp [List.dropWhile_cons, h]

lemma name_components_aux_slash (cs : List Char) :
    name_components_aux ('/' :: cs) [] = name_components_aux cs [] := by
  simp [name_components_aux]

lemma name_components_dropWhile (name : List Char) :
    name_components (name.dropWhile (· = '/')) = name_components name := by
  induction name with
  | nil => rfl
  | cons c cs ih =>
    by_cases h : c = '/'
    · subst h
      simp only [List.dropWhile_cons, decide_True, if_true]
      rw [ih]
      simp [name_components, name_components_aux]
    · simp [List.dropWhile_cons, h]

lemma name_components_aux_split (l cur : List Char) :
    name_components_aux l cur
      = (if cur ++ l.takeWhile (· ≠ '/') = [] then [] else [cur ++ l.takeWhile (· ≠ '/')])
        ++ name_components_aux (l.dropWhile (· ≠ '/')) [] := by
  induction l generalizing cur with
  | nil => simp [name_components_aux]
  | cons c cs ih =>
    by_cases h : c = '/'
    · subst h
      by_cases hc : cur = []
      · simp [name_components_aux, hc]
      · simp [name_components_aux, hc]
    · rw [name_components_aux, if_neg h, ih]
      simp [List.takeWhile_cons, List.dropWhile_cons, h]

lemma name_components_cons {n : List Char} (hn : n ≠ []) (hh : n.head? ≠ some '/') :
    name_components n
      = n.takeWhile (· ≠ '/') :: name_components (n.dropWhile (· ≠ '/')) := by
  cases n with
  | nil => exact absurd rfl hn
  | cons c cs =>
    have hc : c ≠ '/' := by
      intro h
      apply hh
      simp [h]
    rw [name_components, name_components_aux_split]
    simp [List.takeWhile_cons, hc, name_components]

lemma head_dropWhile_slash (name : List Char) :
    (name.dropWhile (· = '/')).head? ≠ some '/' := by
  induction name with
  | nil => simp
  | cons c cs ih =>
    by_cases h : c = '/'
    · simpa [List.dropWhile_cons, h] using ih
    · simp [List.dropWhile_cons, h]

lemma takeWhile_ne_nil {n : List Char} (hn : n ≠ []) (hh : n.head? ≠ some '/') :
    n.takeWhile (· ≠ '/') ≠ [] := by
  cases n with
  | nil => exact absurd rfl hn
  | cons c cs =>
    have hc : c ≠ '/' := by
      intro h
      apply hh
      simp [h]
    simp [List.takeWhile_cons, hc]

lemma length_dropWhile_lt {n : List Char} (hn : n ≠ []) (hh : n.head? ≠ some '/') :
    (n.dropWhile (· ≠ '/')).length < n.length := by
  have h1 := takeWhile_ne_nil hn hh
  have h2 : (n.takeWhile (· ≠ '/')).length + (n.dropWhile (· ≠ '/')).length = n.length := by
    rw [← List.length_append, List.takeWhile_append_dropWhile]
  have h3 : 0 < (n.takeWhile (· ≠ '/')).length := List.length_pos.2 h1
  omega

end H5G

namespace H5G

lemma H5G_namei_loop_eq {ω : Type} (env : GEnv ω) :
    ∀ (fuel : Nat) (name rest : List Char) (grp_ent obj_ent : H5G_entry_t) (w : World ω),
      name.length < fuel →
      ((H5G_namei_loop env fuel name rest grp_ent obj_ent w).1.core,
        (H5G_namei_loop env fuel name rest grp_ent obj_ent w).2)
        = resolve_components env (name_components name) grp_ent obj_ent w := by
  intro fuel
  induction fuel with
  | zero => intro name rest grp_ent obj_ent w h; omega
  | succ fuel ih =>
    intro name rest grp_ent obj_ent w h
    have hle := length_dropWhile_le (· = '/') name
    rw [← name_components_dropWhile name]
    simp only [H5G_namei_loop, H5G_component]
    generalize hn : name.dropWhile (· = '/') = n at hle
    have hh : n.head? ≠ some '/' := by
      rw [← hn]
      exact head_dropWhile_slash name
    by_cases hnil : n = []
    · subst hnil
      simp [name_components, name_components_aux, resolve_components, NameiRet.core]
    · have hlt := length_dropWhile_lt hnil hh
      have hfuel : (n.dropWhile (· ≠ '/')).length < fuel := by omega
      rw [name_components_cons hnil hh, resolve_components]
      simp only [if_neg hnil, take_length_takeWhile, drop_length_takeWhile]
      by_cases hlen : (n.takeWhile (· ≠ '/')).length + 1 > 1024
      · simp only [if_pos hlen, NameiRet.core]
      · simp only [if_neg hlen]
        by_cases hdot : n.takeWhile (· ≠ '/') = ['.']
        · simp only [if_pos hdot]
          exact ih _ _ _ _ _ hfuel
        · simp only [if_neg hdot]
          by_cases hfind : (env.H5G_stab_find obj_ent (n.takeWhile (· ≠ '/'))
              H5G_entry_undef w.ext).1 < 0
          · simp only [if_pos hfind, NameiRet.core]
          · simp only [if_neg hfind]
            exact ih _ _ _ _ _ hfuel

end H5G

namespace H5G

/-- Where `H5G_namei` starts: the root group of the file of `loc` for an absolute name,
`loc` itself otherwise. -/
lemma H5G_namei_eq_resolve {ω : Type} (env : GEnv ω) (w : World ω) (loc : H5G_entry_t)
    (n : List Char) (hn : n ≠ []) :
    ((H5G_namei env w (some loc) (some n)).1.core, (H5G_namei env w (some loc) (some n)).2)
      = resolve_components env (name_components n) H5G_entry_undef
          (if n.head? = some '/' then (w.grp (w.file loc.file).shared.root_grp).ent else loc) w := by
  simp only [H5G_namei, if_neg hn]
  by_cases hh : n.head? = some '/'
  · simp only [if_pos hh]
    exact H5G_namei_loop_eq env _ _ _ _ _ _ (Nat.lt_succ_self _)
  · simp only [if_neg hh]
    exact H5G_namei_loop_eq env _ _ _ _ _ _ (Nat.lt_succ_self _)

lemma H5G_namei_congr {ω : Type} (env : GEnv ω) (w : World ω) (loc_ent : Option H5G_entry_t)
    (n1 n2 : List Char) (h1 : n1 ≠ []) (h2 : n2 ≠ [])
    (hhead : n1.head? = some '/' ↔ n2.head? = some '/')
    (hres : ∀ (g o : H5G_entry_t), resolve_components env (name_components n1) g o w
      = resolve_components env (name_components n2) g o w) :
    (H5G_namei env w loc_ent (some n1)).1.core = (H5G_namei env w loc_ent (some n2)).1.core ∧
    (H5G_namei env w loc_ent (some n1)).2 = (H5G_namei env w loc_ent (some n2)).2 := by
  cases loc_ent with
  | none => simp [H5G_namei, h1, h2, NameiRet.core]
  | some loc =>
    have e1 := H5G_namei_eq_resolve env w loc n1 h1
    have e2 := H5G_namei_eq_resolve env w loc n2 h2
    have hif : (if n1.head? = some '/' then (w.grp (w.file loc.file).shared.root_grp).ent else loc)
        = (if n2.head? = some '/' then (w.grp (w.file loc.file).shared.root_grp).ent else loc) := by
      by_cases hh : n1.head? = some '/'
      · rw [if_pos hh, if_pos (hhead.1 hh)]
      · rw [if_neg hh, if_neg (fun h => hh (hhead.2 h))]
    rw [hif, hres] at e1
    have e := e1.trans e2.symm
    exact ⟨(Prod.mk.inj e).1, (Prod.mk.inj e).2⟩

lemma name_components_aux_double_slash (a b cur : List Char) :
    name_components_aux (a ++ '/' :: '/' :: b) cur = name_components_aux (a ++ '/' :: b) cur := by
  induction a generalizing cur with
  | nil =>
    by_cases hc : cur = []
    · simp [name_components_aux, hc]
    · simp [name_components_aux, hc]
  | cons c cs ih =>
    by_cases h : c = '/'
    · by_cases hc : cur = []
      · simp [name_components_aux, h, hc, ih]
      · simp [name_components_aux, h, hc, ih]
    · simp [name_components_aux, h, ih]

lemma name_components_run (a b : List Char) (k : Nat) :
    name_components (a ++ '/' :: (List.replicate k '/' ++ b)) = name_components (a ++ '/' :: b) := by
  induction k with
  | zero => simp
  | succ k ih =>
    rw [← ih]
    simp only [name_components, List.replicate_succ, List.cons_append]
    exact name_components_aux_double_slash a _ []

lemma name_components_aux_trailing (a cur : List Char) :
    name_components_aux (a ++ ['/']) cur = name_components_aux a cur := by
  induction a generalizing cur with
  | nil =>
    by_cases hc : cur = []
    · simp [name_components_aux, hc]
    · simp [name_components_aux, hc]
  | cons c cs ih =>
    by_cases h : c = '/'
    · by_cases hc : cur = []
      · simp [name_components_aux, h, hc, ih]
      · simp [name_components_aux, h, hc, ih]
    · simp [name_components_aux, h, ih]

lemma name_components_trailing (a : List Char) (k : Nat) :
    name_components (a ++ List.replicate k '/') = name_components a := by
  induction k with
  | zero => simp
  | succ k ih =>
    rw [← ih]
    have : a ++ List.replicate (k + 1) '/' = (a ++ List.replicate k '/') ++ ['/'] := by
      rw [List.append_assoc, ← List.replicate_succ']
    rw [this]
    exact name_components_aux_trailing _ []

lemma head?_append_cons (a b : List Char) (c : Char) (b' : List Char) :
    ((a ++ c :: b).head? = some '/' ↔ (a ++ c :: b').head? = some '/') := by
  cases a with
  | nil => simp
  | cons x xs => simp

lemma head?_append_of_ne_nil {a : List Char} (ha : a ≠ []) (b : List Char) :
    (a ++ b).head? = a.head? := by
  cases a with
  | nil => exact absurd rfl ha
  | cons x xs => simp

end H5G

lemma iter_walk_cork_first (status : hbool_t) (pre : List H5C_cache_entry_t)
    (e : H5C_cache_entry_t) (post : List H5C_cache_entry_t)
    (hpre : ∀ x ∈ pre, x.is_corked = status) (he : e.is_corked ≠ status) :
    iter_walk H5C__verify_cork_tag_test_cb ⟨status⟩ (pre ++ e :: post)
      = ⟨H5_ITER_ERROR, [⟨H5E_CACHE, H5E_BADVALUE, "bad cork status"⟩], pre ++ [e]⟩ := by
  have hne : H5_ITER_ERROR ≠ H5_ITER_CONT := by decide
  induction pre with
  | nil =>
    simp [iter_walk, H5C__verify_cork_tag_test_cb, he, hne]
  | cons x xs ih =>
    have hx : x.is_corked = status := hpre x (List.mem_cons_self _ _)
    have ih2 := ih (fun y hy => hpre y (List.mem_cons_of_mem _ hy))
    simp [iter_walk, H5C__verify_cork_tag_test_cb, hx, ih2]

namespace H5G

lemma resolve_components_filter_dot {ω : Type} (env : GEnv ω) :
    ∀ (cs : List (List Char)) (g o : H5G_entry_t) (w : World ω),
      resolve_components env cs g o w
        = resolve_components env (cs.filter (fun c => decide (c ≠ ['.']))) g o w := by
  intro cs
  induction cs with
  | nil => intro g o w; rfl
  | cons c cs ih =>
    intro g o w
    by_cases hdot : c = ['.']
    · subst hdot
      rw [resolve_components]
      simp only [List.length_singleton, if_true]
      rw [if_neg (by decide), ih]
      simp
    · have hf : (c :: cs).filter (fun c => decide (c ≠ ['.']))
          = c :: cs.filter (fun c => decide (c ≠ ['.'])) := by
        simp [List.filter_cons, hdot]
      rw [hf, resolve_components, resolve_components]
      by_cases hlen : c.length + 1 > 1024
      · simp only [if_pos hlen]
      · simp only [if_neg hlen, if_neg hdot]
        by_cases hfind : (env.H5G_stab_find o c H5G_entry_undef w.ext).1 < 0
        · simp only [if_pos hfind]
        · simp only [if_neg hfind]
          exact ih _ _ _

lemma name_components_aux_dot_inside (a b cur : List Char) :
    (name_components_aux (a ++ '/' :: '.' :: '/' :: b) cur).filter (fun c => decide (c ≠ ['.']))
      = (name_components_aux (a ++ '/' :: b) cur).filter (fun c => decide (c ≠ ['.'])) := by
  induction a generalizing cur with
  | nil =>
    by_cases hc : cur = []
    · simp [name_components_aux, hc]
    · simp [name_components_aux, hc, List.filter_cons]
  | cons c cs ih =>
    rw [List.cons_append, List.cons_append]
    by_cases h : c = '/'
    · by_cases hc : cur = []
      · simp only [name_components_aux, h, hc, if_true]
        exact ih []
      · have e := ih []
        simp only [name_components_aux, h, hc, if_true, if_false, List.filter_cons, e]
    · simp only [name_components_aux, h, if_false]
      exact ih _

lemma name_components_dot_first (b : List Char) :
    (name_components ('.' :: '/' :: b)).filter (fun c => decide (c ≠ ['.']))
      = (name_components b).filter (fun c => decide (c ≠ ['.'])) := by
  simp [name_components, name_components_aux]

lemma name_components_aux_dot_last (a cur : List Char) :
    name_components_aux (a ++ ['/', '.']) cur = name_components_aux a cur ++ [['.']] := by
  induction a generalizing cur with
  | nil =>
    by_cases hc : cur = []
    · simp [name_components_aux, hc]
    · simp [name_components_aux, hc]
  | cons c cs ih =>
    by_cases h : c = '/'
    · by_cases hc : cur = []
      · simp [name_components_aux, h, hc, ih]
      · simp [name_components_aux, h, hc, ih]
    · simp [name_components_aux, h, ih]

lemma resolve_components_congr_dot {ω : Type} (env : GEnv ω) (w : World ω)
    (c1 c2 : List (List Char))
    (h : c1.filter (fun c => decide (c ≠ ['.'])) = c2.filter (fun c => decide (c ≠ ['.'])))
    (g o : H5G_entry_t) :
    resolve_components env c1 g o w = resolve_components env c2 g o w := by
  rw [resolve_components_filter_dot env c1, resolve_components_filter_dot env c2, h]

lemma resolve_components_no_dot_lookup {ω : Type} (env : GEnv ω) :
    ∀ (cs : List (List Char)) (g o : H5G_entry_t) (w : World ω) (x : H5G_entry_t),
      Call.H5G_stab_find x ['.'] ∈ (resolve_components env cs g o w).2.log →
      Call.H5G_stab_find x ['.'] ∈ w.log := by
  intro cs
  induction cs with
  | nil => intro g o w x h; simpa [resolve_components] using h
  | cons c cs ih =>
    intro g o w x h
    rw [resolve_components] at h
    by_cases hlen : c.length + 1 > 1024
    · simpa [if_pos hlen, World.push] using h
    · simp only [if_neg hlen] at h
      by_cases hdot : c = ['.']
      · simp only [if_pos hdot] at h
        exact ih _ _ _ _ h
      · simp only [if_neg hdot] at h
        by_cases hfind : (env.H5G_stab_find o c H5G_entry_undef w.ext).1 < 0
        · simp only [if_pos hfind, World.push, World.call, List.mem_append,
            List.mem_singleton, Call.H5G_stab_find.injEq] at h
          rcases h with h | h
          · exact h
          · exact absurd h.2.symm hdot
        · simp only [if_neg hfind] at h
          have h2 := ih _ _ _ _ h
          simp only [World.call, List.mem_append, List.mem_singleton,
            Call.H5G_stab_find.injEq] at h2
          rcases h2 with h2 | h2
          · exact h2
          · exact absurd h2.2.symm hdot

lemma H5G_namei_no_dot_lookup {ω : Type} (env : GEnv ω) (w : World ω)
    (loc_ent : Option H5G_entry_t) (name : Option (List Char)) (x : H5G_entry_t)
    (h : Call.H5G_stab_find x ['.'] ∈ (H5G_namei env w loc_ent name).2.log) :
    Call.H5G_stab_find x ['.'] ∈ w.log := by
  cases name with
  | none => simpa [H5G_namei, World.push] using h
  | some n =>
    by_cases hn : n = []
    · simpa [H5G_namei, hn, World.push] using h
    · cases loc_ent with
      | none => simpa [H5G_namei, hn, World.push] using h
      | some loc =>
        have e := congrArg Prod.snd (H5G_namei_eq_resolve env w loc n hn)
        simp only at e
        rw [e] at h
        exact resolve_components_no_dot_lookup env _ _ _ _ _ h

end H5G

namespace H5G

lemma resolve_components_log_extends {ω : Type} (env : GEnv ω) :
    ∀ (cs : List (List Char)) (g o : H5G_entry_t) (w : World ω),
      ∃ more, (resolve_components env cs g o w).2.log = w.log ++ more := by
  intro cs
  induction cs with
  | nil => intro g o w; exact ⟨[], by simp [resolve_components]⟩
  | cons c cs ih =>
    intro g o w
    rw [resolve_components]
    by_cases hlen : c.length + 1 > 1024
    · exact ⟨[], by simp [if_pos hlen, World.push]⟩
    · simp only [if_neg hlen]
      by_cases hdot : c = ['.']
      · simp only [if_pos hdot]
        exact ih _ _ _
      · simp only [if_neg hdot]
        by_cases hfind : (env.H5G_stab_find o c H5G_entry_undef w.ext).1 < 0
        · exact ⟨[Call.H5G_stab_find o c], by simp [if_pos hfind, World.push, World.call]⟩
        · simp only [if_neg hfind]
          obtain ⟨more, hm⟩ := ih o (env.H5G_stab_find o c H5G_entry_undef w.ext).2
            (w.call (Call.H5G_stab_find o c))
          exact ⟨Call.H5G_stab_find o c :: more, by rw [hm]; simp [World.call]⟩

lemma resolve_components_first_lookup {ω : Type} (env : GEnv ω) :
    ∀ (cs : List (List Char)) (g o : H5G_entry_t) (w : World ω),
      ((resolve_components env cs g o w).2.log = w.log ∧
        (resolve_components env cs g o w).1.2.2 = o) ∨
      ∃ comp more, (resolve_components env cs g o w).2.log
        = w.log ++ Call.H5G_stab_find o comp :: more := by
  intro cs
  induction cs with
  | nil => intro g o w; left; simp [resolve_components]
  | cons c cs ih =>
    intro g o w
    rw [resolve_components]
    by_cases hlen : c.length + 1 > 1024
    · left
      simp [if_pos hlen, World.push]
    · simp only [if_neg hlen]
      by_cases hdot : c = ['.']
      · simp only [if_pos hdot]
        exact ih _ _ _
      · simp only [if_neg hdot]
        right
        by_cases hfind : (env.H5G_stab_find o c H5G_entry_undef w.ext).1 < 0
        · exact ⟨c, [], by simp [if_pos hfind, World.push, World.call]⟩
        · simp only [if_neg hfind]
          obtain ⟨more, hm⟩ := resolve_components_log_extends env cs o
            (env.H5G_stab_find o c H5G_entry_undef w.ext).2 (w.call (Call.H5G_stab_find o c))
          exact ⟨c, more, by rw [hm]; simp [World.call]⟩

lemma H5G_namei_first_lookup {ω : Type} (env : GEnv ω) (w : World ω) (loc : H5G_entry_t)
    (n : List Char) (hn : n ≠ []) :
    ((H5G_namei env w (some loc) (some n)).2.log = w.log ∧
      (H5G_namei env w (some loc) (some n)).1.obj_ent
        = (if n.head? = some '/' then (w.grp (w.file loc.file).shared.root_grp).ent else loc)) ∨
    ∃ comp more, (H5G_namei env w (some loc) (some n)).2.log
      = w.log ++ Call.H5G_stab_find
          (if n.head? = some '/' then (w.grp (w.file loc.file).shared.root_grp).ent else loc)
          comp :: more := by
  have e := H5G_namei_eq_resolve env w loc n hn
  have e1 := congrArg Prod.fst e
  have e2 := congrArg Prod.snd e
  simp only at e1 e2
  have hobj : (H5G_namei env w (some loc) (some n)).1.obj_ent
      = (resolve_components env (name_components n) H5G_entry_undef
          (if n.head? = some '/' then (w.grp (w.file loc.file).shared.root_grp).ent else loc)
          w).1.2.2 := by
    rw [← e1]
    rfl
  rw [e2, hobj]
  exact resolve_components_first_lookup env _ _ _ _

end H5G

namespace H5G

lemma H5G_close_file {ω : Type} (env : GEnv ω) (w : World ω) (g : Ptr) :
    (H5G_close env w g).2.file = w.file := by
  unfold H5G_close
  split
  · simp only []
    split <;> rfl
  · rfl

lemma H5G_close_fail {ω : Type} (env : GEnv ω) (w : World ω) (g : Ptr)
    (h : (H5G_close env w g).1 < 0) :
    (H5G_close env w g).1 = FAIL ∧ (H5G_close env w g).2.grp = w.grp := by
  have hS : ¬ (SUCCEED < 0) := by decide
  unfold H5G_close at h ⊢
  split
  · rename_i h1
    simp only [if_pos h1] at h
    by_cases hc : (env.H5O_close (w.grp g).ent w.ext).1 < 0
    · rw [if_pos hc]
      exact ⟨rfl, rfl⟩
    · simp only [if_neg hc] at h
      exact absurd h hS
  · rename_i h1
    simp only [if_neg h1] at h
    exact absurd h hS

lemma H5G_close_ok {ω : Type} (env : GEnv ω) (w : World ω) (g : Ptr)
    (h : ¬ (H5G_close env w g).1 < 0) :
    (H5G_close env w g).1 = SUCCEED ∧
    (H5G_close env w g).2.grp
      = Function.update w.grp g { w.grp g with nref := (w.grp g).nref - 1 } := by
  have hF : FAIL < 0 := by decide
  unfold H5G_close at h ⊢
  split
  · rename_i h1
    simp only [if_pos h1] at h
    by_cases hc : (env.H5O_close (w.grp g).ent w.ext).1 < 0
    · simp only [if_pos hc] at h
      exact absurd hF h
    · rw [if_neg hc]
      exact ⟨rfl, rfl⟩
  · exact ⟨rfl, rfl⟩

lemma H5G_close_shared {ω : Type} (env : GEnv ω) (w : World ω) (g : Ptr)
    (h : (w.grp g).nref ≠ 1) :
    H5G_close env w g = (SUCCEED, w.set_nref g ((w.grp g).nref - 1)) := by
  unfold H5G_close
  rw [if_neg h]

lemma World.ext_eq {ω : Type} (w w' : World ω) (h1 : w.grp = w'.grp) (h2 : w.file = w'.file)
    (h3 : w.brk = w'.brk) (h4 : w.errs = w'.errs) (h5 : w.log = w'.log) (h6 : w.ext = w'.ext) :
    w = w' := by
  cases w
  cases w'
  simp only [World.mk.injEq]
  exact ⟨h1, h2, h3, h4, h5, h6⟩

end H5G

namespace H5G

lemma H5G_loc_ok {ω : Type} (env : GEnv ω) (w : World ω) (loc_id : hid_t)
    (h : (H5G_loc env w loc_id).1 ≠ 0) : (H5G_loc env w loc_id).2 = w := by
  unfold H5G_loc at h ⊢
  split
  · rename_i h1
    simp only [if_pos h1] at h
    split
    · rename_i h2
      simp only [if_pos h2] at h
      exact absurd rfl h
    · rename_i h2
      simp only [if_neg h2] at h
      split
      · rename_i h3
        simp only [if_pos h3] at h
        exact absurd rfl h
      · rfl
  · rename_i h1
    simp only [if_neg h1] at h
    split
    · rename_i h2
      simp only [if_pos h2] at h
      split
      · rename_i h3
        simp only [if_pos h3] at h
        exact absurd rfl h
      · rfl
    · rename_i h2
      simp only [if_neg h2] at h
      exact absurd rfl h

lemma H5G_loc_frame {ω : Type} (env : GEnv ω) (w : World ω) (loc_id : hid_t) :
    (H5G_loc env w loc_id).2.grp = w.grp ∧ (H5G_loc env w loc_id).2.file = w.file ∧
    (H5G_loc env w loc_id).2.ext = w.ext ∧ (H5G_loc env w loc_id).2.log = w.log ∧
    (H5G_loc env w loc_id).2.brk = w.brk := by
  unfold H5G_loc
  split
  · split
    · exact ⟨rfl, rfl, rfl, rfl, rfl⟩
    · split <;> exact ⟨rfl, rfl, rfl, rfl, rfl⟩
  · split
    · split <;> exact ⟨rfl, rfl, rfl, rfl, rfl⟩
    · exact ⟨rfl, rfl, rfl, rfl, rfl⟩

lemma no_name_iff (name : Option (List Char)) :
    no_name name = true ↔ name = none ∨ name = some [] := by
  cases name with
  | none => simp [no_name]
  | some n => cases n <;> simp [no_name]

end H5G

lemma H5F_addr_le_of_le {x a n : Nat} (hx : x ≠ HADDR_UNDEF) (hy : a + n < 2 ^ 64 - 1)
    (h : x ≤ a) : H5F_addr_le x ((a + n) % 2 ^ 64) = true := by
  have hy2 : (a + n) % 2 ^ 64 = a + n := Nat.mod_eq_of_lt (by omega)
  rw [hy2, H5F_addr_le_eq_true_iff]
  refine ⟨hx, ?_, by omega⟩
  rw [HADDR_UNDEF_eq]
  omega

namespace H5G

lemma resolve_components_frame {ω : Type} (env : GEnv ω) :
    ∀ (cs : List (List Char)) (g o : H5G_entry_t) (w : World ω),
      (resolve_components env cs g o w).2.grp = w.grp ∧
      (resolve_components env cs g o w).2.file = w.file ∧
      (resolve_components env cs g o w).2.brk = w.brk ∧
      (resolve_components env cs g o w).2.ext = w.ext ∧
      ∃ more, (resolve_components env cs g o w).2.log = w.log ++ more ∧
        ∀ c ∈ more, ∃ x n, c = Call.H5G_stab_find x n := by
  intro cs
  induction cs with
  | nil =>
    intro g o w
    exact ⟨rfl, rfl, rfl, rfl, [], by simp [resolve_components], by simp⟩
  | cons c cs ih =>
    intro g o w
    rw [resolve_components]
    by_cases hlen : c.length + 1 > 1024
    · rw [if_pos hlen]
      exact ⟨rfl, rfl, rfl, rfl, [], by simp [World.push], by simp⟩
    · rw [if_neg hlen]
      by_cases hdot : c = ['.']
      · rw [if_pos hdot]
        exact ih _ _ _
      · rw [if_neg hdot]
        by_cases hfind : (env.H5G_stab_find o c H5G_entry_undef w.ext).1 < 0
        · rw [if_pos hfind]
          exact ⟨rfl, rfl, rfl, rfl, [Call.H5G_stab_find o c], by simp [World.push, World.call],
            by simp⟩
        · rw [if_neg hfind]
          obtain ⟨h1, h2, h3, h4, more, h5, h6⟩ := ih o
            (env.H5G_stab_find o c H5G_entry_undef w.ext).2 (w.call (Call.H5G_stab_find o c))
          refine ⟨h1, h2, h3, h4, Call.H5G_stab_find o c :: more, ?_, ?_⟩
          · rw [h5]
            simp [World.call]
          · intro x hx
            rcases List.mem_cons.1 hx with hx | hx
            · exact ⟨o, c, hx⟩
            · exact h6 x hx

lemma resolve_components_errs {ω : Type} (env : GEnv ω) :
    ∀ (cs : List (List Char)) (g o : H5G_entry_t) (w : World ω),
      ((resolve_components env cs g o w).1.1 = SUCCEED ∧
        (resolve_components env cs g o w).2.errs = w.errs) ∨
      ((resolve_components env cs g o w).1.1 = FAIL ∧
        ∃ e, (resolve_components env cs g o w).2.errs = w.errs ++ [e]) := by
  intro cs
  induction cs with
  | nil =>
    intro g o w
    left
    exact ⟨rfl, rfl⟩
  | cons c cs ih =>
    intro g o w
    rw [resolve_components]
    by_cases hlen : c.length + 1 > 1024
    · rw [if_pos hlen]
      right
      exact ⟨rfl, _, rfl⟩
    · rw [if_neg hlen]
      by_cases hdot : c = ['.']
      · rw [if_pos hdot]
        exact ih _ _ _
      · rw [if_neg hdot]
        by_cases hfind : (env.H5G_stab_find o c H5G_entry_undef w.ext).1 < 0
        · rw [if_pos hfind]
          right
          exact ⟨rfl, _, rfl⟩
        · rw [if_neg hfind]
          exact ih _ _ _

lemma H5G_namei_frame {ω : Type} (env : GEnv ω) (w : World ω) (loc_ent : Option H5G_entry_t)
    (name : Option (List Char)) :
    (H5G_namei env w loc_ent name).2.grp = w.grp ∧
    (H5G_namei env w loc_ent name).2.file = w.file ∧
    (H5G_namei env w loc_ent name).2.brk = w.brk ∧
    (H5G_namei env w loc_ent name).2.ext = w.ext ∧
    ∃ more, (H5G_namei env w loc_ent name).2.log = w.log ++ more ∧
      ∀ c ∈ more, ∃ x n, c = Call.H5G_stab_find x n := by
  cases name with
  | none => exact ⟨rfl, rfl, rfl, rfl, [], by simp [H5G_namei, World.push], by simp⟩
  | some n =>
    by_cases hn : n = []
    · subst hn
      exact ⟨rfl, rfl, rfl, rfl, [], by simp [H5G_namei, World.push], by simp⟩
    · cases loc_ent with
      | none =>
        simp only [H5G_namei, if_neg hn]
        exact ⟨rfl, rfl, rfl, rfl, [], by simp [World.push], by simp⟩
      | some loc =>
        have e := congrArg Prod.snd (H5G_namei_eq_resolve env w loc n hn)
        simp only at e
        rw [e]
        exact resolve_components_frame env _ _ _ _

lemma H5G_namei_errs {ω : Type} (env : GEnv ω) (w : World ω) (loc_ent : Option H5G_entry_t)
    (name : Option (List Char)) :
    ((H5G_namei env w loc_ent name).1.ret_value = SUCCEED ∧
      (H5G_namei env w loc_ent name).2.errs = w.errs) ∨
    ((H5G_namei env w loc_ent name).1.ret_value = FAIL ∧
      ∃ e, (H5G_namei env w loc_ent name).2.errs = w.errs ++ [e]) := by
  cases name with
  | none => right; exact ⟨rfl, _, rfl⟩
  | some n =>
    by_cases hn : n = []
    · subst hn
      right
      exact ⟨rfl, _, rfl⟩
    · cases loc_ent with
      | none =>
        right
        simp [H5G_namei, hn, World.push]
      | some loc =>
        have e := H5G_namei_eq_resolve env w loc n hn
        have e1 := congrArg Prod.fst e
        have e2 := congrArg Prod.snd e
        simp only at e1 e2
        have hret : (H5G_namei env w (some loc) (some n)).1.ret_value
            = (resolve_components env (name_components n) H5G_entry_undef
                (if n.head? = some '/' then (w.grp (w.file loc.file).shared.root_grp).ent
                  else loc) w).1.1 := by
          rw [← e1]
          rfl
        rw [hret, e2]
        exact resolve_components_errs env _ _ _ _

end H5G

namespace H5G

lemma takeWhile_slash_boundary (name : List Char) :
    name.takeWhile (· = '/') = [] ∨ ∃ p, name.takeWhile (· = '/') = p ++ ['/'] := by
  rcases List.eq_nil_or_concat (name.takeWhile (· = '/')) with h | ⟨p, b, h⟩
  · exact Or.inl h
  · right
    have hb : b ∈ name.takeWhile (· = '/') := by
      rw [h]
      simp
    have hb2 := List.mem_takeWhile_imp hb
    have hb3 : b = '/' := by simpa using hb2
    exact ⟨p, by rw [h, hb3]; simp⟩

lemma dropWhile_ne_slash_head (n : List Char) :
    n.dropWhile (· ≠ '/') = [] ∨ (n.dropWhile (· ≠ '/')).head? = some '/' := by
  induction n with
  | nil => left; rfl
  | cons c cs ih =>
    by_cases h : c = '/'
    · right
      simp [List.dropWhile_cons, h]
    · simpa [List.dropWhile_cons, h] using ih

lemma H5G_namei_loop_out {ω : Type} (env : GEnv ω) :
    ∀ (fuel : Nat) (name rest : List Char) (grp_ent obj_ent : H5G_entry_t) (w : World ω),
      name.length < fuel →
      ((H5G_namei_loop env fuel name rest grp_ent obj_ent w).1.ret_value = SUCCEED →
        (H5G_namei_loop env fuel name rest grp_ent obj_ent w).1.rest = []) ∧
      ((H5G_namei_loop env fuel name rest grp_ent obj_ent w).1.ret_value < 0 →
        (H5G_namei_loop env fuel name rest grp_ent obj_ent w).2.errs
          = w.errs ++ [component_not_found] →
        ∃ pre more,
          name = pre ++ (H5G_namei_loop env fuel name rest grp_ent obj_ent w).1.rest ∧
          (pre = [] ∨ ∃ p, pre = p ++ ['/']) ∧
          (H5G_namei_loop env fuel name rest grp_ent obj_ent w).1.rest ≠ [] ∧
          (H5G_namei_loop env fuel name rest grp_ent obj_ent w).1.rest.head? ≠ some '/' ∧
          (H5G_namei_loop env fuel name rest grp_ent obj_ent w).2.log
            = w.log ++ more ++ [Call.H5G_stab_find
                (H5G_namei_loop env fuel name rest grp_ent obj_ent w).1.grp_ent
                ((H5G_namei_loop env fuel name rest grp_ent obj_ent w).1.rest.takeWhile
                  (· ≠ '/'))] ∧
          (env.H5G_stab_find (H5G_namei_loop env fuel name rest grp_ent obj_ent w).1.grp_ent
              ((H5G_namei_loop env fuel name rest grp_ent obj_ent w).1.rest.takeWhile (· ≠ '/'))
              H5G_entry_undef w.ext).1 < 0 ∧
          (H5G_namei_loop env fuel name rest grp_ent obj_ent w).1.obj_ent
            = (env.H5G_stab_find (H5G_namei_loop env fuel name rest grp_ent obj_ent w).1.grp_ent
                ((H5G_namei_loop env fuel name rest grp_ent obj_ent w).1.rest.takeWhile (· ≠ '/'))
                H5G_entry_undef w.ext).2) := by
  have hFS : FAIL ≠ SUCCEED := by decide
  have hS : ¬ (SUCCEED < 0) := by decide
  intro fuel
  induction fuel with
  | zero => intro name rest grp_ent obj_ent w h; omega
  | succ fuel ih =>
    intro name rest grp_ent obj_ent w h
    have hle := length_dropWhile_le (· = '/') name
    have hsplit : name.takeWhile (· = '/') ++ name.dropWhile (· = '/') = name :=
      List.takeWhile_append_dropWhile _ _
    have hpre0 := takeWhile_slash_boundary name
    have hh : (name.dropWhile (· = '/')).head? ≠ some '/' := head_dropWhile_slash name
    generalize name.takeWhile (· = '/') = pre0 at hsplit hpre0
    simp only [H5G_namei_loop, H5G_component]
    generalize name.dropWhile (· = '/') = n at hle hsplit hh
    by_cases hnil : n = []
    · rw [if_pos hnil]
      exact ⟨fun _ => hnil, fun hlt => absurd hlt hS⟩
    · have hlt := length_dropWhile_lt hnil hh
      have hfuel : (n.dropWhile (· ≠ '/')).length < fuel := by omega
      have hd := dropWhile_ne_slash_head n
      have hn2 : n.takeWhile (· ≠ '/') ++ n.dropWhile (· ≠ '/') = n :=
        List.takeWhile_append_dropWhile _ _
      rw [if_neg hnil]
      simp only [take_length_takeWhile, drop_length_takeWhile]
      by_cases hlen : (n.takeWhile (· ≠ '/')).length + 1 > 1024
      · rw [if_pos hlen]
        refine ⟨fun hs => absurd hs hFS, ?_⟩
        intro _ herr
        exfalso
        have h2 := List.append_cancel_left herr
        have h3 := List.cons.inj h2
        exact absurd h3.1 (by decide)
      · rw [if_neg hlen]
        have step : ∀ (g o : H5G_entry_t) (w' : World ω), w'.errs = w.errs → w'.ext = w.ext →
            (∃ pfx, w'.log = w.log ++ pfx) →
            ((H5G_namei_loop env fuel (n.dropWhile (· ≠ '/')) n g o w').1.ret_value = SUCCEED →
              (H5G_namei_loop env fuel (n.dropWhile (· ≠ '/')) n g o w').1.rest = []) ∧
            ((H5G_namei_loop env fuel (n.dropWhile (· ≠ '/')) n g o w').1.ret_value < 0 →
              (H5G_namei_loop env fuel (n.dropWhile (· ≠ '/')) n g o w').2.errs
                = w.errs ++ [component_not_found] →
              ∃ pre more,
                name = pre ++ (H5G_namei_loop env fuel (n.dropWhile (· ≠ '/')) n g o w').1.rest ∧
                (pre = [] ∨ ∃ p, pre = p ++ ['/']) ∧
                (H5G_namei_loop env fuel (n.dropWhile (· ≠ '/')) n g o w').1.rest ≠ [] ∧
                (H5G_namei_loop env fuel (n.dropWhile (· ≠ '/')) n g o w').1.rest.head? ≠ some '/' ∧
                (H5G_namei_loop env fuel (n.dropWhile (· ≠ '/')) n g o w').2.log
                  = w.log ++ more ++ [Call.H5G_stab_find
                      (H5G_namei_loop env fuel (n.dropWhile (· ≠ '/')) n g o w').1.grp_ent
                      ((H5G_namei_loop env fuel (n.dropWhile (· ≠ '/')) n g o w').1.rest.takeWhile
                        (· ≠ '/'))] ∧
                (env.H5G_stab_find
                    (H5G_namei_loop env fuel (n.dropWhile (· ≠ '/')) n g o w').1.grp_ent
                    ((H5G_namei_loop env fuel (n.dropWhile (· ≠ '/')) n g o w').1.rest.takeWhile
                      (· ≠ '/'))
                    H5G_entry_undef w.ext).1 < 0 ∧
                (H5G_namei_loop env fuel (n.dropWhile (· ≠ '/')) n g o w').1.obj_ent
                  = (env.H5G_stab_find
                      (H5G_namei_loop env fuel (n.dropWhile (· ≠ '/')) n g o w').1.grp_ent
                      ((H5G_namei_loop env fuel (n.dropWhile (· ≠ '/')) n g o w').1.rest.takeWhile
                        (· ≠ '/'))
                      H5G_entry_undef w.ext).2) := by
          intro g o w' he hx hlog
          obtain ⟨pfx, hpfx⟩ := hlog
          have hi := ih (n.dropWhile (· ≠ '/')) n g o w' hfuel
          refine ⟨hi.1, ?_⟩
          intro hneg herr
          rw [← he] at herr
          obtain ⟨pre', more, e1, e2, e3, e4, e5, e6, e7⟩ := hi.2 hneg herr
          have hpre' : ∃ p, pre' = p ++ ['/'] := by
            rcases e2 with e2 | e2
            · exfalso
              rw [e2, List.nil_append] at e1
              rcases hd with hd | hd
              · apply e3
                rw [← e1]
                exact hd
              · apply e4
                rw [← e1]
                exact hd
            · exact e2
          obtain ⟨p, hp⟩ := hpre'
          refine ⟨pre0 ++ n.takeWhile (· ≠ '/') ++ pre', pfx ++ more, ?_, ?_, e3, e4, ?_, ?_, ?_⟩
          · rw [List.append_assoc, List.append_assoc, ← e1, hn2, hsplit]
          · right
            exact ⟨pre0 ++ n.takeWhile (· ≠ '/') ++ p, by rw [hp]; simp⟩
          · rw [e5, hpfx]
            simp
          · rw [← hx]
            exact e6
          · rw [← hx]
            exact e7
        by_cases hdot : n.takeWhile (· ≠ '/') = ['.']
        · rw [if_pos hdot]
          exact step grp_ent obj_ent w rfl rfl ⟨[], by simp⟩
        · rw [if_neg hdot]
          by_cases hfind : (env.H5G_stab_find obj_ent (n.takeWhile (· ≠ '/'))
              H5G_entry_undef w.ext).1 < 0
          · rw [if_pos hfind]
            refine ⟨fun hs => absurd hs hFS, ?_⟩
            intro _ _
            exact ⟨pre0, [], hsplit.symm, hpre0, hnil, hh, by simp [World.push, World.call],
              hfind, rfl⟩
          · rw [if_neg hfind]
            exact step obj_ent _ (w.call (Call.H5G_stab_find obj_ent (n.takeWhile (· ≠ '/'))))
              rfl rfl ⟨[_], rfl⟩

end H5G

namespace H5G

lemma getLast?_cons_of_some {α : Type} (a x : α) (l : List α) (h : l.getLast? = some x) :
    (a :: l).getLast? = some x := by
  cases l with
  | nil => simp at h
  | cons b l => rw [List.getLast?_cons_cons]; exact h

lemma resolve_components_last {ω : Type} (env : GEnv ω) :
    ∀ (cs : List (List Char)) (g o : H5G_entry_t) (w : World ω),
      (resolve_components env cs g o w).1.1 = SUCCEED →
      (cs.filter (fun c => decide (c ≠ ['.'])) = [] ∧
        (resolve_components env cs g o w).1 = (SUCCEED, g, o) ∧
        (resolve_components env cs g o w).2 = w) ∨
      ∃ comp more,
        (cs.filter (fun c => decide (c ≠ ['.']))).getLast? = some comp ∧
        (resolve_components env cs g o w).2.log
          = w.log ++ more ++ [Call.H5G_stab_find (resolve_components env cs g o w).1.2.1 comp] ∧
        ¬ (env.H5G_stab_find (resolve_components env cs g o w).1.2.1 comp
            H5G_entry_undef w.ext).1 < 0 ∧
        (resolve_components env cs g o w).1.2.2
          = (env.H5G_stab_find (resolve_components env cs g o w).1.2.1 comp
              H5G_entry_undef w.ext).2 := by
  have hFS : FAIL ≠ SUCCEED := by decide
  intro cs
  induction cs with
  | nil =>
    intro g o w _
    left
    exact ⟨rfl, rfl, rfl⟩
  | cons c cs ih =>
    intro g o w
    rw [resolve_components]
    by_cases hlen : c.length + 1 > 1024
    · rw [if_pos hlen]
      intro hs
      exact absurd hs hFS
    · rw [if_neg hlen]
      by_cases hdot : c = ['.']
      · rw [if_pos hdot]
        have hf : (c :: cs).filter (fun c => decide (c ≠ ['.']))
            = cs.filter (fun c => decide (c ≠ ['.'])) := by
          simp [List.filter_cons, hdot]
        rw [hf]
        exact ih g o w
      · rw [if_neg hdot]
        have hf : (c :: cs).filter (fun c => decide (c ≠ ['.']))
            = c :: cs.filter (fun c => decide (c ≠ ['.'])) := by
          simp [List.filter_cons, hdot]
        rw [hf]
        by_cases hfind : (env.H5G_stab_find o c H5G_entry_undef w.ext).1 < 0
        · rw [if_pos hfind]
          intro hs
          exact absurd hs hFS
        · rw [if_neg hfind]
          intro hs
          right
          rcases ih o (env.H5G_stab_find o c H5G_entry_undef w.ext).2
            (w.call (Call.H5G_stab_find o c)) hs with ⟨h1, h2, h3⟩ | ⟨comp, more, h1, h2, h3, h4⟩
          · refine ⟨c, [], ?_, ?_, ?_, ?_⟩
            · rw [h1]
              rfl
            · rw [h2, h3]
              simp [World.call]
            · rw [h2]
              exact hfind
            · rw [h2]
          · refine ⟨comp, Call.H5G_stab_find o c :: more, getLast?_cons_of_some _ _ _ h1, ?_, h3, h4⟩
            rw [h2]
            simp [World.call]

lemma simGEnv_find_frame (g : H5G_entry_t) (c : List Char) (o : H5G_entry_t) (x : SimExt)
    (h : (simGEnv.H5G_stab_find g c o x).1 < 0) : (simGEnv.H5G_stab_find g c o x).2 = o := by
  have hS : ¬ (SUCCEED < 0) := by decide
  simp only [simGEnv] at h ⊢
  cases hf : simFind g.header c x.tables with
  | none => rfl
  | some e =>
    rw [hf] at h
    exact absurd h hS

end H5G

/-! ## Claims about `H5F_block_read` and `H5F_block_write` -/

/-- C1, as stated, fails on the code: with `tmp_addr = 4096` (defined), `addr = 2^64 - 2`
and `size = 1` the sum `addr + size = 2^64 - 1` fits in 64 bits and lies above `tmp_addr`,
but it is the undefined address `HADDR_UNDEF`, for which `H5F_addr_le` is false: the read
and the write are not rejected; the property list is looked up, the accumulator is called
and both calls succeed. -/
theorem C1_counterexample :
    H5F_addr_defined 4096 = true ∧ (2 ^ 64 - 2) + 1 < 2 ^ 64 ∧ 4096 < (2 ^ 64 - 2) + 1 ∧
    (H5F_block_read simEnv (simFile 4096 []) H5FD_MEM_DRAW (2 ^ 64 - 2) 1 1 [0] simWorld).ret_value
      = SUCCEED ∧
    (H5F_block_read simEnv (simFile 4096 []) H5FD_MEM_DRAW (2 ^ 64 - 2) 1 1 [0] simWorld).trace
      = [Event.H5I_object 1,
         Event.H5F__accum_read ⟨simFile 4096 [], 1⟩ H5FD_MEM_DRAW (2 ^ 64 - 2) 1 [0]] ∧
    (H5F_block_write simEnv (simFile 4096 []) H5FD_MEM_DRAW (2 ^ 64 - 2) 1 1 [9] simWorld).ret_value
      = SUCCEED ∧
    (H5F_block_write simEnv (simFile 4096 []) H5FD_MEM_DRAW (2 ^ 64 - 2) 1 1 [9] simWorld).trace
      = [Event.H5I_object 1,
         Event.H5F__accum_write ⟨simFile 4096 [], 1⟩ H5FD_MEM_DRAW (2 ^ 64 - 2) 1 [9]] := by
  refine ⟨by decide, by decide, by decide, ?_, ?_, ?_, ?_⟩ <;> rfl

/-- C1, amended: when `tmp_addr` is defined, `addr + size` does not overflow 64 bits and
is not itself the undefined address `2^64 - 1`, and `addr + size > tmp_addr`, both
`H5F_block_read` and `H5F_block_write` fail with the bad-range I/O error, the trace of
collaborator calls is empty (no lookup, no accumulator call), and buffer and world are
untouched. -/
theorem C1_reject_temporary_space {σ : Type} (env : Env σ) (f : H5F_t) (type : H5FD_mem_t)
    (addr : haddr_t) (size : Nat) (dxpl_id : hid_t) (buf : List Nat) (w : σ)
    (htmp : H5F_addr_defined f.shared.tmp_addr = true)
    (hsum : addr + size < 2 ^ 64 - 1)
    (h : f.shared.tmp_addr < addr + size) :
    ((H5F_block_read env f type addr size dxpl_id buf w).ret_value = FAIL ∧
     (H5F_block_read env f type addr size dxpl_id buf w).errors
       = [⟨ H5E_IO, H5E_BADRANGE, "attempting I/O in temporary file space"⟩] ∧
     (H5F_block_read env f type addr size dxpl_id buf w).trace = [] ∧
     (H5F_block_read env f type addr size dxpl_id buf w).world = w ∧
     (H5F_block_read env f type addr size dxpl_id buf w).buf = buf) ∧
    ((H5F_block_write env f type addr size dxpl_id buf w).ret_value = FAIL ∧
     (H5F_block_write env f type addr size dxpl_id buf w).errors
       = [⟨ H5E_IO, H5E_BADRANGE, "attempting I/O in temporary file space"⟩] ∧
     (H5F_block_write env f type addr size dxpl_id buf w).trace = [] ∧
     (H5F_block_write env f type addr size dxpl_id buf w).world = w) := by
  have hx : f.shared.tmp_addr ≠ HADDR_UNDEF := by
    simpa [H5F_addr_defined] using htmp
  have hle := H5F_addr_le_of_lt hx hsum h
  simp only [H5F_block_read, H5F_block_write, hle, if_true, and_self]

/-- Witness for C1 amended: temporary space from 4096, a 16-byte request at 4090. -/
theorem C1_reject_temporary_space_witness :
    ((H5F_block_read simEnv (simFile 4096 []) H5FD_MEM_DRAW 4090 16 1 [] simWorld).ret_value = FAIL ∧
     (H5F_block_read simEnv (simFile 4096 []) H5FD_MEM_DRAW 4090 16 1 [] simWorld).errors
       = [⟨ H5E_IO, H5E_BADRANGE, "attempting I/O in temporary file space"⟩] ∧
     (H5F_block_read simEnv (simFile 4096 []) H5FD_MEM_DRAW 4090 16 1 [] simWorld).trace = [] ∧
     (H5F_block_read simEnv (simFile 4096 []) H5FD_MEM_DRAW 4090 16 1 [] simWorld).world = simWorld ∧
     (H5F_block_read simEnv (simFile 4096 []) H5FD_MEM_DRAW 4090 16 1 [] simWorld).buf = []) ∧
    ((H5F_block_write simEnv (simFile 4096 []) H5FD_MEM_DRAW 4090 16 1 [] simWorld).ret_value = FAIL ∧
     (H5F_block_write simEnv (simFile 4096 []) H5FD_MEM_DRAW 4090 16 1 [] simWorld).errors
       = [⟨ H5E_IO, H5E_BADRANGE, "attempting I/O in temporary file space"⟩] ∧
     (H5F_block_write simEnv (simFile 4096 []) H5FD_MEM_DRAW 4090 16 1 [] simWorld).trace = [] ∧
     (H5F_block_write simEnv (simFile 4096 []) H5FD_MEM_DRAW 4090 16 1 [] simWorld).world = simWorld) :=
  C1_reject_temporary_space simEnv (simFile 4096 []) H5FD_MEM_DRAW 4090 16 1 [] simWorld
    (by decide) (by decide) (by decide)

/-- C2, as stated, fails on the code: with `tmp_addr = 4096` a 10-byte request at 4086
occupies `[4086, 4096)`, entirely below temporary space and ending exactly at `tmp_addr`
(`addr + size <= tmp_addr`), yet the read and the write are both rejected with the
bad-range error before any lookup, because the guard is the inclusive
`tmp_addr <= addr + size`. -/
theorem C2_counterexample :
    4086 + 10 ≤ (simFile 4096 []).shared.tmp_addr ∧
    (H5F_block_read simEnv (simFile 4096 []) H5FD_MEM_DRAW 4086 10 1 [] simWorld).ret_value = FAIL ∧
    (H5F_block_read simEnv (simFile 4096 []) H5FD_MEM_DRAW 4086 10 1 [] simWorld).errors
      = [⟨ H5E_IO, H5E_BADRANGE, "attempting I/O in temporary file space"⟩] ∧
    (H5F_block_read simEnv (simFile 4096 []) H5FD_MEM_DRAW 4086 10 1 [] simWorld).trace = [] ∧
    (H5F_block_write simEnv (simFile 4096 []) H5FD_MEM_DRAW 4086 10 1 [] simWorld).ret_value = FAIL ∧
    (H5F_block_write simEnv (simFile 4096 []) H5FD_MEM_DRAW 4086 10 1 [] simWorld).errors
      = [⟨ H5E_IO, H5E_BADRANGE, "attempting I/O in temporary file space"⟩] ∧
    (H5F_block_write simEnv (simFile 4096 []) H5FD_MEM_DRAW 4086 10 1 [] simWorld).trace = [] := by
  refine ⟨by decide, ?_, ?_, ?_, ?_, ?_, ?_⟩ <;> rfl

/-- C2, amended: a request that ends strictly below the temporary address
(`addr + size < tmp_addr`, `tmp_addr` a 64-bit address) is never failed with a range
error by `H5F_block_read` or `H5F_block_write`; when moreover the transfer property list
resolves and the accumulator returns a non-negative status, the call succeeds. -/
theorem C2_below_temporary_space {σ : Type} (env : Env σ) (f : H5F_t) (type : H5FD_mem_t)
    (addr : haddr_t) (size : Nat) (dxpl_id : hid_t) (buf : List Nat) (w : σ)
    (htmp : f.shared.tmp_addr < 2 ^ 64)
    (h : addr + size < f.shared.tmp_addr) :
    (H5E_BADRANGE ∉ (H5F_block_read env f type addr size dxpl_id buf w).errors.map H5E_error.min ∧
     ∀ p, env.H5I_object (my_dxpl_id env type dxpl_id) = some p →
       0 ≤ (env.H5F__accum_read ⟨f, p⟩ (map_type type) addr size buf w).1 →
       (H5F_block_read env f type addr size dxpl_id buf w).ret_value = SUCCEED) ∧
    (H5E_BADRANGE ∉ (H5F_block_write env f type addr size dxpl_id buf w).errors.map H5E_error.min ∧
     ∀ p, env.H5I_object (my_dxpl_id env type dxpl_id) = some p →
       0 ≤ (env.H5F__accum_write ⟨f, p⟩ (map_type type) addr size buf w).1 →
       (H5F_block_write env f type addr size dxpl_id buf w).ret_value = SUCCEED) := by
  have hle := H5F_addr_le_eq_false_of_lt htmp h
  refine ⟨⟨?_, ?_⟩, ?_, ?_⟩
  · simp only [H5F_block_read, hle]
    split
    · simp_all
    · split
      · simp
      · split <;> simp
  · intro p hp hr
    simp only [H5F_block_read, hle, hp]
    simp [not_lt.mpr hr]
  · simp only [H5F_block_write, hle]
    split
    · simp_all
    · split
      · simp
      · split <;> simp
  · intro p hp hr
    simp only [H5F_block_write, hle, hp]
    simp [not_lt.mpr hr]

/-- Witness for C2 amended: the 10-byte request at 4085 ends one byte below 4096. -/
theorem C2_below_temporary_space_witness :
    (H5E_BADRANGE ∉ (H5F_block_read simEnv (simFile 4096 []) H5FD_MEM_DRAW 4085 10 1 [] simWorld).errors.map
        H5E_error.min ∧
     (H5F_block_read simEnv (simFile 4096 []) H5FD_MEM_DRAW 4085 10 1 [] simWorld).ret_value = SUCCEED) ∧
    (H5E_BADRANGE ∉ (H5F_block_write simEnv (simFile 4096 []) H5FD_MEM_DRAW 4085 10 1 [] simWorld).errors.map
        H5E_error.min ∧
     (H5F_block_write simEnv (simFile 4096 []) H5FD_MEM_DRAW 4085 10 1 [] simWorld).ret_value = SUCCEED) :=
  have h := C2_below_temporary_space simEnv (simFile 4096 []) H5FD_MEM_DRAW 4085 10 1 [] simWorld
    (by decide) (by decide)
  ⟨⟨h.1.1, h.1.2 1 rfl (by decide)⟩, ⟨h.2.1, h.2.2 1 rfl (by decide)⟩⟩

/-- C3: `H5F_block_read` (likewise `H5F_block_write`) returns `SUCCEED` exactly when the
temporary-space check passes, the transfer property list it looks up resolves, and the
accumulator read (write) returns a non-negative status.  When the check passes and the
list does not resolve, the call fails with the argument error and the trace holds the
lookup only (the accumulator is not called); when the accumulator returns a negative
status the call fails with the read (write) I/O error. -/
theorem C3_success_iff {σ : Type} (env : Env σ) (f : H5F_t) (type : H5FD_mem_t)
    (addr : haddr_t) (size : Nat) (dxpl_id : hid_t) (buf : List Nat) (w : σ) :
    (((H5F_block_read env f type addr size dxpl_id buf w).ret_value = SUCCEED ↔
        H5F_addr_le f.shared.tmp_addr ((addr + size) % 2 ^ 64) = false ∧
        ∃ p, env.H5I_object (my_dxpl_id env type dxpl_id) = some p ∧
          0 ≤ (env.H5F__accum_read ⟨f, p⟩ (map_type type) addr size buf w).1) ∧
     (H5F_addr_le f.shared.tmp_addr ((addr + size) % 2 ^ 64) = false →
        env.H5I_object (my_dxpl_id env type dxpl_id) = none →
        (H5F_block_read env f type addr size dxpl_id buf w).ret_value = FAIL ∧
        (H5F_block_read env f type addr size dxpl_id buf w).errors
          = [⟨H5E_ARGS, H5E_BADTYPE, "can't get property list"⟩] ∧
        (H5F_block_read env f type addr size dxpl_id buf w).trace
          = [Event.H5I_object (my_dxpl_id env type dxpl_id)] ∧
        (H5F_block_read env f type addr size dxpl_id buf w).world = w) ∧
     (H5F_addr_le f.shared.tmp_addr ((addr + size) % 2 ^ 64) = false →
        ∀ p, env.H5I_object (my_dxpl_id env type dxpl_id) = some p →
        (env.H5F__accum_read ⟨f, p⟩ (map_type type) addr size buf w).1 < 0 →
        (H5F_block_read env f type addr size dxpl_id buf w).ret_value = FAIL ∧
        (H5F_block_read env f type addr size dxpl_id buf w).errors
          = [⟨ H5E_IO, H5E_READERROR, "read through metadata accumulator failed"⟩])) ∧
    (((H5F_block_write env f type addr size dxpl_id buf w).ret_value = SUCCEED ↔
        H5F_addr_le f.shared.tmp_addr ((addr + size) % 2 ^ 64) = false ∧
        ∃ p, env.H5I_object (my_dxpl_id env type dxpl_id) = some p ∧
          0 ≤ (env.H5F__accum_write ⟨f, p⟩ (map_type type) addr size buf w).1) ∧
     (H5F_addr_le f.shared.tmp_addr ((addr + size) % 2 ^ 64) = false →
        env.H5I_object (my_dxpl_id env type dxpl_id) = none →
        (H5F_block_write env f type addr size dxpl_id buf w).ret_value = FAIL ∧
        (H5F_block_write env f type addr size dxpl_id buf w).errors
          = [⟨H5E_ARGS, H5E_BADTYPE, "can't get property list"⟩] ∧
        (H5F_block_write env f type addr size dxpl_id buf w).trace
          = [Event.H5I_object (my_dxpl_id env type dxpl_id)] ∧
        (H5F_block_write env f type addr size dxpl_id buf w).world = w) ∧
     (H5F_addr_le f.shared.tmp_addr ((addr + size) % 2 ^ 64) = false →
        ∀ p, env.H5I_object (my_dxpl_id env type dxpl_id) = some p →
        (env.H5F__accum_write ⟨f, p⟩ (map_type type) addr size buf w).1 < 0 →
        (H5F_block_write env f type addr size dxpl_id buf w).ret_value = FAIL ∧
        (H5F_block_write env f type addr size dxpl_id buf w).errors
          = [⟨ H5E_IO, H5E_WRITEERROR, "write through metadata accumulator failed"⟩])) := by
  have hFS : FAIL ≠ SUCCEED := by decide
  refine ⟨⟨?_, ?_, ?_⟩, ?_, ?_, ?_⟩
  · unfold H5F_block_read
    generalize H5F_addr_le f.shared.tmp_addr ((addr + size) % 2 ^ 64) = b
    cases b
    · cases hnone : env.H5I_object (my_dxpl_id env type dxpl_id) with
      | none => simp [hFS]
      | some p =>
        by_cases hr : (env.H5F__accum_read ⟨f, p⟩ (map_type type) addr size buf w).1 < 0
        · simp [hr, hFS]
        · simp [hr, not_lt.mp hr]
    · simp [hFS]
  · intro hle hnone
    simp only [H5F_block_read, hle, hnone]
    simp
  · intro hle p hsome hr
    simp only [H5F_block_read, hle, hsome]
    simp [hr]
  · unfold H5F_block_write
    generalize H5F_addr_le f.shared.tmp_addr ((addr + size) % 2 ^ 64) = b
    cases b
    · cases hnone : env.H5I_object (my_dxpl_id env type dxpl_id) with
      | none => simp [hFS]
      | some p =>
        by_cases hr : (env.H5F__accum_write ⟨f, p⟩ (map_type type) addr size buf w).1 < 0
        · simp [hr, hFS]
        · simp [hr, not_lt.mp hr]
    · simp [hFS]
  · intro hle hnone
    simp only [H5F_block_write, hle, hnone]
    simp
  · intro hle p hsome hr
    simp only [H5F_block_write, hle, hsome]
    simp [hr]

/-- Witness for C3: a 10-byte request at 100 below temporary space 4096 succeeds with a
resolvable list (identifier 1), fails with the argument error and no accumulator call
with an unresolvable one (identifier -1), and fails with the read / write error when
the accumulator fails. -/
theorem C3_success_iff_witness :
    ((H5F_block_read simEnv (simFile 4096 []) H5FD_MEM_DRAW 100 10 1 [] simWorld).ret_value = SUCCEED ∧
     ((H5F_block_read simEnv (simFile 4096 []) H5FD_MEM_DRAW 100 10 (-1) [] simWorld).ret_value = FAIL ∧
      (H5F_block_read simEnv (simFile 4096 []) H5FD_MEM_DRAW 100 10 (-1) [] simWorld).errors
        = [⟨H5E_ARGS, H5E_BADTYPE, "can't get property list"⟩] ∧
      (H5F_block_read simEnv (simFile 4096 []) H5FD_MEM_DRAW 100 10 (-1) [] simWorld).trace
        = [Event.H5I_object (-1)] ∧
      (H5F_block_read simEnv (simFile 4096 []) H5FD_MEM_DRAW 100 10 (-1) [] simWorld).world = simWorld) ∧
     ((H5F_block_read simEnv (simFile 4096 []) H5FD_MEM_DRAW 100 10 1 [] simWorldAccumFault).ret_value
        = FAIL ∧
      (H5F_block_read simEnv (simFile 4096 []) H5FD_MEM_DRAW 100 10 1 [] simWorldAccumFault).errors
        = [⟨ H5E_IO, H5E_READERROR, "read through metadata accumulator failed"⟩])) ∧
    ((H5F_block_write simEnv (simFile 4096 []) H5FD_MEM_DRAW 100 10 1 [] simWorld).ret_value = SUCCEED ∧
     ((H5F_block_write simEnv (simFile 4096 []) H5FD_MEM_DRAW 100 10 (-1) [] simWorld).ret_value = FAIL ∧
      (H5F_block_write simEnv (simFile 4096 []) H5FD_MEM_DRAW 100 10 (-1) [] simWorld).errors
        = [⟨H5E_ARGS, H5E_BADTYPE, "can't get property list"⟩] ∧
      (H5F_block_write simEnv (simFile 4096 []) H5FD_MEM_DRAW 100 10 (-1) [] simWorld).trace
        = [Event.H5I_object (-1)] ∧
      (H5F_block_write simEnv (simFile 4096 []) H5FD_MEM_DRAW 100 10 (-1) [] simWorld).world = simWorld) ∧
     ((H5F_block_write simEnv (simFile 4096 []) H5FD_MEM_DRAW 100 10 1 [] simWorldAccumFault).ret_value
        = FAIL ∧
      (H5F_block_write simEnv (simFile 4096 []) H5FD_MEM_DRAW 100 10 1 [] simWorldAccumFault).errors
        = [⟨ H5E_IO, H5E_WRITEERROR, "write through metadata accumulator failed"⟩])) :=
  have ok := C3_success_iff simEnv (simFile 4096 []) H5FD_MEM_DRAW 100 10 1 [] simWorld
  have bad := C3_success_iff simEnv (simFile 4096 []) H5FD_MEM_DRAW 100 10 (-1) [] simWorld
  have flt := C3_success_iff simEnv (simFile 4096 []) H5FD_MEM_DRAW 100 10 1 [] simWorldAccumFault
  ⟨⟨ok.1.1.mpr ⟨rfl, 1, rfl, by decide⟩, bad.1.2.1 rfl rfl, flt.1.2.2 rfl 1 rfl (by decide)⟩,
   ⟨ok.2.1.mpr ⟨rfl, 1, rfl, by decide⟩, bad.2.2.1 rfl rfl, flt.2.2.2 rfl 1 rfl (by decide)⟩⟩

/-- C4: the kind `H5F_block_read` and `H5F_block_write` hand to the accumulator is
`map_type type`: the raw-data kind for the global-heap kind and `type` itself otherwise,
never the global-heap kind, and idempotent.  Every accumulator call in the trace carries
exactly `(map_type type, addr, size, buf)`, and a call that succeeds made exactly one
accumulator call. -/
theorem C4_mapped_kind {σ : Type} (env : Env σ) (f : H5F_t) (type : H5FD_mem_t)
    (addr : haddr_t) (size : Nat) (dxpl_id : hid_t) (buf : List Nat) (w : σ) :
    (map_type H5FD_MEM_GHEAP = H5FD_MEM_DRAW ∧ (type ≠ H5FD_MEM_GHEAP → map_type type = type) ∧
     map_type type ≠ H5FD_MEM_GHEAP ∧ map_type (map_type type) = map_type type) ∧
    ((∀ x ∈ (H5F_block_read env f type addr size dxpl_id buf w).trace.filterMap Event.accum_args,
        x.1.f = f ∧ x.2 = (map_type type, addr, size, buf)) ∧
     ((H5F_block_read env f type addr size dxpl_id buf w).ret_value = SUCCEED →
        ∃ p, (H5F_block_read env f type addr size dxpl_id buf w).trace
          = [Event.H5I_object (my_dxpl_id env type dxpl_id),
             Event.H5F__accum_read ⟨f, p⟩ (map_type type) addr size buf])) ∧
    ((∀ x ∈ (H5F_block_write env f type addr size dxpl_id buf w).trace.filterMap Event.accum_args,
        x.1.f = f ∧ x.2 = (map_type type, addr, size, buf)) ∧
     ((H5F_block_write env f type addr size dxpl_id buf w).ret_value = SUCCEED →
        ∃ p, (H5F_block_write env f type addr size dxpl_id buf w).trace
          = [Event.H5I_object (my_dxpl_id env type dxpl_id),
             Event.H5F__accum_write ⟨f, p⟩ (map_type type) addr size buf])) := by
  have hFS : FAIL ≠ SUCCEED := by decide
  refine ⟨⟨rfl, ?_, ?_, ?_⟩, ⟨?_, ?_⟩, ?_, ?_⟩
  · intro h
    simp [map_type, h]
  · cases type <;> decide
  · cases type <;> decide
  · simp only [H5F_block_read]
    split
    · simp
    · split
      · simp [Event.accum_args]
      · split <;> simp [Event.accum_args]
  · simp only [H5F_block_read]
    split
    · simp [hFS]
    · split
      · simp [hFS]
      · split <;> simp [hFS]
  · simp only [H5F_block_write]
    split
    · simp
    · split
      · simp [Event.accum_args]
      · split <;> simp [Event.accum_args]
  · simp only [H5F_block_write]
    split
    · simp [hFS]
    · split
      · simp [hFS]
      · split <;> simp [hFS]

/-- Witness for C4: a global-heap request in the concrete world reaches the accumulator
as a raw-data request with the same address, size and buffer. -/
theorem C4_mapped_kind_witness :
    (H5F_block_read simEnv (simFile 4096 []) H5FD_MEM_GHEAP 100 2 1 [5, 6] simWorld).trace
       = [Event.H5I_object 1,
          Event.H5F__accum_read ⟨simFile 4096 [], 1⟩ H5FD_MEM_DRAW 100 2 [5, 6]] ∧
    (H5F_block_write simEnv (simFile 4096 []) H5FD_MEM_GHEAP 100 2 1 [5, 6] simWorld).trace
       = [Event.H5I_object 1,
          Event.H5F__accum_write ⟨simFile 4096 [], 1⟩ H5FD_MEM_DRAW 100 2 [5, 6]] ∧
    ((simFile 4096 [], H5FD_MEM_DRAW, 100, 2, [5, 6])
       = ((simFile 4096 [], map_type H5FD_MEM_GHEAP, 100, 2, [5, 6]) :
            H5F_t × H5FD_mem_t × haddr_t × Nat × List Nat)) := by
  have h := C4_mapped_kind simEnv (simFile 4096 []) H5FD_MEM_GHEAP 100 2 1 [5, 6] simWorld
  obtain ⟨p, hp⟩ := h.2.1.2 rfl
  obtain ⟨q, hq⟩ := h.2.2.2 rfl
  have hx := h.2.1.1 (⟨simFile 4096 [], 1⟩, H5FD_MEM_DRAW, 100, 2, [5, 6]) (by decide)
  refine ⟨rfl, rfl, ?_⟩
  rw [← hx.1, ← hx.2]

/-- C5: read-after-write coherence through the facade.  If the accumulator layer is
read-after-write coherent, then after a successful `H5F_block_write(f, type, addr, n, buf)`
an `H5F_block_read(f, type', addr, n)` issued on the resulting world with a resolvable
transfer property list succeeds and returns exactly `buf`, whatever the world (device
contents) was and whatever the read buffer held, for kinds `type`, `type'` that are equal
or are the global-heap and raw-data kinds in either order. -/
theorem C5_read_after_write {σ : Type} (env : Env σ) (hcoh : AccumCoherent env) (f : H5F_t)
    (type type' : H5FD_mem_t) (addr : haddr_t) (n : Nat) (dxpl_id dxpl_id' : hid_t)
    (buf b0 : List Nat) (w : σ)
    (hkind : type = type' ∨ (type = H5FD_MEM_GHEAP ∧ type' = H5FD_MEM_DRAW) ∨
      (type = H5FD_MEM_DRAW ∧ type' = H5FD_MEM_GHEAP))
    (hw : (H5F_block_write env f type addr n dxpl_id buf w).ret_value = SUCCEED)
    (hres : (env.H5I_object (my_dxpl_id env type' dxpl_id')).isSome = true) :
    (H5F_block_read env f type' addr n dxpl_id' b0
        (H5F_block_write env f type addr n dxpl_id buf w).world).ret_value = SUCCEED ∧
    (H5F_block_read env f type' addr n dxpl_id' b0
        (H5F_block_write env f type addr n dxpl_id buf w).world).buf = buf := by
  have hmap := map_type_eq_of_same_kind hkind
  obtain ⟨hle, p, hp, hacc⟩ := (H5F_block_write_success_iff env f type addr n dxpl_id buf w).1 hw
  obtain ⟨q, hq⟩ := Option.isSome_iff_exists.1 hres
  have hworld : (H5F_block_write env f type addr n dxpl_id buf w).world
      = (env.H5F__accum_write ⟨f, p⟩ (map_type type) addr n buf w).2 := by
    simp only [H5F_block_write, hle, hp]
    simp [not_lt.mpr hacc]
  have hc := hcoh f p q (map_type type) addr n buf b0 w hacc
  rw [hworld]
  simp only [H5F_block_read, hle, hq, ← hmap]
  simp [not_lt.mpr hc.1, hc.2]

/-- Witness for C5: in the concrete world, ten bytes `0xAA` written at 50 as global-heap
data are read back as raw data. -/
theorem C5_read_after_write_witness :
    (H5F_block_read simEnv (simFile 4096 []) H5FD_MEM_DRAW 50 10 1 []
        (H5F_block_write simEnv (simFile 4096 []) H5FD_MEM_GHEAP 50 10 1 (List.replicate 10 170)
          simWorld).world).ret_value = SUCCEED ∧
    (H5F_block_read simEnv (simFile 4096 []) H5FD_MEM_DRAW 50 10 1 []
        (H5F_block_write simEnv (simFile 4096 []) H5FD_MEM_GHEAP 50 10 1 (List.replicate 10 170)
          simWorld).world).buf = List.replicate 10 170 :=
  C5_read_after_write simEnv simEnv_coherent (simFile 4096 []) H5FD_MEM_GHEAP H5FD_MEM_DRAW 50 10 1 1
    (List.replicate 10 170) [] simWorld (Or.inr (Or.inl ⟨rfl, rfl⟩)) rfl rfl

/-! ## Claims about `H5F_flush_tagged_metadata` -/

/-- C6: `H5F_flush_tagged_metadata` returns `SUCCEED` exactly when the tagged cache
flush, the property-list lookup, the accumulator reset and the driver flush all succeed,
each run on the world its predecessor left; and on every successful call the trace is
exactly: the flush of the entries tagged `tag`, the lookup, the accumulator reset with
`flush = TRUE`, the driver flush, so each collaborator is called once, in this order,
and the final world is the one the driver flush left. -/
theorem C6_flush_order {σ : Type} (env : Env σ) (f : H5F_t) (tag : haddr_t) (dxpl_id : hid_t)
    (w : σ) :
    ((H5F_flush_tagged_metadata env f tag dxpl_id w).ret_value = SUCCEED ↔
      0 ≤ (env.H5AC_flush_tagged_metadata f tag dxpl_id w).1 ∧
      ∃ p, env.H5I_object dxpl_id = some p ∧
        0 ≤ (env.H5F__accum_reset ⟨f, p⟩ true (env.H5AC_flush_tagged_metadata f tag dxpl_id w).2).1 ∧
        0 ≤ (env.H5FD_flush f.shared.lf dxpl_id false
          (env.H5F__accum_reset ⟨f, p⟩ true (env.H5AC_flush_tagged_metadata f tag dxpl_id w).2).2).1) ∧
    ((H5F_flush_tagged_metadata env f tag dxpl_id w).ret_value = SUCCEED →
      ∃ p, env.H5I_object dxpl_id = some p ∧
        (H5F_flush_tagged_metadata env f tag dxpl_id w).trace
          = [Event.H5AC_flush_tagged_metadata f tag dxpl_id, Event.H5I_object dxpl_id,
             Event.H5F__accum_reset ⟨f, p⟩ true, Event.H5FD_flush f.shared.lf dxpl_id false] ∧
        (H5F_flush_tagged_metadata env f tag dxpl_id w).trace.map Event.kind = [3, 0, 4, 5] ∧
        (H5F_flush_tagged_metadata env f tag dxpl_id w).world
          = (env.H5FD_flush f.shared.lf dxpl_id false
              (env.H5F__accum_reset ⟨f, p⟩ true
                (env.H5AC_flush_tagged_metadata f tag dxpl_id w).2).2).2) := by
  have hFS : FAIL ≠ SUCCEED := by decide
  simp only [H5F_flush_tagged_metadata]
  by_cases h1 : (env.H5AC_flush_tagged_metadata f tag dxpl_id w).1 < 0
  · simp [h1, hFS]
  · cases hp : env.H5I_object dxpl_id with
    | none => simp [h1, hFS]
    | some p =>
      by_cases h2 : (env.H5F__accum_reset ⟨f, p⟩ true
          (env.H5AC_flush_tagged_metadata f tag dxpl_id w).2).1 < 0
      · simp [h1, h2, hFS]
      · by_cases h3 : (env.H5FD_flush f.shared.lf dxpl_id false
            (env.H5F__accum_reset ⟨f, p⟩ true
              (env.H5AC_flush_tagged_metadata f tag dxpl_id w).2).2).1 < 0
        · simp [h1, h2, h3, hFS]
        · simp [h1, h2, h3, not_lt.mp h1, not_lt.mp h2, not_lt.mp h3, Event.kind]

/-- Witness for C6: the flush of tag 1000 in the fault-free concrete world succeeds
with the four calls in order. -/
theorem C6_flush_order_witness :
    ∃ p, simEnv.H5I_object 1 = some p ∧
      (H5F_flush_tagged_metadata simEnv (simFile 4096 simEntries) 1000 1 simWorld).trace
        = [Event.H5AC_flush_tagged_metadata (simFile 4096 simEntries) 1000 1, Event.H5I_object 1,
           Event.H5F__accum_reset ⟨simFile 4096 simEntries, p⟩ true,
           Event.H5FD_flush (simFile 4096 simEntries).shared.lf 1 false] ∧
      (H5F_flush_tagged_metadata simEnv (simFile 4096 simEntries) 1000 1 simWorld).trace.map Event.kind
        = [3, 0, 4, 5] ∧
      (H5F_flush_tagged_metadata simEnv (simFile 4096 simEntries) 1000 1 simWorld).world
        = (simEnv.H5FD_flush (simFile 4096 simEntries).shared.lf 1 false
            (simEnv.H5F__accum_reset ⟨simFile 4096 simEntries, p⟩ true
              (simEnv.H5AC_flush_tagged_metadata (simFile 4096 simEntries) 1000 1 simWorld).2).2).2 :=
  (C6_flush_order simEnv (simFile 4096 simEntries) 1000 1 simWorld).2 rfl

/-- C7: a failure inside `H5F_flush_tagged_metadata` ends the call and is returned.  If
the tagged cache flush fails, the call fails with the can't-flush error and the trace
holds that one call (no lookup, no accumulator reset, no driver flush).  If the cache
flush succeeds, the list resolves and the accumulator reset fails, the call fails with
the can't-reset error and the trace ends with the reset (no driver flush).  If the driver
flush fails the call fails with the write error.  In every case no collaborator occurs
twice in the trace, and a failing call returns `FAIL`. -/
theorem C7_flush_failure_halts {σ : Type} (env : Env σ) (f : H5F_t) (tag : haddr_t)
    (dxpl_id : hid_t) (w : σ) :
    ((env.H5AC_flush_tagged_metadata f tag dxpl_id w).1 < 0 →
      (H5F_flush_tagged_metadata env f tag dxpl_id w).ret_value = FAIL ∧
      (H5F_flush_tagged_metadata env f tag dxpl_id w).errors
        = [⟨H5E_CACHE, H5E_CANTFLUSH, "unable to flush tagged metadata"⟩] ∧
      (H5F_flush_tagged_metadata env f tag dxpl_id w).trace
        = [Event.H5AC_flush_tagged_metadata f tag dxpl_id]) ∧
    (∀ p, 0 ≤ (env.H5AC_flush_tagged_metadata f tag dxpl_id w).1 →
      env.H5I_object dxpl_id = some p →
      (env.H5F__accum_reset ⟨f, p⟩ true (env.H5AC_flush_tagged_metadata f tag dxpl_id w).2).1 < 0 →
      (H5F_flush_tagged_metadata env f tag dxpl_id w).ret_value = FAIL ∧
      (H5F_flush_tagged_metadata env f tag dxpl_id w).errors
        = [⟨ H5E_IO, H5E_CANTRESET, "can't reset accumulator"⟩] ∧
      (H5F_flush_tagged_metadata env f tag dxpl_id w).trace
        = [Event.H5AC_flush_tagged_metadata f tag dxpl_id, Event.H5I_object dxpl_id,
           Event.H5F__accum_reset ⟨f, p⟩ true]) ∧
    (∀ p, 0 ≤ (env.H5AC_flush_tagged_metadata f tag dxpl_id w).1 →
      env.H5I_object dxpl_id = some p →
      0 ≤ (env.H5F__accum_reset ⟨f, p⟩ true (env.H5AC_flush_tagged_metadata f tag dxpl_id w).2).1 →
      (env.H5FD_flush f.shared.lf dxpl_id false
        (env.H5F__accum_reset ⟨f, p⟩ true (env.H5AC_flush_tagged_metadata f tag dxpl_id w).2).2).1 < 0 →
      (H5F_flush_tagged_metadata env f tag dxpl_id w).ret_value = FAIL ∧
      (H5F_flush_tagged_metadata env f tag dxpl_id w).errors
        = [⟨ H5E_IO, H5E_WRITEERROR, "low level flush failed"⟩]) ∧
    ((H5F_flush_tagged_metadata env f tag dxpl_id w).trace.map Event.kind).Nodup ∧
    ((H5F_flush_tagged_metadata env f tag dxpl_id w).ret_value = SUCCEED ∨
     (H5F_flush_tagged_metadata env f tag dxpl_id w).ret_value = FAIL) := by
  simp only [H5F_flush_tagged_metadata]
  by_cases h1 : (env.H5AC_flush_tagged_metadata f tag dxpl_id w).1 < 0
  · simp [h1, not_le.mpr h1, Event.kind]
  · cases hp : env.H5I_object dxpl_id with
    | none => simp [h1, Event.kind]
    | some p =>
      by_cases h2 : (env.H5F__accum_reset ⟨f, p⟩ true
          (env.H5AC_flush_tagged_metadata f tag dxpl_id w).2).1 < 0
      · simp [h1, h2, not_le.mpr h2, Event.kind]
      · by_cases h3 : (env.H5FD_flush f.shared.lf dxpl_id false
            (env.H5F__accum_reset ⟨f, p⟩ true
              (env.H5AC_flush_tagged_metadata f tag dxpl_id w).2).2).1 < 0
        · simp [h1, h2, h3, not_lt.mp h2, Event.kind]
        · simp [h1, h2, h3, not_lt.mp h2, not_lt.mp h3, Event.kind]

/-- Witness for C7: the three failing runs in the concrete world: cache fault, accumulator
fault, driver fault. -/
theorem C7_flush_failure_halts_witness :
    ((H5F_flush_tagged_metadata simEnv (simFile 4096 simEntries) 1000 1 simWorldCacheFault).ret_value
        = FAIL ∧
      (H5F_flush_tagged_metadata simEnv (simFile 4096 simEntries) 1000 1 simWorldCacheFault).errors
        = [⟨H5E_CACHE, H5E_CANTFLUSH, "unable to flush tagged metadata"⟩] ∧
      (H5F_flush_tagged_metadata simEnv (simFile 4096 simEntries) 1000 1 simWorldCacheFault).trace
        = [Event.H5AC_flush_tagged_metadata (simFile 4096 simEntries) 1000 1]) ∧
    ((H5F_flush_tagged_metadata simEnv (simFile 4096 simEntries) 1000 1 simWorldAccumFault).ret_value
        = FAIL ∧
      (H5F_flush_tagged_metadata simEnv (simFile 4096 simEntries) 1000 1 simWorldAccumFault).errors
        = [⟨ H5E_IO, H5E_CANTRESET, "can't reset accumulator"⟩] ∧
      (H5F_flush_tagged_metadata simEnv (simFile 4096 simEntries) 1000 1 simWorldAccumFault).trace
        = [Event.H5AC_flush_tagged_metadata (simFile 4096 simEntries) 1000 1, Event.H5I_object 1,
           Event.H5F__accum_reset ⟨simFile 4096 simEntries, 1⟩ true]) ∧
    ((H5F_flush_tagged_metadata simEnv (simFile 4096 simEntries) 1000 1 simWorldDeviceFault).ret_value
        = FAIL ∧
      (H5F_flush_tagged_metadata simEnv (simFile 4096 simEntries) 1000 1 simWorldDeviceFault).errors
        = [⟨ H5E_IO, H5E_WRITEERROR, "low level flush failed"⟩]) :=
  ⟨(C7_flush_failure_halts simEnv (simFile 4096 simEntries) 1000 1 simWorldCacheFault).1 (by decide),
   (C7_flush_failure_halts simEnv (simFile 4096 simEntries) 1000 1 simWorldAccumFault).2.1 1
     (by decide) rfl (by decide),
   (C7_flush_failure_halts simEnv (simFile 4096 simEntries) 1000 1 simWorldDeviceFault).2.2.1 1
     (by decide) rfl (by decide) (by decide)⟩

/-- C8, as stated, fails on the code: in the concrete world the identifier -1 does not
resolve, and `H5F_flush_tagged_metadata` fails with the argument error, but only after
the tagged cache flush has been called (it is the first event of the trace) and has
changed the world (its flush counter went from 0 to 1). -/
theorem C8_counterexample :
    simEnv.H5I_object (-1) = none ∧
    (H5F_flush_tagged_metadata simEnv (simFile 4096 simEntries) 1000 (-1) simWorld).errors
      = [⟨H5E_ARGS, H5E_BADTYPE, "can't get property list"⟩] ∧
    (H5F_flush_tagged_metadata simEnv (simFile 4096 simEntries) 1000 (-1) simWorld).trace
      = [Event.H5AC_flush_tagged_metadata (simFile 4096 simEntries) 1000 (-1),
         Event.H5I_object (-1)] ∧
    (H5F_flush_tagged_metadata simEnv (simFile 4096 simEntries) 1000 (-1) simWorld).world.cache_flushes
      = 1 ∧
    (H5F_flush_tagged_metadata simEnv (simFile 4096 simEntries) 1000 (-1) simWorld).world ≠ simWorld := by
  refine ⟨rfl, rfl, rfl, rfl, ?_⟩
  decide

/-- C8, amended: with a transfer-property handle that cannot be resolved,
`H5F_flush_tagged_metadata` returns `FAIL` and calls neither the accumulator reset nor
the driver flush; the tagged cache flush is called first, with the unresolved handle,
and the world the call leaves is the one that cache flush left.  When the cache flush
succeeds, the error is the argument error and the trace is the cache flush followed by
the lookup; when it fails, the error is the can't-flush error. -/
theorem C8_unresolved_handle {σ : Type} (env : Env σ) (f : H5F_t) (tag : haddr_t)
    (dxpl_id : hid_t) (w : σ) (hnone : env.H5I_object dxpl_id = none) :
    (H5F_flush_tagged_metadata env f tag dxpl_id w).ret_value = FAIL ∧
    (H5F_flush_tagged_metadata env f tag dxpl_id w).trace.head?
      = some (Event.H5AC_flush_tagged_metadata f tag dxpl_id) ∧
    (H5F_flush_tagged_metadata env f tag dxpl_id w).trace.filter
      (fun e => e.kind == 4 || e.kind == 5) = [] ∧
    (H5F_flush_tagged_metadata env f tag dxpl_id w).world
      = (env.H5AC_flush_tagged_metadata f tag dxpl_id w).2 ∧
    (0 ≤ (env.H5AC_flush_tagged_metadata f tag dxpl_id w).1 →
      (H5F_flush_tagged_metadata env f tag dxpl_id w).errors
        = [⟨H5E_ARGS, H5E_BADTYPE, "can't get property list"⟩] ∧
      (H5F_flush_tagged_metadata env f tag dxpl_id w).trace
        = [Event.H5AC_flush_tagged_metadata f tag dxpl_id, Event.H5I_object dxpl_id]) ∧
    ((env.H5AC_flush_tagged_metadata f tag dxpl_id w).1 < 0 →
      (H5F_flush_tagged_metadata env f tag dxpl_id w).errors
        = [⟨H5E_CACHE, H5E_CANTFLUSH, "unable to flush tagged metadata"⟩]) := by
  simp only [H5F_flush_tagged_metadata, hnone]
  by_cases h1 : (env.H5AC_flush_tagged_metadata f tag dxpl_id w).1 < 0
  · simp [h1, not_le.mpr h1, Event.kind]
  · simp [h1, Event.kind]

/-- Witness for C8 amended: identifier -1 in the concrete world, without and with a
cache fault. -/
theorem C8_unresolved_handle_witness :
    ((H5F_flush_tagged_metadata simEnv (simFile 4096 simEntries) 1000 (-1) simWorld).ret_value = FAIL ∧
     (H5F_flush_tagged_metadata simEnv (simFile 4096 simEntries) 1000 (-1) simWorld).errors
        = [⟨H5E_ARGS, H5E_BADTYPE, "can't get property list"⟩] ∧
     (H5F_flush_tagged_metadata simEnv (simFile 4096 simEntries) 1000 (-1) simWorld).trace
        = [Event.H5AC_flush_tagged_metadata (simFile 4096 simEntries) 1000 (-1),
           Event.H5I_object (-1)]) ∧
    (H5F_flush_tagged_metadata simEnv (simFile 4096 simEntries) 1000 (-1) simWorldCacheFault).errors
        = [⟨H5E_CACHE, H5E_CANTFLUSH, "unable to flush tagged metadata"⟩] :=
  have a := C8_unresolved_handle simEnv (simFile 4096 simEntries) 1000 (-1) simWorld (by rfl)
  have b := C8_unresolved_handle simEnv (simFile 4096 simEntries) 1000 (-1) simWorldCacheFault
    (by rfl)
  ⟨⟨a.1, a.2.2.2.2.1 (by decide)⟩, b.2.2.2.2.2 (by decide)⟩

/-! ## Claims about the epoch-marker class -/

/-- C9: each of the nine callback slots of `H5C__epoch_marker_class` is populated, and
the call through any slot, on any arguments, returns `FAIL` (`NULL` for `deserialize`),
pushes exactly the error record (cache, system, "called unreachable fcn.") and leaves
the storage behind every output pointer as it was; `FAIL` is negative, so no call
reports success. -/
theorem C9_epoch_marker_unreachable (ty : Int) (fl : Nat) (f thing udata len clen action : Nat)
    (image : List Nat) (dxpl_id : hid_t) (addr : haddr_t) (dirty destroy : hbool_t)
    (n : Nat) (o3 : Nat × hbool_t × Nat) (o4 : haddr_t × Nat × Nat × Nat) :
    ((H5C__epoch_marker_class ty fl).get_load_size.map (fun g => g udata n)
        = some ⟨FAIL, n, [unreachable_fcn]⟩ ∧
     (H5C__epoch_marker_class ty fl).deserialize.map (fun g => g image len udata dirty)
        = some ⟨none, dirty, [unreachable_fcn]⟩ ∧
     (H5C__epoch_marker_class ty fl).image_len.map (fun g => g thing o3)
        = some ⟨FAIL, o3, [unreachable_fcn]⟩ ∧
     (H5C__epoch_marker_class ty fl).pre_serialize.map (fun g => g f dxpl_id thing addr len clen o4)
        = some ⟨FAIL, o4, [unreachable_fcn]⟩ ∧
     (H5C__epoch_marker_class ty fl).serialize.map (fun g => g f image len thing)
        = some ⟨FAIL, image, [unreachable_fcn]⟩ ∧
     (H5C__epoch_marker_class ty fl).notify.map (fun g => g action thing)
        = some ⟨FAIL, (), [unreachable_fcn]⟩ ∧
     (H5C__epoch_marker_class ty fl).free_icr.map (fun g => g thing)
        = some ⟨FAIL, (), [unreachable_fcn]⟩ ∧
     (H5C__epoch_marker_class ty fl).clear.map (fun g => g f thing destroy)
        = some ⟨FAIL, (), [unreachable_fcn]⟩ ∧
     (H5C__epoch_marker_class ty fl).fsf_size.map (fun g => g thing n)
        = some ⟨FAIL, n, [unreachable_fcn]⟩) ∧
    unreachable_fcn = ⟨H5E_CACHE, H5E_SYSTEM, "called unreachable fcn."⟩ ∧
    FAIL < 0 ∧ FAIL ≠ SUCCEED := by
  refine ⟨⟨rfl, rfl, rfl, rfl, rfl, rfl, rfl, rfl, rfl⟩, rfl, by decide, by decide⟩

/-! ## Claims about `H5C__verify_cork_tag_test` -/

/-- C10: for a valid file identifier, `H5C__verify_cork_tag_test(fid, tag, status)`
succeeds if and only if every cache entry carrying `tag` has `is_corked` equal to
`status`; it succeeds for both statuses when no entry carries the tag, and when some
entry carries the tag it does not succeed for both `TRUE` and `FALSE`. -/
theorem C10_verify_cork_iff {σ : Type} (env : Env σ) (fid : hid_t) (tag : haddr_t) (f : H5F_t)
    (hf : env.H5I_object_verify_FILE fid = some f) :
    (∀ status, (H5C__verify_cork_tag_test env fid tag status).ret_value = SUCCEED ↔
      ∀ e ∈ f.shared.cache.entries, e.tag = some tag → e.is_corked = status) ∧
    ((∀ e ∈ f.shared.cache.entries, e.tag ≠ some tag) →
      (H5C__verify_cork_tag_test env fid tag true).ret_value = SUCCEED ∧
      (H5C__verify_cork_tag_test env fid tag false).ret_value = SUCCEED) ∧
    ((∃ e ∈ f.shared.cache.entries, e.tag = some tag) →
      ¬ ((H5C__verify_cork_tag_test env fid tag true).ret_value = SUCCEED ∧
         (H5C__verify_cork_tag_test env fid tag false).ret_value = SUCCEED)) := by
  have hFS : FAIL ≠ SUCCEED := by decide
  have key : ∀ status, (H5C__verify_cork_tag_test env fid tag status).ret_value = SUCCEED ↔
      ∀ e ∈ f.shared.cache.entries, e.tag = some tag → e.is_corked = status := by
    intro status
    rw [H5C__verify_cork_tag_test_ret env fid tag status f hf]
    by_cases h : ∀ e ∈ f.shared.cache.entries, e.tag = some tag → e.is_corked = status
    · simp only [if_pos h, true_iff]
      exact h
    · simp only [if_neg h, hFS, false_iff]
      exact h
  refine ⟨key, ?_, ?_⟩
  · intro hno
    exact ⟨(key true).2 (fun e he ht => absurd ht (hno e he)),
           (key false).2 (fun e he ht => absurd ht (hno e he))⟩
  · rintro ⟨e, he, ht⟩ ⟨h1, h2⟩
    have a := (key true).1 h1 e he ht
    have b := (key false).1 h2 e he ht
    rw [a] at b
    exact Bool.noConfusion b

/-- Witness for C10: in the file of the concrete world the entries tagged 1000 are all
corked, so verification of tag 1000 succeeds for `TRUE` and fails for `FALSE`; no entry
carries tag 5, and verification of tag 5 succeeds for both statuses. -/
theorem C10_verify_cork_iff_witness :
    (H5C__verify_cork_tag_test simEnv 1 1000 true).ret_value = SUCCEED ∧
    ((H5C__verify_cork_tag_test simEnv 1 5 true).ret_value = SUCCEED ∧
     (H5C__verify_cork_tag_test simEnv 1 5 false).ret_value = SUCCEED) ∧
    ¬ ((H5C__verify_cork_tag_test simEnv 1 1000 true).ret_value = SUCCEED ∧
       (H5C__verify_cork_tag_test simEnv 1 1000 false).ret_value = SUCCEED) :=
  ⟨((C10_verify_cork_iff simEnv 1 1000 (simFile 4096 simEntries) rfl).1 true).2 (by decide),
   (C10_verify_cork_iff simEnv 1 5 (simFile 4096 simEntries) rfl).2.1 (by decide),
   (C10_verify_cork_iff simEnv 1 1000 (simFile 4096 simEntries) rfl).2.2 (by decide)⟩

/-- C11: `H5C__verify_cork_tag_test_cb` returns `H5_ITER_CONT` exactly when the entry's
`is_corked` equals the expected status and `H5_ITER_ERROR` otherwise, never
`H5_ITER_STOP` (the callback is a function of the entry and the context and returns
nothing but its code and the error it pushed).  Hence, when the entries carrying the tag
are `pre ++ e :: post` with every entry of `pre` matching and `e` the first mismatch, the
verification hands exactly `pre ++ [e]` to the callback (no entry of `post`) and fails. -/
theorem C11_first_violation {σ : Type} (env : Env σ) (fid : hid_t) (tag : haddr_t)
    (status : hbool_t) (f : H5F_t) (hf : env.H5I_object_verify_FILE fid = some f)
    (pre : List H5C_cache_entry_t) (e : H5C_cache_entry_t) (post : List H5C_cache_entry_t)
    (hsplit : f.shared.cache.entries.filter (fun x => x.tag == some tag) = pre ++ e :: post)
    (hpre : ∀ x ∈ pre, x.is_corked = status) (he : e.is_corked ≠ status) :
    (∀ (x : H5C_cache_entry_t) (ctx : H5C_tag_iter_vct_ctx_t),
      (H5C__verify_cork_tag_test_cb x ctx).1
        = if x.is_corked = ctx.status then H5_ITER_CONT else H5_ITER_ERROR) ∧
    (∀ (x : H5C_cache_entry_t) (ctx : H5C_tag_iter_vct_ctx_t),
      (H5C__verify_cork_tag_test_cb x ctx).1 ≠ H5_ITER_STOP) ∧
    (H5C__verify_cork_tag_test env fid tag status).visited = pre ++ [e] ∧
    (H5C__verify_cork_tag_test env fid tag status).ret_value = FAIL ∧
    (H5C__verify_cork_tag_test env fid tag status).errors
      = [⟨H5E_CACHE, H5E_BADVALUE, "bad cork status"⟩,
         ⟨H5E_CACHE, H5E_BADITER, "tagged entry iteration callback failed"⟩,
         ⟨H5E_CACHE, H5E_BADITER, "iteration of tagged entries failed"⟩] := by
  have hcb : ∀ (x : H5C_cache_entry_t) (ctx : H5C_tag_iter_vct_ctx_t),
      (H5C__verify_cork_tag_test_cb x ctx).1
        = if x.is_corked = ctx.status then H5_ITER_CONT else H5_ITER_ERROR := by
    intro x ctx
    exact H5C__verify_cork_tag_test_cb_ret x ctx.status
  have hwalk := iter_walk_cork_first status pre e post hpre he
  refine ⟨hcb, ?_, ?_, ?_, ?_⟩
  · intro x ctx
    rw [hcb]
    split <;> decide
  · simp [H5C__verify_cork_tag_test, hf, H5C__iter_tagged_entries, hsplit, hwalk,
      H5_ITER_ERROR, FAIL]
  · simp [H5C__verify_cork_tag_test, hf, H5C__iter_tagged_entries, hsplit, hwalk,
      H5_ITER_ERROR, FAIL]
  · simp [H5C__verify_cork_tag_test, hf, H5C__iter_tagged_entries, hsplit, hwalk,
      H5_ITER_ERROR, FAIL]

/-- Witness for C11: in the file of the concrete world the two entries tagged 1000 are
corked; verifying the status `FALSE` inspects the first of them only and fails. -/
theorem C11_first_violation_witness :
    (H5C__verify_cork_tag_test simEnv 1 1000 false).visited = [⟨100, some 1000, true, false⟩] ∧
    (H5C__verify_cork_tag_test simEnv 1 1000 false).ret_value = FAIL :=
  have h := C11_first_violation simEnv 1 1000 false (simFile 4096 simEntries) rfl []
    ⟨100, some 1000, true, false⟩ [⟨200, some 1000, true, true⟩] (by decide) (by decide) (by decide)
  ⟨h.2.2.1, h.2.2.2.1⟩

/-! ## Claims about `H5G_namei` -/

namespace H5G

/-- C12: name resolution is invariant under slash normalisation.  For every world,
starting location (also `NULL`) and name, `H5G_namei` returns the same status, the same
`grp_ent` and the same `obj_ent`, and leaves the same world (error stack and symbol-table
lookups), when a run of `k + 1` slashes anywhere in the name is replaced by a single
slash, and when the slashes that follow a non-empty name are removed. -/
theorem C12_slash_normalisation {ω : Type} (env : GEnv ω) (w : World ω)
    (loc_ent : Option H5G_entry_t) (a b : List Char) (k : Nat) :
    ((H5G_namei env w loc_ent (some (a ++ '/' :: (List.replicate k '/' ++ b)))).1.ret_value
        = (H5G_namei env w loc_ent (some (a ++ '/' :: b))).1.ret_value ∧
     (H5G_namei env w loc_ent (some (a ++ '/' :: (List.replicate k '/' ++ b)))).1.grp_ent
        = (H5G_namei env w loc_ent (some (a ++ '/' :: b))).1.grp_ent ∧
     (H5G_namei env w loc_ent (some (a ++ '/' :: (List.replicate k '/' ++ b)))).1.obj_ent
        = (H5G_namei env w loc_ent (some (a ++ '/' :: b))).1.obj_ent ∧
     (H5G_namei env w loc_ent (some (a ++ '/' :: (List.replicate k '/' ++ b)))).2
        = (H5G_namei env w loc_ent (some (a ++ '/' :: b))).2) ∧
    (a ≠ [] →
     (H5G_namei env w loc_ent (some (a ++ List.replicate k '/'))).1.ret_value
        = (H5G_namei env w loc_ent (some a)).1.ret_value ∧
     (H5G_namei env w loc_ent (some (a ++ List.replicate k '/'))).1.grp_ent
        = (H5G_namei env w loc_ent (some a)).1.grp_ent ∧
     (H5G_namei env w loc_ent (some (a ++ List.replicate k '/'))).1.obj_ent
        = (H5G_namei env w loc_ent (some a)).1.obj_ent ∧
     (H5G_namei env w loc_ent (some (a ++ List.replicate k '/'))).2
        = (H5G_namei env w loc_ent (some a)).2) := by
  constructor
  · have h := H5G_namei_congr env w loc_ent (a ++ '/' :: (List.replicate k '/' ++ b))
      (a ++ '/' :: b) (by simp) (by simp) (head?_append_cons a _ '/' _)
      (fun g o => by rw [name_components_run])
    have hc := h.1
    simp only [NameiRet.core, Prod.mk.injEq] at hc
    exact ⟨hc.1, hc.2.1, hc.2.2, h.2⟩
  · intro ha
    have h := H5G_namei_congr env w loc_ent (a ++ List.replicate k '/') a
      (by simp [ha]) ha (by rw [head?_append_of_ne_nil ha])
      (fun g o => by rw [name_components_trailing])
    have hc := h.1
    simp only [NameiRet.core, Prod.mk.injEq] at hc
    exact ⟨hc.1, hc.2.1, hc.2.2, h.2⟩

/-- Witness for C12: in the concrete file, `/a//b///` resolves exactly as `/a/b`, to the
entry of `/a/b` inside the group `/a`. -/
theorem C12_slash_normalisation_witness :
    (H5G_namei simGEnv simG (some simAEnt) (some ['/', 'a', '/', '/', 'b', '/', '/', '/'])).1.ret_value
      = SUCCEED ∧
    (H5G_namei simGEnv simG (some simAEnt) (some ['/', 'a', '/', '/', 'b', '/', '/', '/'])).1.obj_ent
      = simBEnt ∧
    (H5G_namei simGEnv simG (some simAEnt) (some ['/', 'a', '/', '/', 'b', '/', '/', '/'])).1.ret_value
      = (H5G_namei simGEnv simG (some simAEnt) (some ['/', 'a', '/', '/', 'b'])).1.ret_value ∧
    (H5G_namei simGEnv simG (some simAEnt) (some ['/', 'a', '/', '/', 'b'])).1.obj_ent
      = (H5G_namei simGEnv simG (some simAEnt) (some ['/', 'a', '/', 'b'])).1.obj_ent :=
  ⟨by decide, by decide,
   ((C12_slash_normalisation simGEnv simG (some simAEnt) ['/', 'a', '/', '/', 'b'] [] 3).2
      (by decide)).1,
   (C12_slash_normalisation simGEnv simG (some simAEnt) ['/', 'a'] ['b'] 1).1.2.2.1⟩

end H5G

namespace H5G

/-- C13: the component `.` is a no-op.  For every world, starting location and name,
`H5G_namei` returns the same status, `grp_ent` and `obj_ent` (`NameiRet.core`) and leaves
the same world when a component `.` is inserted after any slash of the name, in front of
a relative name, or at the end of a non-empty name (deletion is the same equation read
from right to left).  No call `H5G_stab_find(_, ".")` is ever made by `H5G_namei`, and
the name `.` resolves, without any lookup, to the starting location's own entry. -/
theorem C13_dot_component {ω : Type} (env : GEnv ω) (w : World ω)
    (loc_ent : Option H5G_entry_t) (a b : List Char) :
    ((H5G_namei env w loc_ent (some (a ++ '/' :: '.' :: '/' :: b))).1.core
        = (H5G_namei env w loc_ent (some (a ++ '/' :: b))).1.core ∧
     (H5G_namei env w loc_ent (some (a ++ '/' :: '.' :: '/' :: b))).2
        = (H5G_namei env w loc_ent (some (a ++ '/' :: b))).2) ∧
    (b ≠ [] → b.head? ≠ some '/' →
     (H5G_namei env w loc_ent (some ('.' :: '/' :: b))).1.core
        = (H5G_namei env w loc_ent (some b)).1.core ∧
     (H5G_namei env w loc_ent (some ('.' :: '/' :: b))).2
        = (H5G_namei env w loc_ent (some b)).2) ∧
    (a ≠ [] →
     (H5G_namei env w loc_ent (some (a ++ ['/', '.']))).1.core
        = (H5G_namei env w loc_ent (some a)).1.core ∧
     (H5G_namei env w loc_ent (some (a ++ ['/', '.']))).2
        = (H5G_namei env w loc_ent (some a)).2) ∧
    (∀ (name : Option (List Char)) (g : H5G_entry_t),
      Call.H5G_stab_find g ['.'] ∈ (H5G_namei env w loc_ent name).2.log →
      Call.H5G_stab_find g ['.'] ∈ w.log) ∧
    (∀ loc : H5G_entry_t,
      H5G_namei env w (some loc) (some ['.']) = (⟨SUCCEED, [], H5G_entry_undef, loc⟩, w)) := by
  refine ⟨?_, ?_, ?_, ?_, ?_⟩
  · exact H5G_namei_congr env w loc_ent _ _ (by simp) (by simp)
      (head?_append_cons a _ '/' _)
      (fun g o => resolve_components_congr_dot env w _ _
        (name_components_aux_dot_inside a b []) g o)
  · intro hb hh
    refine H5G_namei_congr env w loc_ent _ _ (by simp) hb ?_
      (fun g o => resolve_components_congr_dot env w _ _ (name_components_dot_first b) g o)
    constructor
    · intro h
      simp at h
    · intro h
      exact absurd h hh
  · intro ha
    refine H5G_namei_congr env w loc_ent _ _ (by simp [ha]) ha
      (by rw [head?_append_of_ne_nil ha])
      (fun g o => resolve_components_congr_dot env w _ _ ?_ g o)
    rw [name_components, name_components_aux_dot_last]
    simp [name_components]
  · intro name g h
    exact H5G_namei_no_dot_lookup env w loc_ent name g h
  · intro loc
    simp [H5G_namei, H5G_namei_loop, H5G_component]

/-- Witness for C13: in the concrete file, from the group `/a`, the names `./b` and
`b/.` resolve as `b` does, to the entry of `/a/b`. -/
theorem C13_dot_component_witness :
    ((H5G_namei simGEnv simG (some simAEnt) (some ['.', '/', 'b'])).1.core
        = (H5G_namei simGEnv simG (some simAEnt) (some ['b'])).1.core ∧
     (H5G_namei simGEnv simG (some simAEnt) (some ['.', '/', 'b'])).2
        = (H5G_namei simGEnv simG (some simAEnt) (some ['b'])).2) ∧
    ((H5G_namei simGEnv simG (some simAEnt) (some ['b', '/', '.'])).1.core
        = (H5G_namei simGEnv simG (some simAEnt) (some ['b'])).1.core ∧
     (H5G_namei simGEnv simG (some simAEnt) (some ['b', '/', '.'])).2
        = (H5G_namei simGEnv simG (some simAEnt) (some ['b'])).2) ∧
    (H5G_namei simGEnv simG (some simAEnt) (some ['b'])).1.core = (SUCCEED, simAEnt, simBEnt) :=
  ⟨(C13_dot_component simGEnv simG (some simAEnt) [] ['b']).2.1 (by decide) (by decide),
   (C13_dot_component simGEnv simG (some simAEnt) ['b'] []).2.2.1 (by decide),
   by decide⟩

/-- C14: absolute names start at the root.  For a name beginning with `/` the whole
result of `H5G_namei` (status, `rest`, `grp_ent`, `obj_ent`, world) is the same for any
two starting locations with the same file, and the first symbol-table lookup, if there is
one, is made in the root group's entry.  The name `/` resolves with `SUCCEED` to the root
group's entry, without any lookup (the world is unchanged) and with an undefined object
header address in `grp_ent`.  For a non-empty name not beginning with `/` the first
lookup, if there is one, is made in `loc_ent` itself; when there is none, `obj_ent` is
`loc_ent`. -/
theorem C14_absolute_names {ω : Type} (env : GEnv ω) (w : World ω) (loc loc' : H5G_entry_t)
    (n : List Char) :
    (n.head? = some '/' → loc.file = loc'.file →
      H5G_namei env w (some loc) (some n) = H5G_namei env w (some loc') (some n)) ∧
    (n.head? = some '/' →
      ((H5G_namei env w (some loc) (some n)).2.log = w.log ∧
        (H5G_namei env w (some loc) (some n)).1.obj_ent
          = (w.grp (w.file loc.file).shared.root_grp).ent) ∨
      ∃ comp more, (H5G_namei env w (some loc) (some n)).2.log
        = w.log ++ Call.H5G_stab_find (w.grp (w.file loc.file).shared.root_grp).ent comp
            :: more) ∧
    (H5G_namei env w (some loc) (some ['/'])
      = (⟨SUCCEED, [], H5G_entry_undef, (w.grp (w.file loc.file).shared.root_grp).ent⟩, w) ∧
     H5G_entry_undef.header = HADDR_UNDEF) ∧
    (n ≠ [] → n.head? ≠ some '/' →
      ((H5G_namei env w (some loc) (some n)).2.log = w.log ∧
        (H5G_namei env w (some loc) (some n)).1.obj_ent = loc) ∨
      ∃ comp more, (H5G_namei env w (some loc) (some n)).2.log
        = w.log ++ Call.H5G_stab_find loc comp :: more) := by
  refine ⟨?_, ?_, ⟨?_, rfl⟩, ?_⟩
  · intro hh hf
    have hn : n ≠ [] := by
      intro h
      rw [h] at hh
      simp at hh
    simp only [H5G_namei, if_neg hn, if_pos hh, hf]
  · intro hh
    have hn : n ≠ [] := by
      intro h
      rw [h] at hh
      simp at hh
    have h := H5G_namei_first_lookup env w loc n hn
    rw [if_pos hh] at h
    exact h
  · simp [H5G_namei, H5G_namei_loop, H5G_component]
  · intro hn hh
    have h := H5G_namei_first_lookup env w loc n hn
    rw [if_neg hh] at h
    exact h

/-- Witness for C14: in the concrete file, `/a` resolves to the entry of `/a` from the
group `/a` and from the group `/a/b` alike, the lookup being made in the root group;
the relative name `b` is looked up in the starting group `/a`. -/
theorem C14_absolute_names_witness :
    H5G_namei simGEnv simG (some simAEnt) (some ['/', 'a'])
      = H5G_namei simGEnv simG (some simBEnt) (some ['/', 'a']) ∧
    (H5G_namei simGEnv simG (some simAEnt) (some ['/', 'a'])).1.core
      = (SUCCEED, simRootEnt, simAEnt) ∧
    (H5G_namei simGEnv simG (some simAEnt) (some ['b'])).2.log
      = [Call.H5G_stab_find simAEnt ['b']] ∧
    (((H5G_namei simGEnv simG (some simAEnt) (some ['b'])).2.log = simG.log ∧
        (H5G_namei simGEnv simG (some simAEnt) (some ['b'])).1.obj_ent = simAEnt) ∨
      ∃ comp more, (H5G_namei simGEnv simG (some simAEnt) (some ['b'])).2.log
        = simG.log ++ Call.H5G_stab_find simAEnt comp :: more) :=
  ⟨(C14_absolute_names simGEnv simG simAEnt simBEnt ['/', 'a']).1 (by decide) (by decide),
   by decide, by decide,
   (C14_absolute_names simGEnv simG simAEnt simBEnt ['b']).2.2.2 (by decide) (by decide)⟩

end H5G

/-! ## Claims about `H5G_insert` and `H5G_create` -/

namespace H5G

/-- C15, evaluated on the concrete file: from the root group, `H5G_insert` and
`H5G_create` with the name `foo` succeed and store the entry under `foo` in the root
group's table; with the name `foo/` both fail with `H5E_NOTFOUND` ("component not found",
"missing component") and leave the symbol tables and link counts as they were.  The
test `if (H5G_component(rest + nchars, NULL))` is a test of a pointer that is never
`NULL`, so the branch that would cut the trailing slashes off is never reached. -/
theorem C15_trailing_slash_rejected :
    ((H5G_insert simGEnv simG 1 ['f', 'o', 'o'] simNewEnt).1 = SUCCEED ∧
     (H5G_insert simGEnv simG 1 ['f', 'o', 'o'] simNewEnt).2.ext.tables
       = simExt.tables ++ [(96, ['f', 'o', 'o'], simNewEnt)]) ∧
    ((H5G_insert simGEnv simG 1 ['f', 'o', 'o', '/'] simNewEnt).1 = FAIL ∧
     (H5G_insert simGEnv simG 1 ['f', 'o', 'o', '/'] simNewEnt).2.errs
       = [⟨H5E_SYM, H5E_NOTFOUND, "component not found"⟩] ∧
     (H5G_insert simGEnv simG 1 ['f', 'o', 'o', '/'] simNewEnt).2.ext = simExt) ∧
    ((H5G_create simGEnv simG 1 ['f', 'o', 'o'] 0).1 = 10 ∧
     (H5G_create simGEnv simG 1 ['f', 'o', 'o'] 0).2.ext.tables
       = simExt.tables ++ [(96, ['f', 'o', 'o'], ⟨1000, 1, 1008⟩)]) ∧
    ((H5G_create simGEnv simG 1 ['f', 'o', 'o', '/'] 0).1 = 0 ∧
     (H5G_create simGEnv simG 1 ['f', 'o', 'o', '/'] 0).2.errs
       = [⟨H5E_SYM, H5E_NOTFOUND, "missing component"⟩] ∧
     (H5G_create simGEnv simG 1 ['f', 'o', 'o', '/'] 0).2.ext = simExt) := by
  refine ⟨⟨?_, ?_⟩, ⟨?_, ?_, ?_⟩, ⟨?_, ?_⟩, ⟨?_, ?_, ?_⟩⟩ <;> decide

set_option maxRecDepth 1000000 in
/-- C16, evaluated on the concrete file: from the root group the name `a/x...x` with a
final component of 1024 characters names an object in the group `/a` (header 200), and
`H5G_insert` succeeds on it, but the entry is stored in the table of the root group
(header 96), the group that holds `a`: `H5G_namei` stops at the over-long component with
`grp_ent` still one level up, and `H5G_insert` takes every failure of `H5G_namei` for
"not found".  With 1023 characters the entry goes into the table of `/a`. -/
theorem C16_long_component_misplaced :
    (H5G_namei simGEnv simG (H5G_entof simG 1) (some ['a'])).1.obj_ent = simAEnt ∧
    simAEnt.header = 200 ∧ simRootEnt.header = 96 ∧
    (H5G_insert simGEnv simG 1 ('a' :: '/' :: List.replicate 1024 'x') simNewEnt).1 = SUCCEED ∧
    (H5G_insert simGEnv simG 1 ('a' :: '/' :: List.replicate 1024 'x') simNewEnt).2.ext.tables
      = simExt.tables ++ [(96, List.replicate 1024 'x', simNewEnt)] ∧
    (H5G_insert simGEnv simG 1 ('a' :: '/' :: List.replicate 1024 'x') simNewEnt).2.log
      = [Call.H5G_stab_find simRootEnt ['a'], Call.H5O_link simNewEnt 1,
         Call.H5G_stab_insert simRootEnt (List.replicate 1024 'x') simNewEnt] ∧
    (H5G_insert simGEnv simG 1 ('a' :: '/' :: List.replicate 1023 'x') simNewEnt).1 = SUCCEED ∧
    (H5G_insert simGEnv simG 1 ('a' :: '/' :: List.replicate 1023 'x') simNewEnt).2.ext.tables
      = simExt.tables ++ [(200, List.replicate 1023 'x', simNewEnt)] := by
  refine ⟨?_, ?_, ?_, ?_, ?_, ?_, ?_, ?_⟩ <;> decide

end H5G

/-! ## Claims about the working-group stack -/

namespace H5G

/-- C17: push/pop round trip.  For every world and every open group `grp`
(`nref >= 1`), `H5G_push(grp)` succeeds, puts `grp` on top of the stack of its file, makes
it the current working group and raises its reference count by one; a following
`H5G_pop` on that file succeeds and gives back the world as it was before the push: the
same stacks, the same reference counts, the same trace (no `H5O_close` was called) and
the same external state. -/
theorem C17_push_pop {ω : Type} (env : GEnv ω) (w : World ω) (grp : Ptr)
    (hn : 1 ≤ (w.grp grp).nref) :
    (H5G_push w grp).1 = SUCCEED ∧
    ((H5G_push w grp).2.file (H5G_fileof w grp)).cwg_stack
      = grp :: (w.file (H5G_fileof w grp)).cwg_stack ∧
    H5G_getcwg (H5G_push w grp).2 (H5G_fileof w grp) = grp ∧
    ((H5G_push w grp).2.grp grp).nref = (w.grp grp).nref + 1 ∧
    (H5G_pop env (H5G_push w grp).2 (H5G_fileof w grp)).1 = SUCCEED ∧
    (H5G_pop env (H5G_push w grp).2 (H5G_fileof w grp)).2 = w := by
  have hpush : (H5G_push w grp).2
      = { w with
          grp := Function.update w.grp grp { w.grp grp with nref := (w.grp grp).nref + 1 }
          file := Function.update w.file (H5G_fileof w grp)
            { w.file (H5G_fileof w grp) with
              cwg_stack := grp :: (w.file (H5G_fileof w grp)).cwg_stack } } := by
    simp [H5G_push, H5G_reopen, H5G_fileof, World.set_stack, World.set_nref]
  have hstack : ((H5G_push w grp).2.file (H5G_fileof w grp)).cwg_stack
      = grp :: (w.file (H5G_fileof w grp)).cwg_stack := by
    rw [hpush]
    simp
  have hnref : ((H5G_push w grp).2.grp grp).nref = (w.grp grp).nref + 1 := by
    rw [hpush]
    simp
  have hne : ((H5G_push w grp).2.grp grp).nref ≠ 1 := by
    rw [hnref]
    omega
  have hclose := H5G_close_shared env (H5G_push w grp).2 grp hne
  have hS : ¬ (SUCCEED < 0) := by decide
  refine ⟨rfl, hstack, ?_, hnref, ?_, ?_⟩
  · simp [H5G_getcwg, hstack]
  · simp only [H5G_pop, hstack, hclose, if_neg hS]
  · simp only [H5G_pop, hstack, hclose, if_neg hS, hnref]
    rw [hpush]
    have h0 : (w.grp grp).nref + 1 - 1 = (w.grp grp).nref := by omega
    apply World.ext_eq
    · simp only [World.set_stack, World.set_nref, Function.update_same, Function.update_idem, h0]
      exact Function.update_eq_self _ _
    · simp only [World.set_stack, World.set_nref, Function.update_same, Function.update_idem]
      exact Function.update_eq_self _ _
    · rfl
    · rfl
    · rfl
    · rfl

/-- Witness for C17: in the concrete world the group `/a` (address 2, held once) is
pushed and popped. -/
theorem C17_push_pop_witness :
    H5G_getcwg (H5G_push simG 2).2 (H5G_fileof simG 2) = 2 ∧
    ((H5G_push simG 2).2.grp 2).nref = 2 ∧
    (H5G_pop simGEnv (H5G_push simG 2).2 (H5G_fileof simG 2)).1 = SUCCEED ∧
    (H5G_pop simGEnv (H5G_push simG 2).2 (H5G_fileof simG 2)).2 = simG :=
  have h := C17_push_pop simGEnv simG 2 (by decide)
  ⟨h.2.2.1, h.2.2.2.1, h.2.2.2.2.1, h.2.2.2.2.2⟩

/-- C18: `H5G_pop` fails on an empty stack; whenever it fails, the stacks of all files
and all groups are as before; popping the only entry of a stack succeeds when that group
can be closed, and then the stack is empty and the current working group is the root
group; a file with an empty stack has the root group as its current working group. -/
theorem C18_pop_failure {ω : Type} (env : GEnv ω) (w : World ω) (f : Ptr) :
    ((w.file f).cwg_stack = [] →
      (H5G_pop env w f).1 = FAIL ∧
      (H5G_pop env w f).2 = w.push ⟨H5E_SYM, H5E_CWG, "stack is empty"⟩) ∧
    ((H5G_pop env w f).1 < 0 →
      (H5G_pop env w f).1 = FAIL ∧ (H5G_pop env w f).2.file = w.file ∧
      (H5G_pop env w f).2.grp = w.grp) ∧
    (∀ top, (w.file f).cwg_stack = [top] → ¬ (H5G_close env w top).1 < 0 →
      (H5G_pop env w f).1 = SUCCEED ∧ ((H5G_pop env w f).2.file f).cwg_stack = [] ∧
      H5G_getcwg (H5G_pop env w f).2 f = (w.file f).shared.root_grp) ∧
    ((w.file f).cwg_stack = [] → H5G_getcwg w f = (w.file f).shared.root_grp) := by
  have hS : ¬ (SUCCEED < 0) := by decide
  refine ⟨?_, ?_, ?_, ?_⟩
  · intro h
    simp [H5G_pop, h]
  · intro h
    unfold H5G_pop at h ⊢
    cases hs : (w.file f).cwg_stack with
    | nil => simp [World.push]
    | cons top next =>
      simp only [hs] at h ⊢
      by_cases hc : (H5G_close env w top).1 < 0
      · rw [if_pos hc]
        exact ⟨rfl, H5G_close_file env w top, (H5G_close_fail env w top hc).2⟩
      · simp only [if_neg hc] at h
        exact absurd h hS
  · intro top hs hc
    simp only [H5G_pop, hs, if_neg hc]
    simp [World.set_stack, H5G_getcwg, H5G_close_file]
  · intro h
    simp [H5G_getcwg, h]

/-- Witness for C18: the concrete world has an empty stack, so `H5G_pop` fails there and
the current working group is the root group; after a push of `/a` the only entry is
popped again. -/
theorem C18_pop_failure_witness :
    ((H5G_pop simGEnv simG 1).1 = FAIL ∧
      (H5G_pop simGEnv simG 1).2 = simG.push ⟨H5E_SYM, H5E_CWG, "stack is empty"⟩) ∧
    ((H5G_pop simGEnv simG 1).2.file = simG.file ∧ (H5G_pop simGEnv simG 1).2.grp = simG.grp) ∧
    ((H5G_pop simGEnv (H5G_push simG 2).2 1).1 = SUCCEED ∧
      ((H5G_pop simGEnv (H5G_push simG 2).2 1).2.file 1).cwg_stack = [] ∧
      H5G_getcwg (H5G_pop simGEnv (H5G_push simG 2).2 1).2 1 = 1) ∧
    H5G_getcwg simG 1 = 1 :=
  ⟨(C18_pop_failure simGEnv simG 1).1 rfl,
   ((C18_pop_failure simGEnv simG 1).2.1 (by decide)).2,
   (C18_pop_failure simGEnv (H5G_push simG 2).2 1).2.2.1 2 rfl (by decide),
   (C18_pop_failure simGEnv simG 1).2.2.2 rfl⟩

end H5G

namespace H5G

/-- C19: `H5G_set` affects only the top of the working-group stack.  On an empty stack
it succeeds and leaves the one-entry stack holding `grp`, whose reference count went up
by one.  On a stack `top :: below`, a successful call leaves `grp :: below` (same depth,
same entries below the top), has lowered the count of `top` by one and raised the count
of `grp` by one (the two cancel when `grp` is `top`), and leaves every other group and
the stack of every other file as they were.  If closing `top` fails, the call fails and
all stacks and reference counts are unchanged. -/
theorem C19_set_top_only {ω : Type} (env : GEnv ω) (w : World ω) (grp : Ptr) :
    ((w.file (H5G_fileof w grp)).cwg_stack = [] →
      (H5G_set env w grp).1 = SUCCEED ∧
      ((H5G_set env w grp).2.file (H5G_fileof w grp)).cwg_stack = [grp] ∧
      ((H5G_set env w grp).2.grp grp).nref = (w.grp grp).nref + 1) ∧
    (∀ top below, (w.file (H5G_fileof w grp)).cwg_stack = top :: below →
      (H5G_set env w grp).1 = SUCCEED →
      ((H5G_set env w grp).2.file (H5G_fileof w grp)).cwg_stack = grp :: below ∧
      (grp ≠ top →
        ((H5G_set env w grp).2.grp top).nref = (w.grp top).nref - 1 ∧
        ((H5G_set env w grp).2.grp grp).nref = (w.grp grp).nref + 1) ∧
      (grp = top → ((H5G_set env w grp).2.grp grp).nref = (w.grp grp).nref) ∧
      (∀ g, g ≠ top → g ≠ grp → (H5G_set env w grp).2.grp g = w.grp g) ∧
      (∀ f, f ≠ H5G_fileof w grp → (H5G_set env w grp).2.file f = w.file f)) ∧
    (∀ top below, (w.file (H5G_fileof w grp)).cwg_stack = top :: below →
      (H5G_close env w top).1 < 0 →
      (H5G_set env w grp).1 = FAIL ∧ (H5G_set env w grp).2.file = w.file ∧
      (H5G_set env w grp).2.grp = w.grp) := by
  have hFS : FAIL ≠ SUCCEED := by decide
  refine ⟨?_, ?_, ?_⟩
  · intro hs
    simp [H5G_set, hs, H5G_reopen, World.set_stack, World.set_nref]
  · intro top below hs hok
    by_cases hc : (H5G_close env w top).1 < 0
    · exfalso
      simp only [H5G_set, hs, if_pos hc] at hok
      exact hFS hok
    · have hg := (H5G_close_ok env w top hc).2
      have hfile := H5G_close_file env w top
      simp only [H5G_set, hs, if_neg hc, H5G_reopen, World.set_stack, World.set_nref, hg, hfile]
      refine ⟨?_, ?_, ?_, ?_, ?_⟩
      · simp [hs]
      · intro hne
        constructor
        · simp [Function.update_noteq (Ne.symm hne)]
        · simp [Function.update_noteq hne]
      · intro heq
        subst heq
        simp
      · intro g h1 h2
        simp [Function.update_noteq h1, Function.update_noteq h2]
      · intro f hf
        simp [Function.update_noteq hf]
  · intro top below hs hc
    simp only [H5G_set, hs]
    rw [if_pos hc]
    exact ⟨rfl, H5G_close_file env w top, (H5G_close_fail env w top hc).2⟩

/-- Witness for C19: in the concrete world, `/a` is set on the empty stack, then `/a/b`
is set over it; with `H5O_close` failing and `/a` on the stack held once, setting `/a/b`
fails and changes neither stacks nor groups. -/
theorem C19_set_top_only_witness :
    ((H5G_set simGEnv simG 2).1 = SUCCEED ∧
      ((H5G_set simGEnv simG 2).2.file (H5G_fileof simG 2)).cwg_stack = [2] ∧
      ((H5G_set simGEnv simG 2).2.grp 2).nref = (simG.grp 2).nref + 1) ∧
    (((H5G_set simGEnv (H5G_set simGEnv simG 2).2 3).2.file 1).cwg_stack = [3] ∧
      ((H5G_set simGEnv (H5G_set simGEnv simG 2).2 3).2.grp 2).nref = 1 ∧
      ((H5G_set simGEnv (H5G_set simGEnv simG 2).2 3).2.grp 3).nref = 2) ∧
    ((H5G_set simGEnv (simGCloseFault.set_stack 1 [2]) 3).1 = FAIL ∧
      (H5G_set simGEnv (simGCloseFault.set_stack 1 [2]) 3).2.file
        = (simGCloseFault.set_stack 1 [2]).file ∧
      (H5G_set simGEnv (simGCloseFault.set_stack 1 [2]) 3).2.grp
        = (simGCloseFault.set_stack 1 [2]).grp) :=
  have h := (C19_set_top_only simGEnv (H5G_set simGEnv simG 2).2 3).2.1 2 [] rfl rfl
  ⟨(C19_set_top_only simGEnv simG 2).1 rfl,
   ⟨h.1, (h.2.1 (by decide)).1, (h.2.1 (by decide)).2⟩,
   (C19_set_top_only simGEnv (simGCloseFault.set_stack 1 [2]) 3).2.2 2 [] rfl (by decide)⟩

end H5G

/-! ## Claims about the argument checks of the group API -/

namespace H5G

/-- C20: `H5Gcreate`, `H5Gopen`, `H5Gset`, `H5Gpush` and `H5Giterate` reject a missing
name.  With a valid location and a name that is `NULL` or empty, each returns `FAIL` and
leaves the world as it was but for one pushed record, the bad-value argument error: no
lookup, no creation, no change of a working group.  With an invalid location each returns
`FAIL` with the bad-type error "not a location" pushed last, whatever the name, on the
world `H5G_loc` left, which differs from the original in the error stack only.
`H5Giterate` with a valid location and a name rejects a `NULL` operator likewise. -/
theorem C20_no_name_rejected {ω : Type} (env : GEnv ω) (w : World ω) (loc_id : hid_t)
    (name : Option (List Char)) (size_hint : Nat) (idx : Option Int) (op op_data : Nat) :
    ((H5G_loc env w loc_id).1 ≠ 0 → (name = none ∨ name = some []) →
      H5Gcreate env w loc_id name size_hint
        = (FAIL, w.push ⟨H5E_ARGS, H5E_BADVALUE, "no name given"⟩) ∧
      H5Gopen env w loc_id name = (FAIL, w.push ⟨H5E_ARGS, H5E_BADVALUE, "no name"⟩) ∧
      H5Gset env w loc_id name = (FAIL, w.push ⟨H5E_ARGS, H5E_BADVALUE, "no name"⟩) ∧
      H5Gpush env w loc_id name = (FAIL, w.push ⟨H5E_ARGS, H5E_BADVALUE, "no name"⟩) ∧
      H5Giterate env w loc_id name idx op op_data
        = (FAIL, w.push ⟨H5E_ARGS, H5E_BADVALUE, "no name specified"⟩)) ∧
    ((H5G_loc env w loc_id).1 = 0 →
      H5Gcreate env w loc_id name size_hint
        = (FAIL, (H5G_loc env w loc_id).2.push ⟨H5E_ARGS, H5E_BADTYPE, "not a location"⟩) ∧
      H5Gopen env w loc_id name
        = (FAIL, (H5G_loc env w loc_id).2.push ⟨H5E_ARGS, H5E_BADTYPE, "not a location"⟩) ∧
      H5Gset env w loc_id name
        = (FAIL, (H5G_loc env w loc_id).2.push ⟨H5E_ARGS, H5E_BADTYPE, "not a location"⟩) ∧
      H5Gpush env w loc_id name
        = (FAIL, (H5G_loc env w loc_id).2.push ⟨H5E_ARGS, H5E_BADTYPE, "not a location"⟩) ∧
      H5Giterate env w loc_id name idx op op_data
        = (FAIL, (H5G_loc env w loc_id).2.push ⟨H5E_ARGS, H5E_BADTYPE, "not a location"⟩)) ∧
    ((H5G_loc env w loc_id).1 ≠ 0 → ¬ (name = none ∨ name = some []) →
      H5Giterate env w loc_id name idx 0 op_data
        = (FAIL, w.push ⟨H5E_ARGS, H5E_BADVALUE, "no operator specified"⟩)) ∧
    ((H5G_loc env w loc_id).2.grp = w.grp ∧ (H5G_loc env w loc_id).2.file = w.file ∧
      (H5G_loc env w loc_id).2.ext = w.ext ∧ (H5G_loc env w loc_id).2.log = w.log ∧
      (H5G_loc env w loc_id).2.brk = w.brk) := by
  refine ⟨?_, ?_, ?_, H5G_loc_frame env w loc_id⟩
  · intro hloc hname
    have hn := (no_name_iff name).2 hname
    have hw := H5G_loc_ok env w loc_id hloc
    refine ⟨?_, ?_, ?_, ?_, ?_⟩
    · simp only [H5Gcreate, if_neg hloc, hn, if_true, hw]
    · simp only [H5Gopen, if_neg hloc, hn, if_true, hw]
    · simp only [H5Gset, if_neg hloc, hn, if_true, hw]
    · simp only [H5Gpush, if_neg hloc, hn, if_true, hw]
    · simp only [H5Giterate, if_neg hloc, hn, if_true, hw]
  · intro hloc
    refine ⟨?_, ?_, ?_, ?_, ?_⟩
    · simp only [H5Gcreate, if_pos hloc]
    · simp only [H5Gopen, if_pos hloc]
    · simp only [H5Gset, if_pos hloc]
    · simp only [H5Gpush, if_pos hloc]
    · simp only [H5Giterate, if_pos hloc]
  · intro hloc hname
    have hn : no_name name = false := by
      cases h : no_name name with
      | false => rfl
      | true => exact absurd ((no_name_iff name).1 h) hname
    have hw := H5G_loc_ok env w loc_id hloc
    simp only [H5Giterate, if_neg hloc, hn, hw]
    simp

/-- Witness for C20: in the concrete world identifier 1 is the file and identifier 77 is
nothing. -/
theorem C20_no_name_rejected_witness :
    (H5Gcreate simGEnv simG 1 none 0 = (FAIL, simG.push ⟨H5E_ARGS, H5E_BADVALUE, "no name given"⟩) ∧
      H5Gopen simGEnv simG 1 none = (FAIL, simG.push ⟨H5E_ARGS, H5E_BADVALUE, "no name"⟩) ∧
      H5Gset simGEnv simG 1 none = (FAIL, simG.push ⟨H5E_ARGS, H5E_BADVALUE, "no name"⟩) ∧
      H5Gpush simGEnv simG 1 none = (FAIL, simG.push ⟨H5E_ARGS, H5E_BADVALUE, "no name"⟩) ∧
      H5Giterate simGEnv simG 1 none none 5 0
        = (FAIL, simG.push ⟨H5E_ARGS, H5E_BADVALUE, "no name specified"⟩)) ∧
    (H5Gcreate simGEnv simG 77 (some []) 0).2.errs
      = [⟨H5E_ARGS, H5E_BADTYPE, "not a location"⟩, ⟨H5E_ARGS, H5E_BADTYPE, "not a location"⟩] ∧
    H5Giterate simGEnv simG 1 (some ['a']) none 0 0
      = (FAIL, simG.push ⟨H5E_ARGS, H5E_BADVALUE, "no operator specified"⟩) :=
  ⟨(C20_no_name_rejected simGEnv simG 1 none 0 none 5 0).1 (by decide) (Or.inl rfl),
   by
    have h := ((C20_no_name_rejected simGEnv simG 77 (some []) 0 none 5 0).2.1 (by decide)).1
    rw [h]
    decide,
   (C20_no_name_rejected simGEnv simG 1 (some ['a']) 0 none 5 0).2.2.1 (by decide) (by decide)⟩

end H5G

/-! ## Claims about requests that start in temporary space -/

/-- C22, as stated, fails on the code: with `tmp_addr = 4096` (defined) the request at
`addr = 5000` starts in temporary space, and for `size = 2^64 - 4990` (a `size_t` value)
the sum `addr + size` taken modulo `2^64` is `10`, below `tmp_addr`: the guard
`H5F_addr_le(tmp_addr, addr + size)` is false, so the read and the write are not
rejected; the property list is looked up, the accumulator is called and both calls
succeed. -/
theorem C22_counterexample :
    H5F_addr_defined 4096 = true ∧ 4096 ≤ 5000 ∧ 2 ^ 64 - 4990 < 2 ^ 64 ∧
    (5000 + (2 ^ 64 - 4990)) % 2 ^ 64 = 10 ∧
    (H5F_block_read simEnv (simFile 4096 []) H5FD_MEM_DRAW 5000 (2 ^ 64 - 4990) 1 [] simWorld).ret_value
      = SUCCEED ∧
    (H5F_block_read simEnv (simFile 4096 []) H5FD_MEM_DRAW 5000 (2 ^ 64 - 4990) 1 [] simWorld).trace
      = [Event.H5I_object 1,
         Event.H5F__accum_read ⟨simFile 4096 [], 1⟩ H5FD_MEM_DRAW 5000 (2 ^ 64 - 4990) []] ∧
    (H5F_block_write simEnv (simFile 4096 []) H5FD_MEM_DRAW 5000 (2 ^ 64 - 4990) 1 [7] simWorld).ret_value
      = SUCCEED ∧
    (H5F_block_write simEnv (simFile 4096 []) H5FD_MEM_DRAW 5000 (2 ^ 64 - 4990) 1 [7] simWorld).trace
      = [Event.H5I_object 1,
         Event.H5F__accum_write ⟨simFile 4096 [], 1⟩ H5FD_MEM_DRAW 5000 (2 ^ 64 - 4990) [7]] := by
  refine ⟨by decide, by decide, by decide, by decide, ?_, ?_, ?_, ?_⟩ <;> rfl

/-- C22, amended: when `tmp_addr` is defined and the request starts in temporary space
(`addr >= tmp_addr`), `H5F_block_read` and `H5F_block_write` reject it with the bad-range
I/O error, before any lookup or accumulator call, for every size for which `addr + size`
stays below `2^64 - 1` (no wrap-around, and the sum is not the undefined address).  In
general, whatever the size, the request is rejected exactly when the sum taken modulo
`2^64` is a defined address not below `tmp_addr`. -/
theorem C22_start_in_temporary_space {σ : Type} (env : Env σ) (f : H5F_t) (type : H5FD_mem_t)
    (addr : haddr_t) (size : Nat) (dxpl_id : hid_t) (buf : List Nat) (w : σ)
    (htmp : H5F_addr_defined f.shared.tmp_addr = true)
    (hstart : f.shared.tmp_addr ≤ addr) :
    (addr + size < 2 ^ 64 - 1 →
      ((H5F_block_read env f type addr size dxpl_id buf w).ret_value = FAIL ∧
       (H5F_block_read env f type addr size dxpl_id buf w).errors
         = [⟨ H5E_IO, H5E_BADRANGE, "attempting I/O in temporary file space"⟩] ∧
       (H5F_block_read env f type addr size dxpl_id buf w).trace = []) ∧
      ((H5F_block_write env f type addr size dxpl_id buf w).ret_value = FAIL ∧
       (H5F_block_write env f type addr size dxpl_id buf w).errors
         = [⟨ H5E_IO, H5E_BADRANGE, "attempting I/O in temporary file space"⟩] ∧
       (H5F_block_write env f type addr size dxpl_id buf w).trace = [])) ∧
    (((H5F_block_read env f type addr size dxpl_id buf w).errors
        = [⟨ H5E_IO, H5E_BADRANGE, "attempting I/O in temporary file space"⟩] ↔
      ((addr + size) % 2 ^ 64 ≠ HADDR_UNDEF ∧ f.shared.tmp_addr ≤ (addr + size) % 2 ^ 64)) ∧
     ((H5F_block_write env f type addr size dxpl_id buf w).errors
        = [⟨ H5E_IO, H5E_BADRANGE, "attempting I/O in temporary file space"⟩] ↔
      ((addr + size) % 2 ^ 64 ≠ HADDR_UNDEF ∧ f.shared.tmp_addr ≤ (addr + size) % 2 ^ 64))) := by
  have hx : f.shared.tmp_addr ≠ HADDR_UNDEF := by
    simpa [H5F_addr_defined] using htmp
  constructor
  · intro hsum
    have hle := H5F_addr_le_of_le hx hsum hstart
    simp only [H5F_block_read, H5F_block_write, hle, if_true, and_self]
  · have hiff := H5F_addr_le_eq_true_iff f.shared.tmp_addr ((addr + size) % 2 ^ 64)
    simp only [H5F_block_read, H5F_block_write]
    generalize (addr + size) % 2 ^ 64 = s at hiff ⊢
    cases hb : H5F_addr_le f.shared.tmp_addr s with
    | true =>
      have h3 := hiff.1 hb
      simp only [if_true, true_iff]
      exact ⟨⟨h3.2.1, h3.2.2⟩, ⟨h3.2.1, h3.2.2⟩⟩
    | false =>
      have hno : ¬ (s ≠ HADDR_UNDEF ∧ f.shared.tmp_addr ≤ s) := by
        intro h
        have h4 := hiff.2 ⟨hx, h.1, h.2⟩
        rw [hb] at h4
        exact Bool.noConfusion h4
      simp only [Bool.false_eq_true, if_false, hno, iff_false]
      constructor
      · split
        · simp
        · split <;> simp
      · split
        · simp
        · split <;> simp

/-- Witness for C22 amended: temporary space from 4096, a 16-byte request at 5000. -/
theorem C22_start_in_temporary_space_witness :
    ((H5F_block_read simEnv (simFile 4096 []) H5FD_MEM_DRAW 5000 16 1 [] simWorld).ret_value = FAIL ∧
     (H5F_block_read simEnv (simFile 4096 []) H5FD_MEM_DRAW 5000 16 1 [] simWorld).errors
       = [⟨ H5E_IO, H5E_BADRANGE, "attempting I/O in temporary file space"⟩] ∧
     (H5F_block_read simEnv (simFile 4096 []) H5FD_MEM_DRAW 5000 16 1 [] simWorld).trace = []) ∧
    ((H5F_block_write simEnv (simFile 4096 []) H5FD_MEM_DRAW 5000 16 1 [] simWorld).ret_value = FAIL ∧
     (H5F_block_write simEnv (simFile 4096 []) H5FD_MEM_DRAW 5000 16 1 [] simWorld).errors
       = [⟨ H5E_IO, H5E_BADRANGE, "attempting I/O in temporary file space"⟩] ∧
     (H5F_block_write simEnv (simFile 4096 []) H5FD_MEM_DRAW 5000 16 1 [] simWorld).trace = []) :=
  (C22_start_in_temporary_space simEnv (simFile 4096 []) H5FD_MEM_DRAW 5000 16 1 [] simWorld
    (by decide) (by decide)).1 (by decide)

/-! ## Claims about existing names -/

namespace H5G

/-- C21: an existing name is never overwritten.  If `H5G_namei` resolves the name fully
from `loc`, `H5G_insert` returns `FAIL` having pushed "already exists" and `H5G_create`
returns `NULL` having pushed "already exists"; in both cases the external state (symbol
tables, link counts, object headers) is unchanged, as are the groups, the files and the
allocator, and the trace has grown by symbol-table searches only: no `H5O_link`, no
`H5G_stab_create`, no `H5G_stab_insert`. -/
theorem C21_existing_name_kept {ω : Type} (env : GEnv ω) (w : World ω) (loc : Ptr)
    (name : List Char) (ent : H5G_entry_t) (size_hint : Nat)
    (h : (H5G_namei env w (H5G_entof w loc) (some name)).1.ret_value = SUCCEED) :
    ((H5G_insert env w loc name ent).1 = FAIL ∧
     (H5G_insert env w loc name ent).2.errs
       = w.errs ++ [⟨H5E_SYM, H5E_EXISTS, "already exists"⟩] ∧
     (H5G_insert env w loc name ent).2.ext = w.ext ∧
     (H5G_insert env w loc name ent).2.grp = w.grp ∧
     (H5G_insert env w loc name ent).2.file = w.file ∧
     (H5G_insert env w loc name ent).2.brk = w.brk ∧
     ∃ more, (H5G_insert env w loc name ent).2.log = w.log ++ more ∧
       ∀ c ∈ more, ∃ x n, c = Call.H5G_stab_find x n) ∧
    ((H5G_create env w loc name size_hint).1 = 0 ∧
     (H5G_create env w loc name size_hint).2.errs
       = w.errs ++ [⟨H5E_SYM, H5E_EXISTS, "already exists"⟩] ∧
     (H5G_create env w loc name size_hint).2.ext = w.ext ∧
     (H5G_create env w loc name size_hint).2.grp = w.grp ∧
     (H5G_create env w loc name size_hint).2.file = w.file ∧
     (H5G_create env w loc name size_hint).2.brk = w.brk ∧
     ∃ more, (H5G_create env w loc name size_hint).2.log = w.log ++ more ∧
       ∀ c ∈ more, ∃ x n, c = Call.H5G_stab_find x n) := by
  have hFS : FAIL ≠ SUCCEED := by decide
  have hge : (H5G_namei env w (H5G_entof w loc) (some name)).1.ret_value ≥ 0 := by
    rw [h]
    decide
  have hfr := H5G_namei_frame env w (H5G_entof w loc) (some name)
  have herr : (H5G_namei env w (H5G_entof w loc) (some name)).2.errs = w.errs := by
    rcases H5G_namei_errs env w (H5G_entof w loc) (some name) with h1 | h1
    · exact h1.2
    · rw [h] at h1
      exact absurd h1.1.symm hFS
  have hins : H5G_insert env w loc name ent
      = (FAIL, (H5G_namei env w (H5G_entof w loc) (some name)).2.push
          ⟨H5E_SYM, H5E_EXISTS, "already exists"⟩) := by
    simp only [H5G_insert]
    rw [if_pos hge]
  have hcre : H5G_create env w loc name size_hint
      = (0, (H5G_namei env w (H5G_entof w loc) (some name)).2.push
          ⟨H5E_SYM, H5E_EXISTS, "already exists"⟩) := by
    have h0 : (H5G_namei env w (H5G_entof w loc) (some name)).1.ret_value = 0 := h
    simp only [H5G_create]
    rw [if_pos h0]
  have herr2 : ((H5G_namei env w (H5G_entof w loc) (some name)).2.push
      ⟨H5E_SYM, H5E_EXISTS, "already exists"⟩).errs
      = w.errs ++ [⟨H5E_SYM, H5E_EXISTS, "already exists"⟩] := by
    rw [← herr]
    rfl
  rw [hins, hcre]
  exact ⟨⟨rfl, herr2, hfr.2.2.2.1, hfr.1, hfr.2.1, hfr.2.2.1, hfr.2.2.2.2⟩,
    ⟨rfl, herr2, hfr.2.2.2.1, hfr.1, hfr.2.1, hfr.2.2.1, hfr.2.2.2.2⟩⟩

/-- Witness for C21: in the concrete file the root group already holds `a`; inserting or
creating `a` there fails and changes no table and no link count. -/
theorem C21_existing_name_kept_witness :
    ((H5G_insert simGEnv simG 1 ['a'] simNewEnt).1 = FAIL ∧
     (H5G_insert simGEnv simG 1 ['a'] simNewEnt).2.errs
       = simG.errs ++ [⟨H5E_SYM, H5E_EXISTS, "already exists"⟩] ∧
     (H5G_insert simGEnv simG 1 ['a'] simNewEnt).2.ext = simG.ext) ∧
    ((H5G_create simGEnv simG 1 ['a'] 0).1 = 0 ∧
     (H5G_create simGEnv simG 1 ['a'] 0).2.errs
       = simG.errs ++ [⟨H5E_SYM, H5E_EXISTS, "already exists"⟩] ∧
     (H5G_create simGEnv simG 1 ['a'] 0).2.ext = simG.ext) :=
  have h := C21_existing_name_kept simGEnv simG 1 ['a'] simNewEnt 0 (by decide)
  ⟨⟨h.1.1, h.1.2.1, h.1.2.2.1⟩, ⟨h.2.1, h.2.2.1, h.2.2.2.1⟩⟩

end H5G

namespace H5G

/-- C23: out-parameters of `H5G_namei`, for a non-empty name resolved from a known location.
On success `rest` is the empty tail of the name (the null terminator) and `obj_ent` is what
the last symbol-table lookup returned, the lookup of the last component other than `.` in
the group reported as `grp_ent` (when the name has no such component no lookup is made and
`obj_ent` is the entry the traversal started from). On a failure reported as
"component not found", `rest` is a non-empty suffix of the name that starts a component
(it follows a slash or is the whole name, and does not begin with a slash), `grp_ent` is
the group handed to the last, failing, lookup of that component, and `obj_ent` is the
undefined entry, whose object header address is `HADDR_UNDEF`. The last part relies on the
symbol-table lookup leaving its output entry alone when it fails. -/
theorem C23_out_parameters {ω : Type} (env : GEnv ω) (w : World ω) (loc : H5G_entry_t)
    (n : List Char) (r : NameiRet) (w' : World ω) (hn : n ≠ [])
    (hfind : ∀ (g : H5G_entry_t) (c : List Char) (o : H5G_entry_t) (x : ω),
      (env.H5G_stab_find g c o x).1 < 0 → (env.H5G_stab_find g c o x).2 = o)
    (hr : H5G_namei env w (some loc) (some n) = (r, w')) :
    (r.ret_value = SUCCEED →
      r.rest = [] ∧
      (((name_components n).filter (fun c => decide (c ≠ ['.'])) = [] ∧
          r.obj_ent = (if n.head? = some '/' then (w.grp (w.file loc.file).shared.root_grp).ent
            else loc) ∧
          w' = w) ∨
        ∃ comp more,
          ((name_components n).filter (fun c => decide (c ≠ ['.']))).getLast? = some comp ∧
          w'.log = w.log ++ more ++ [Call.H5G_stab_find r.grp_ent comp] ∧
          ¬ (env.H5G_stab_find r.grp_ent comp H5G_entry_undef w.ext).1 < 0 ∧
          r.obj_ent = (env.H5G_stab_find r.grp_ent comp H5G_entry_undef w.ext).2)) ∧
    (r.ret_value < 0 → w'.errs = w.errs ++ [component_not_found] →
      (∃ pre, n = pre ++ r.rest ∧ (pre = [] ∨ ∃ p, pre = p ++ ['/'])) ∧
      r.rest ≠ [] ∧ r.rest.head? ≠ some '/' ∧
      (∃ more, w'.log
        = w.log ++ more ++ [Call.H5G_stab_find r.grp_ent (r.rest.takeWhile (· ≠ '/'))]) ∧
      (env.H5G_stab_find r.grp_ent (r.rest.takeWhile (· ≠ '/')) H5G_entry_undef w.ext).1 < 0 ∧
      r.obj_ent = H5G_entry_undef ∧
      r.obj_ent.header = HADDR_UNDEF) := by
  obtain ⟨rfl, rfl⟩ : r = (H5G_namei env w (some loc) (some n)).1 ∧
      w' = (H5G_namei env w (some loc) (some n)).2 := by
    rw [hr]
    exact ⟨rfl, rfl⟩
  have hloop : ∃ start, H5G_namei env w (some loc) (some n)
      = H5G_namei_loop env (n.length + 1) n n H5G_entry_undef start w := by
    simp only [H5G_namei, if_neg hn]
    by_cases hh : n.head? = some '/'
    · exact ⟨_, by rw [if_pos hh]⟩
    · exact ⟨_, by rw [if_neg hh]⟩
  obtain ⟨start, hst⟩ := hloop
  have hout := H5G_namei_loop_out env (n.length + 1) n n H5G_entry_undef start w
    (Nat.lt_succ_self _)
  rw [← hst] at hout
  have hres := H5G_namei_eq_resolve env w loc n hn
  have h1 := (Prod.mk.inj hres).1
  have h2 := (Prod.mk.inj hres).2
  refine ⟨fun hs => ⟨hout.1 hs, ?_⟩, fun hf he => ?_⟩
  · have hs' : (resolve_components env (name_components n) H5G_entry_undef
        (if n.head? = some '/' then (w.grp (w.file loc.file).shared.root_grp).ent else loc)
        w).1.1 = SUCCEED := by
      rw [← h1]
      exact hs
    rcases resolve_components_last env _ _ _ _ hs' with ⟨a, b, c⟩ | ⟨comp, more, a, b, c, d⟩
    · left
      refine ⟨a, ?_, h2.trans c⟩
      exact congrArg (fun p => p.2.2) (h1.trans b)
    · right
      rw [← h1, ← h2] at b
      rw [← h1] at c d
      exact ⟨comp, more, a, b, c, d⟩
  · obtain ⟨pre, more, a, b, c, d, e, f, g⟩ := hout.2 hf he
    have hu := hfind _ _ _ _ f
    refine ⟨⟨pre, a, b⟩, c, d, ⟨more, e⟩, f, g.trans hu, ?_⟩
    rw [g.trans hu]
    rfl

theorem C23_out_parameters_witness :
    ((H5G_namei simGEnv simG (some simAEnt) (some ['/', 'a', '/', 'b'])).1.rest = [] ∧
     (H5G_namei simGEnv simG (some simAEnt) (some ['/', 'a', '/', 'b'])).1.obj_ent = simBEnt) ∧
    ((H5G_namei simGEnv simG (some simAEnt) (some ['b', '/', 'c'])).1.rest = ['c'] ∧
     (H5G_namei simGEnv simG (some simAEnt) (some ['b', '/', 'c'])).1.grp_ent = simBEnt ∧
     (H5G_namei simGEnv simG (some simAEnt) (some ['b', '/', 'c'])).1.obj_ent.header
       = HADDR_UNDEF) :=
  have hs := (C23_out_parameters simGEnv simG simAEnt ['/', 'a', '/', 'b'] _ _ (by decide)
    simGEnv_find_frame rfl).1 (by decide)
  have hf := (C23_out_parameters simGEnv simG simAEnt ['b', '/', 'c'] _ _ (by decide)
    simGEnv_find_frame rfl).2 (by decide) (by decide)
  ⟨⟨hs.1, by decide⟩, ⟨by decide, by decide, hf.2.2.2.2.2.2⟩⟩

end H5G

end HDF5
